import Mathlib

/-!
# LCDIFv3 display controller (`mxsfbv3`) and i.MX block-control sequencer

A shallow embedding of `drivers/gpu/drm/mxsfb/mxsfbv3_kms.c`,
`drivers/gpu/drm/mxsfb/mxsfbv3_drv.c`, `drivers/soc/imx/blk-ctl.c` and
`drivers/soc/imx/blk-ctl-imx8mm.c`.

* A `u32` is a natural number; a register read and a register write reduce
  modulo `2 ^ 32`.
* The device is the record `mxsfbv3_drm_private`: the register file behind
  `mxsfb->base`, the optional clocks, the data the driver reads from the DRM
  core (bus formats, adjusted mode, framebuffer, pending event) and the
  trace of the effects performed so far, oldest first.
* Every driver function is a function from device to device which appends
  its effects to the trace in program order.  Debug output and register
  reads are not recorded.
* The block control is the record `imx_blk_ctl` of the namespace `ImxBlkCtl`:
  the register file behind its regmap, the device data with the domain
  table, the bus domain pointer, the return codes its environment will
  answer with, and its own trace.
-/

namespace Mxsfbv3

/-! ## Machine integers and kernel constants -/

/-- Complement `~x` of a mask, as it is seen once converted to `u32`. -/
def not32 (x : Nat) : Nat := (2 ^ 32 - 1) ^^^ (x % 2 ^ 32)

/-- Modelled from the spec: the macro `BIT` of `linux/bits.h` is not among the
sources; it is the single bit `1UL << n` (the display-on bit is bit 31, the
frame-boundary bit is bit 2). -/
def BIT (n : Nat) : Nat := 1 <<< n

/-- Modelled from the spec: the errno `EINVAL` of
`uapi/asm-generic/errno-base.h`, which is not among the sources. -/
def EINVAL : Int := 22

/-- Modelled from the spec: `fourcc_code` of `uapi/drm/drm_fourcc.h`, which is
not among the sources: four ASCII bytes, first byte lowest. -/
def fourcc_code (a b c d : Nat) : Nat := a ||| (b <<< 8) ||| (c <<< 16) ||| (d <<< 24)

/-- Modelled from the spec: 16-bit 1555 without alpha, fourcc `XR15`. -/
def DRM_FORMAT_XRGB1555 : Nat := fourcc_code 0x58 0x52 0x31 0x35
/-- Modelled from the spec: 16-bit 1555 with alpha, fourcc `AR15`. -/
def DRM_FORMAT_ARGB1555 : Nat := fourcc_code 0x41 0x52 0x31 0x35
/-- Modelled from the spec: 16-bit 565, fourcc `RG16`. -/
def DRM_FORMAT_RGB565 : Nat := fourcc_code 0x52 0x47 0x31 0x36
/-- Modelled from the spec: 16-bit 4444 without alpha, fourcc `XR12`. -/
def DRM_FORMAT_XRGB4444 : Nat := fourcc_code 0x58 0x52 0x31 0x32
/-- Modelled from the spec: 16-bit 4444 with alpha, fourcc `AR12`. -/
def DRM_FORMAT_ARGB4444 : Nat := fourcc_code 0x41 0x52 0x31 0x32
/-- Modelled from the spec: 32-bit XRGB, fourcc `XR24`. -/
def DRM_FORMAT_XRGB8888 : Nat := fourcc_code 0x58 0x52 0x32 0x34
/-- Modelled from the spec: 32-bit ARGB, fourcc `AR24`. -/
def DRM_FORMAT_ARGB8888 : Nat := fourcc_code 0x41 0x52 0x32 0x34
/-- Modelled from the spec: 32-bit XBGR, fourcc `XB24`. -/
def DRM_FORMAT_XBGR8888 : Nat := fourcc_code 0x58 0x42 0x32 0x34
/-- Modelled from the spec: 32-bit ABGR, fourcc `AB24`. -/
def DRM_FORMAT_ABGR8888 : Nat := fourcc_code 0x41 0x42 0x32 0x34
/-- Modelled from the spec: 24-bit packed RGB, fourcc `RG24`; a format the
plane does not recognize. -/
def DRM_FORMAT_RGB888 : Nat := fourcc_code 0x52 0x47 0x32 0x34

/-- Modelled from the spec: the 16-bit RGB bus format code of
`uapi/linux/media-bus-format.h`, which is not among the sources. -/
def MEDIA_BUS_FMT_RGB565_1X16 : Nat := 0x1017
/-- Modelled from the spec: the 24-bit RGB bus format code of
`uapi/linux/media-bus-format.h`, which is not among the sources. -/
def MEDIA_BUS_FMT_RGB888_1X24 : Nat := 0x100a

/-! ## `mxsfbv3_regs.h` -/

def LCDIFV3_DISP_PARA : Nat := 0x10
def LCDIFV3_DISP_SIZE : Nat := 0x14
def LCDIFV3_HSYN_PARA : Nat := 0x18
def LCDIFV3_VSYN_PARA : Nat := 0x1c
def LCDIFV3_VSYN_HSYN_WIDTH : Nat := 0x20
def LCDIFV3_INT_STATUS_D0 : Nat := 0x24
def LCDIFV3_INT_ENABLE_D0 : Nat := 0x28
def LCDIFV3_CTRLDESCL0_1 : Nat := 0x200
def LCDIFV3_CTRLDESCL_LOW0_4 : Nat := 0x20c
def LCDIFV3_CTRLDESCL0_5 : Nat := 0x214

def DISP_PARA_DISP_ON : Nat := BIT 31
def DISP_PARA_LINE_PATTERN (x : Nat) : Nat := (x &&& 0xf) <<< 26
def LINE_PATTERN_RGB888_OR_YUV444 : Nat := 0x0
def LINE_PATTERN_RGB565 : Nat := 0x7
def DISP_PARA_DISP_MODE (x : Nat) : Nat := (x &&& 0x3) <<< 24

def DISP_SIZE_DELTA_Y (x : Nat) : Nat := (x &&& 0xffff) <<< 16
def DISP_SIZE_DELTA_X (x : Nat) : Nat := (x &&& 0xffff) <<< 0

def HSYNC_PARA_BP_H (x : Nat) : Nat := (x &&& 0xffff) <<< 16
def HSYNC_PARA_FP_H (x : Nat) : Nat := (x &&& 0xffff) <<< 0

def VSYNC_PARA_BP_V (x : Nat) : Nat := (x &&& 0xffff) <<< 16
def VSYNC_PARA_FP_V (x : Nat) : Nat := (x &&& 0xffff) <<< 0

def VSYN_HSYN_WIDTH_PW_V (x : Nat) : Nat := (x &&& 0xffff) <<< 16
def VSYN_HSYN_WIDTH_PW_H (x : Nat) : Nat := (x &&& 0xffff) <<< 0

def INT_STATUS_D0_VS_BLANK : Nat := BIT 2

def CTRLDESCL0_1_HEIGHT (x : Nat) : Nat := (x &&& 0xffff) <<< 16
def CTRLDESCL0_1_WIDTH (x : Nat) : Nat := (x &&& 0xffff) <<< 0

def CTRLDESCL0_5_EN : Nat := BIT 31
def CTRLDESCL0_5_SHADOW_LOAD_EN : Nat := BIT 30
def CTRLDESCL0_5_BPP (x : Nat) : Nat := (x &&& 0xf) <<< 24
def BPP_RGB565 : Nat := 0x4
def BPP_ARGB1555 : Nat := 0x5
def BPP_ARGB4444 : Nat := 0x6
def BPP_RGB888 : Nat := 0x8
def BPP_ARGB8888 : Nat := 0x9
def BPP_ABGR8888 : Nat := 0xa

/-! ## The device and its effects -/

/-- The three clocks of `struct mxsfbv3_drm_private`: `clk` is the core
(pixel) clock, `clk_axi` and `clk_disp_axi` are the optional bus clocks. -/
inductive Clk
  | clk
  | clk_axi
  | clk_disp_axi
  deriving DecidableEq

/-- One externally visible effect of the driver. -/
inductive Effect
  | pm_runtime_get_sync
  | pm_runtime_put_sync
  | clk_prepare_enable (c : Clk)
  | clk_disable_unprepare (c : Clk)
  | clk_set_rate (c : Clk) (rate : Nat)
  | drm_crtc_vblank_on
  | drm_crtc_vblank_off
  | writel (val off : Nat)
  | usleep_range (min max : Nat)
  | dev_err_unknown_bus_format (bus_format : Nat)
  | spin_lock_irq
  | spin_unlock_irq
  | drm_crtc_send_vblank_event (event : Nat)
  | drm_crtc_arm_vblank_event (event : Nat)
  | drm_crtc_handle_vblank
  | drm_crtc_vblank_get (ret : Int)
  deriving DecidableEq

/-- The fields of `struct drm_display_mode` the driver reads. -/
structure drm_display_mode where
  crtc_clock : Int
  crtc_hdisplay : Nat
  crtc_vdisplay : Nat
  deriving DecidableEq

/-- The fields of `struct videomode` the driver reads. -/
structure videomode where
  hactive : Nat
  hfront_porch : Nat
  hback_porch : Nat
  hsync_len : Nat
  vactive : Nat
  vfront_porch : Nat
  vback_porch : Nat
  vsync_len : Nat
  deriving DecidableEq

/-- A framebuffer: its pixel format code `fb->format->format` and the bus
address of its first GEM object, `none` when `drm_fb_cma_get_gem_obj`
yields `NULL`. -/
structure drm_framebuffer where
  format : Nat
  gem : Option Nat
  deriving DecidableEq

/-- The device `struct mxsfbv3_drm_private` together with the DRM state the
driver functions read.
* `regs` is the register file at `mxsfb->base`, indexed by offset;
* `clk_axi` and `clk_disp_axi` tell whether the optional clock is present;
* `bus_formats` is `connector->display_info.bus_formats`, whose length is
  `num_bus_formats`;
* `adjusted_mode` is `crtc.state->adjusted_mode`, and `vm` is the video mode
  `drm_display_mode_to_videomode` derives from it (that helper is not among
  the sources, its result is a parameter);
* `fb` is `plane->state->fb`;
* `event` is `crtc->state->event`;
* `trace` lists the effects performed so far, oldest first. -/
structure mxsfbv3_drm_private where
  regs : Nat → Nat
  clk_axi : Bool
  clk_disp_axi : Bool
  bus_formats : List Nat
  adjusted_mode : drm_display_mode
  vm : videomode
  fb : Option drm_framebuffer
  event : Option Nat
  trace : List Effect

/-- Append one effect to the trace. -/
def emit (mxsfb : mxsfbv3_drm_private) (e : Effect) : mxsfbv3_drm_private :=
  { mxsfb with trace := mxsfb.trace ++ [e] }

/-- Register read `readl(mxsfb->base + off)`, a `u32`. -/
def readl (mxsfb : mxsfbv3_drm_private) (off : Nat) : Nat :=
  mxsfb.regs off % 2 ^ 32

/-- Register write `writel(val, mxsfb->base + off)`; `val` is converted to
`u32`. -/
def writel (mxsfb : mxsfbv3_drm_private) (val off : Nat) : mxsfbv3_drm_private :=
  { mxsfb with
    regs := fun o => if o = off then val % 2 ^ 32 else mxsfb.regs o
    trace := mxsfb.trace ++ [Effect.writel (val % 2 ^ 32) off] }

/-! ## `mxsfbv3_drv.c` -/

/-- Enable the axi clock when the device has one. -/
def mxsfbv3_enable_axi_clk (mxsfb : mxsfbv3_drm_private) : mxsfbv3_drm_private :=
  if mxsfb.clk_axi then emit mxsfb (Effect.clk_prepare_enable Clk.clk_axi) else mxsfb

/-- Disable the axi clock when the device has one. -/
def mxsfbv3_disable_axi_clk (mxsfb : mxsfbv3_drm_private) : mxsfbv3_drm_private :=
  if mxsfb.clk_axi then emit mxsfb (Effect.clk_disable_unprepare Clk.clk_axi) else mxsfb

/-- Modelled from the spec: the value `IRQ_HANDLED` of `linux/irqreturn.h`,
which is not among the sources. -/
def IRQ_HANDLED : Nat := 1

/-- The interrupt handler: read the status, dispatch the vertical-blank
notification when the frame-boundary bit is set in it, then write
`INT_STATUS_D0_VS_BLANK` to the status register. -/
def mxsfbv3_irq_handler (mxsfb : mxsfbv3_drm_private) : Nat × mxsfbv3_drm_private :=
  let reg := readl mxsfb LCDIFV3_INT_STATUS_D0
  let mxsfb :=
    if reg &&& INT_STATUS_D0_VS_BLANK ≠ 0 then emit mxsfb Effect.drm_crtc_handle_vblank
    else mxsfb
  let mxsfb := writel mxsfb INT_STATUS_D0_VS_BLANK LCDIFV3_INT_STATUS_D0
  (IRQ_HANDLED, mxsfb)

/-! ## `mxsfbv3_kms.c` -/

/-- The bus format `mxsfbv3_set_formats` works with: the first entry of
`display_info.bus_formats` when `num_bus_formats` is not zero, else
`MEDIA_BUS_FMT_RGB888_1X24`. -/
def mxsfbv3_bus_format (mxsfb : mxsfbv3_drm_private) : Nat :=
  match mxsfb.bus_formats with
  | [] => MEDIA_BUS_FMT_RGB888_1X24
  | f :: _ => f

/-- Program the line pattern of `DISP_PARA` from the bus format; an unknown
bus format is reported with `dev_err` and nothing is written. -/
def mxsfbv3_set_formats (mxsfb : mxsfbv3_drm_private) : mxsfbv3_drm_private :=
  let bus_format := mxsfbv3_bus_format mxsfb
  let disp_para := readl mxsfb LCDIFV3_DISP_PARA
  -- clear line pattern bits
  let disp_para := disp_para &&& not32 (DISP_PARA_LINE_PATTERN 0xf)
  if bus_format = MEDIA_BUS_FMT_RGB565_1X16 then
    let disp_para := disp_para ||| DISP_PARA_LINE_PATTERN LINE_PATTERN_RGB565
    -- set normal operating mode
    let disp_para := disp_para &&& not32 (DISP_PARA_DISP_MODE 3)
    let disp_para := disp_para ||| DISP_PARA_DISP_MODE 0
    writel mxsfb disp_para LCDIFV3_DISP_PARA
  else if bus_format = MEDIA_BUS_FMT_RGB888_1X24 then
    let disp_para := disp_para ||| DISP_PARA_LINE_PATTERN LINE_PATTERN_RGB888_OR_YUV444
    let disp_para := disp_para &&& not32 (DISP_PARA_DISP_MODE 3)
    let disp_para := disp_para ||| DISP_PARA_DISP_MODE 0
    writel mxsfb disp_para LCDIFV3_DISP_PARA
  else
    emit mxsfb (Effect.dev_err_unknown_bus_format bus_format)

/-- Enable the disp_axi clock (when present) and the core clock, then set
`DISP_ON` and the layer `EN` bit. -/
def mxsfbv3_enable_controller (mxsfb : mxsfbv3_drm_private) : mxsfbv3_drm_private :=
  let mxsfb :=
    if mxsfb.clk_disp_axi then emit mxsfb (Effect.clk_prepare_enable Clk.clk_disp_axi)
    else mxsfb
  let mxsfb := emit mxsfb (Effect.clk_prepare_enable Clk.clk)
  let disp_para := readl mxsfb LCDIFV3_DISP_PARA
  let ctrldescl0_5 := readl mxsfb LCDIFV3_CTRLDESCL0_5
  -- disp on
  let disp_para := disp_para ||| DISP_PARA_DISP_ON
  let mxsfb := writel mxsfb disp_para LCDIFV3_DISP_PARA
  -- enable layer dma
  let ctrldescl0_5 := ctrldescl0_5 ||| CTRLDESCL0_5_EN
  writel mxsfb ctrldescl0_5 LCDIFV3_CTRLDESCL0_5

/-- Clear the layer `EN` bit, sleep, clear `DISP_ON`, then disable the core
clock and the disp_axi clock (when present). -/
def mxsfbv3_disable_controller (mxsfb : mxsfbv3_drm_private) : mxsfbv3_drm_private :=
  let disp_para := readl mxsfb LCDIFV3_DISP_PARA
  let ctrldescl0_5 := readl mxsfb LCDIFV3_CTRLDESCL0_5
  -- disable dma
  let ctrldescl0_5 := ctrldescl0_5 &&& not32 CTRLDESCL0_5_EN
  let mxsfb := writel mxsfb ctrldescl0_5 LCDIFV3_CTRLDESCL0_5
  -- wait for the dma to stop at the end of the frame
  let mxsfb := emit mxsfb (Effect.usleep_range 20000 25000)
  -- disp off
  let disp_para := disp_para &&& not32 DISP_PARA_DISP_ON
  let mxsfb := writel mxsfb disp_para LCDIFV3_DISP_PARA
  let mxsfb := emit mxsfb (Effect.clk_disable_unprepare Clk.clk)
  if mxsfb.clk_disp_axi then emit mxsfb (Effect.clk_disable_unprepare Clk.clk_disp_axi)
  else mxsfb

/-- The bus address of the plane's framebuffer, a 64-bit `dma_addr_t`; zero
without a framebuffer or without a GEM object. -/
def mxsfbv3_get_fb_paddr (mxsfb : mxsfbv3_drm_private) : Nat :=
  match mxsfb.fb with
  | none => 0
  | some fb =>
    match fb.gem with
    | none => 0
    | some paddr => paddr

/-- The argument `m->crtc_clock * 1000` of `clk_set_rate`: the product of two
`int` wraps to 32 bits and is converted to `unsigned long`. -/
def crtc_clock_rate (crtc_clock : Int) : Nat :=
  ((((crtc_clock * 1000 + 2 ^ 31) % 2 ^ 32) - 2 ^ 31) % 2 ^ 64).toNat

/-- Program the output format, the pixel clock rate and the five timing
registers.  The bus flags are only printed by the source and are left
out. -/
def mxsfbv3_crtc_mode_set_nofb (mxsfb : mxsfbv3_drm_private) : mxsfbv3_drm_private :=
  let m := mxsfb.adjusted_mode
  let vm := mxsfb.vm
  let mxsfb := mxsfbv3_set_formats mxsfb
  let mxsfb := emit mxsfb (Effect.clk_set_rate Clk.clk (crtc_clock_rate m.crtc_clock))
  let mxsfb := writel mxsfb
    (DISP_SIZE_DELTA_Y m.crtc_vdisplay ||| DISP_SIZE_DELTA_X m.crtc_hdisplay)
    LCDIFV3_DISP_SIZE
  let mxsfb := writel mxsfb
    (HSYNC_PARA_BP_H vm.hback_porch ||| HSYNC_PARA_FP_H vm.hfront_porch)
    LCDIFV3_HSYN_PARA
  let mxsfb := writel mxsfb
    (VSYNC_PARA_BP_V vm.vback_porch ||| VSYNC_PARA_FP_V vm.vfront_porch)
    LCDIFV3_VSYN_PARA
  let mxsfb := writel mxsfb
    (VSYN_HSYN_WIDTH_PW_V vm.vsync_len ||| VSYN_HSYN_WIDTH_PW_H vm.hsync_len)
    LCDIFV3_VSYN_HSYN_WIDTH
  writel mxsfb
    (CTRLDESCL0_1_HEIGHT vm.vactive ||| CTRLDESCL0_1_WIDTH vm.hactive)
    LCDIFV3_CTRLDESCL0_1

/-- The CRTC enable hook. -/
def mxsfbv3_crtc_atomic_enable (mxsfb : mxsfbv3_drm_private) : mxsfbv3_drm_private :=
  let mxsfb := emit mxsfb Effect.pm_runtime_get_sync
  let mxsfb := mxsfbv3_enable_axi_clk mxsfb
  let mxsfb := emit mxsfb Effect.drm_crtc_vblank_on
  let mxsfb := mxsfbv3_crtc_mode_set_nofb mxsfb
  -- Write cur_buf as well to avoid an initial corrupt frame
  let paddr := mxsfbv3_get_fb_paddr mxsfb
  let mxsfb := if paddr ≠ 0 then writel mxsfb paddr LCDIFV3_CTRLDESCL_LOW0_4 else mxsfb
  mxsfbv3_enable_controller mxsfb

/-- The CRTC disable hook. -/
def mxsfbv3_crtc_atomic_disable (mxsfb : mxsfbv3_drm_private) : mxsfbv3_drm_private :=
  let mxsfb := mxsfbv3_disable_controller mxsfb
  let mxsfb := emit mxsfb Effect.spin_lock_irq
  let mxsfb :=
    match mxsfb.event with
    | some event =>
      emit { mxsfb with event := none } (Effect.drm_crtc_send_vblank_event event)
    | none => mxsfb
  let mxsfb := emit mxsfb Effect.spin_unlock_irq
  let mxsfb := emit mxsfb Effect.drm_crtc_vblank_off
  let mxsfb := mxsfbv3_disable_axi_clk mxsfb
  emit mxsfb Effect.pm_runtime_put_sync

/-- The CRTC flush hook; `vblank_get` is what `drm_crtc_vblank_get` (not among
the sources) returns when it is called. -/
def mxsfbv3_crtc_atomic_flush (mxsfb : mxsfbv3_drm_private) (vblank_get : Int) :
    mxsfbv3_drm_private :=
  let event := mxsfb.event
  let mxsfb := { mxsfb with event := none }
  match event with
  | none => mxsfb
  | some event =>
    let mxsfb := emit mxsfb Effect.spin_lock_irq
    let mxsfb := emit mxsfb (Effect.drm_crtc_vblank_get vblank_get)
    let mxsfb :=
      if vblank_get = 0 then emit mxsfb (Effect.drm_crtc_arm_vblank_event event)
      else emit mxsfb (Effect.drm_crtc_send_vblank_event event)
    let mxsfb := emit mxsfb Effect.spin_unlock_irq
    let ctrldescl0_5 := readl mxsfb LCDIFV3_CTRLDESCL0_5
    let ctrldescl0_5 := ctrldescl0_5 ||| CTRLDESCL0_5_SHADOW_LOAD_EN
    writel mxsfb ctrldescl0_5 LCDIFV3_CTRLDESCL0_5

/-- The hook that turns the vertical-blank interrupt on; it returns 0. -/
def mxsfbv3_crtc_enable_vblank (mxsfb : mxsfbv3_drm_private) : Int × mxsfbv3_drm_private :=
  let int_enable_d0 := readl mxsfb LCDIFV3_INT_ENABLE_D0
  let int_enable_d0 := int_enable_d0 ||| INT_STATUS_D0_VS_BLANK
  -- clear flag
  let mxsfb := writel mxsfb INT_STATUS_D0_VS_BLANK LCDIFV3_INT_STATUS_D0
  -- enable
  let mxsfb := writel mxsfb int_enable_d0 LCDIFV3_INT_ENABLE_D0
  (0, mxsfb)

/-- The hook that turns the vertical-blank interrupt off. -/
def mxsfbv3_crtc_disable_vblank (mxsfb : mxsfbv3_drm_private) : mxsfbv3_drm_private :=
  let int_enable_d0 := readl mxsfb LCDIFV3_INT_ENABLE_D0
  let int_enable_d0 := int_enable_d0 &&& not32 INT_STATUS_D0_VS_BLANK
  -- disable
  let mxsfb := writel mxsfb int_enable_d0 LCDIFV3_INT_ENABLE_D0
  -- clear flag
  writel mxsfb INT_STATUS_D0_VS_BLANK LCDIFV3_INT_STATUS_D0

/-- Modelled from the spec: the status register `INT_STATUS_D0` is
write-1-to-clear, so a write of `val` clears the pending flags that are set
in `val`.  The register file `regs` only keeps the value last written; this
is the content of the hardware status register `status` once the device has
seen the register writes of `trace`, with no new interrupt raised
meanwhile. -/
def int_status_after (status : Nat) (trace : List Effect) : Nat :=
  trace.foldl
    (fun st e =>
      match e with
      | Effect.writel val off => if off = LCDIFV3_INT_STATUS_D0 then st &&& not32 val else st
      | _ => st)
    status

/-- The plane update `mxsfbv3_plane_atomic_update`; `none` when the plane
state has no framebuffer, which the function dereferences. -/
def mxsfbv3_plane_atomic_update (mxsfb : mxsfbv3_drm_private) : Option mxsfbv3_drm_private :=
  match mxsfb.fb with
  | none => none
  | some fb =>
    let ctrl := readl mxsfb LCDIFV3_CTRLDESCL0_5
    let ctrl := ctrl &&& not32 (CTRLDESCL0_5_BPP 0xf)
    let format := fb.format
    let ctrl :=
      if format = DRM_FORMAT_XRGB1555 ∨ format = DRM_FORMAT_ARGB1555 then
        ctrl ||| CTRLDESCL0_5_BPP BPP_ARGB1555
      else if format = DRM_FORMAT_RGB565 then
        ctrl ||| CTRLDESCL0_5_BPP BPP_RGB565
      else if format = DRM_FORMAT_XRGB4444 ∨ format = DRM_FORMAT_ARGB4444 then
        ctrl ||| CTRLDESCL0_5_BPP BPP_ARGB4444
      else if format = DRM_FORMAT_XRGB8888 ∨ format = DRM_FORMAT_ARGB8888 then
        ctrl ||| CTRLDESCL0_5_BPP BPP_ARGB8888
      else if format = DRM_FORMAT_XBGR8888 ∨ format = DRM_FORMAT_ABGR8888 then
        ctrl ||| CTRLDESCL0_5_BPP BPP_ABGR8888
      else ctrl
    let mxsfb := writel mxsfb ctrl LCDIFV3_CTRLDESCL0_5
    let paddr := mxsfbv3_get_fb_paddr mxsfb
    some (if paddr ≠ 0 then writel mxsfb paddr LCDIFV3_CTRLDESCL_LOW0_4 else mxsfb)

/-- The nine formats of the table `mxsfbv3_plane_formats`. -/
def mxsfbv3_plane_formats : List Nat :=
  [DRM_FORMAT_XRGB1555, DRM_FORMAT_ARGB1555, DRM_FORMAT_RGB565, DRM_FORMAT_ARGB4444,
   DRM_FORMAT_XRGB4444, DRM_FORMAT_XRGB8888, DRM_FORMAT_XBGR8888, DRM_FORMAT_ARGB8888,
   DRM_FORMAT_ABGR8888]

/-! ## Scenario data -/

/-- A register file holding the same value in every register. -/
def regs_const (v : Nat) : Nat → Nat := fun _ => v

/-- The mode of the scenario: 1024x600 at 51.2 MHz, horizontal front porch
160, back porch 140, sync 20; vertical front porch 12, back porch 20,
sync 3. -/
def scenario_mode : drm_display_mode :=
  { crtc_clock := 51200, crtc_hdisplay := 1024, crtc_vdisplay := 600 }

/-- The video mode of the scenario. -/
def scenario_vm : videomode :=
  { hactive := 1024, hfront_porch := 160, hback_porch := 140, hsync_len := 20,
    vactive := 600, vfront_porch := 12, vback_porch := 20, vsync_len := 3 }

/-- A device with all three clocks, a sink reporting the given bus formats,
the scenario mode, a framebuffer of the given format at bus address
`0x80000000`, the given pending event and an empty trace. -/
def scenario_dev (regs : Nat → Nat) (bus_formats : List Nat) (format : Nat)
    (event : Option Nat) : mxsfbv3_drm_private :=
  { regs := regs, clk_axi := true, clk_disp_axi := true, bus_formats := bus_formats,
    adjusted_mode := scenario_mode, vm := scenario_vm,
    fb := some { format := format, gem := some 0x80000000 },
    event := event, trace := [] }

end Mxsfbv3

namespace ImxBlkCtl

open Mxsfbv3 (BIT not32 EINVAL)

/-! ## `blk-ctl.h` -/

def IMX_BLK_CTL_PD_HANDSHAKE : Nat := BIT 0
def IMX_BLK_CTL_PD_RESET : Nat := BIT 1
def IMX_BLK_CTL_PD_BUS : Nat := BIT 2

/-- Modelled from the spec: the errno `ENODATA` of `uapi/asm-generic/errno.h`,
which is not among the sources. -/
def ENODATA : Int := 61

/-- Modelled from the spec: the errno `ENOENT` of
`uapi/asm-generic/errno-base.h`, which is not among the sources: the
"not found" outcome. -/
def ENOENT : Int := 2

/-- Modelled from the spec: the errno `EPROBE_DEFER` of `linux/errno.h`, which
is not among the sources: the retryable "not yet available" outcome. -/
def EPROBE_DEFER : Int := 517

/-- The fields of `struct imx_blk_ctl_hw` the driver reads; the `u32` fields
hold `-1` as `0xffffffff`. -/
structure imx_blk_ctl_hw where
  name : String
  active_pd_name : Option String
  offset : Nat
  mask : Nat
  flags : Nat
  id : Nat
  rst_offset : Nat
  rst_mask : Nat
  deriving DecidableEq

/-- The fields of `struct imx_blk_ctl_dev_data` the driver reads: the domain
table `pds` and the descriptor `hw_hsk` points to. -/
structure imx_blk_ctl_dev_data where
  pds : List imx_blk_ctl_hw
  hw_hsk : imx_blk_ctl_hw
  name : String

/-- One externally visible effect of the block-control driver.  A register
update carries the code it returns. -/
inductive BlkEffect
  | mutex_lock
  | mutex_unlock
  | clk_bulk_prepare_enable (ret : Int)
  | clk_bulk_disable_unprepare
  | regmap_update_bits (reg mask val : Nat) (ret : Int)
  | udelay (usecs : Nat)
  | dev_err_handshake_power_on
  | dev_err_handshake_power_off
  | dev_pm_domain_attach_by_name (name : String)
  | pm_genpd_add_subdomain (parent subdomain : Nat) (ret : Int)
  | dev_warn_add_subdomain
  deriving DecidableEq

/-- The block `struct imx_blk_ctl` together with what its environment
answers.
* `regmap` is the register file behind `blk_ctl->regmap`, indexed by offset;
* `bus_domain` is the id of the domain `blk_ctl->bus_domain` points to,
  `none` while it is `NULL`;
* `clk_ret` is what `clk_bulk_prepare_enable` returns;
* `regmap_rets` lists the codes the coming register updates return, in call
  order; once the list is used up an update returns 0;
* `trace` lists the effects performed so far, oldest first. -/
structure imx_blk_ctl where
  regmap : Nat → Nat
  dev_data : imx_blk_ctl_dev_data
  bus_domain : Option Nat
  clk_ret : Int
  regmap_rets : List Int
  trace : List BlkEffect

/-- The fields of `struct imx_blk_ctl_domain` the driver uses, with
`of_node` telling whether `pdev->dev.of_node` of its platform device is
set. -/
structure imx_blk_ctl_domain where
  id : Nat
  hw : imx_blk_ctl_hw
  hooked : Bool
  active_pd : Option Nat
  of_node : Bool

/-- Append one effect to the trace of the block. -/
def emit (blk_ctl : imx_blk_ctl) (e : BlkEffect) : imx_blk_ctl :=
  { blk_ctl with trace := blk_ctl.trace ++ [e] }

/-- Modelled from the spec: `regmap_update_bits` of `linux/regmap.h`, which is
not among the sources, is the read-modify-write `update(offset, mask, value)`
of the register interface: it preserves the bits outside `mask`.  The call
returns the next code of `regmap_rets`; when that is not 0 the register is
left as it was. -/
def regmap_update_bits (blk_ctl : imx_blk_ctl) (reg mask val : Nat) : Int × imx_blk_ctl :=
  let ret := blk_ctl.regmap_rets.headD 0
  let blk_ctl :=
    { blk_ctl with
      regmap_rets := blk_ctl.regmap_rets.tail
      trace := blk_ctl.trace ++ [BlkEffect.regmap_update_bits reg mask val ret] }
  if ret = 0 then
    (0, { blk_ctl with
          regmap := fun o =>
            if o = reg then
              ((blk_ctl.regmap reg % 2 ^ 32) &&& not32 mask) ||| ((val &&& mask) % 2 ^ 32)
            else blk_ctl.regmap o })
  else (ret, blk_ctl)

/-- Modelled from the spec: `regmap_clear_bits` of `linux/regmap.h`, which is
not among the sources, is the update of the bits `bits` to zero. -/
def regmap_clear_bits (blk_ctl : imx_blk_ctl) (reg bits : Nat) : Int × imx_blk_ctl :=
  regmap_update_bits blk_ctl reg bits 0

/-! ## `blk-ctl.c` -/

/-- The handshake on the descriptor `dev_data->hw_hsk`: set its reset bits
when it is flagged `RESET`, set its enable bits, wait 5 microseconds.  A
failing reset update returns at once. -/
def imx_blk_ctl_enable_hsk (blk_ctl : imx_blk_ctl) : Int × imx_blk_ctl :=
  let hw := blk_ctl.dev_data.hw_hsk
  let r : Int × imx_blk_ctl :=
    if hw.flags &&& IMX_BLK_CTL_PD_RESET ≠ 0 then
      regmap_update_bits blk_ctl hw.rst_offset hw.rst_mask hw.rst_mask
    else (0, blk_ctl)
  if r.1 ≠ 0 then r
  else
    let r := regmap_update_bits r.2 hw.offset hw.mask hw.mask
    -- Wait for handshake
    (r.1, emit r.2 (BlkEffect.udelay 5))

/-- The hook `imx_blk_ctl_power_on` of the domain `pd`, whose descriptor is
`dev_data->pds[pd->id]`; `none` when `pd->id` is outside the table. -/
def imx_blk_ctl_power_on (blk_ctl : imx_blk_ctl) (pd : imx_blk_ctl_domain) :
    Option (Int × imx_blk_ctl) :=
  match blk_ctl.dev_data.pds[pd.id]? with
  | none => none
  | some hw =>
    let blk_ctl := emit blk_ctl BlkEffect.mutex_lock
    let ret := blk_ctl.clk_ret
    let blk_ctl := emit blk_ctl (BlkEffect.clk_bulk_prepare_enable ret)
    if ret ≠ 0 then
      some (ret, emit blk_ctl BlkEffect.mutex_unlock)
    else
      let r : Int × imx_blk_ctl :=
        if hw.flags &&& IMX_BLK_CTL_PD_HANDSHAKE ≠ 0 then
          let r := imx_blk_ctl_enable_hsk blk_ctl
          -- Expected, handshake already handle reset
          if r.1 ≠ 0 then (r.1, emit r.2 BlkEffect.dev_err_handshake_power_on) else r
        else
          let r : Int × imx_blk_ctl :=
            if hw.flags &&& IMX_BLK_CTL_PD_RESET ≠ 0 then
              let r := regmap_clear_bits blk_ctl hw.rst_offset hw.rst_mask
              if r.1 ≠ 0 then r
              else
                -- Wait for reset propagate
                regmap_update_bits (emit r.2 (BlkEffect.udelay 5))
                  hw.rst_offset hw.rst_mask hw.rst_mask
            else (0, blk_ctl)
          if r.1 ≠ 0 then r
          else regmap_update_bits r.2 hw.offset hw.mask hw.mask
      -- disable_clk:
      let blk_ctl := emit r.2 BlkEffect.clk_bulk_disable_unprepare
      let blk_ctl := emit blk_ctl BlkEffect.mutex_unlock
      some (r.1, blk_ctl)

/-- The hook `imx_blk_ctl_power_off` of the domain `pd`, whose descriptor is
`dev_data->pds[pd->id]`; `none` when `pd->id` is outside the table. -/
def imx_blk_ctl_power_off (blk_ctl : imx_blk_ctl) (pd : imx_blk_ctl_domain) :
    Option (Int × imx_blk_ctl) :=
  match blk_ctl.dev_data.pds[pd.id]? with
  | none => none
  | some hw =>
    let blk_ctl := emit blk_ctl BlkEffect.mutex_lock
    let ret := blk_ctl.clk_ret
    let blk_ctl := emit blk_ctl (BlkEffect.clk_bulk_prepare_enable ret)
    if ret ≠ 0 then
      some (ret, emit blk_ctl BlkEffect.mutex_unlock)
    else
      let r : Int × imx_blk_ctl :=
        if ¬ (hw.flags &&& IMX_BLK_CTL_PD_HANDSHAKE ≠ 0) then
          let r := regmap_clear_bits blk_ctl hw.offset hw.mask
          if r.1 ≠ 0 then r
          else if hw.flags &&& IMX_BLK_CTL_PD_RESET ≠ 0 then
            regmap_clear_bits r.2 hw.rst_offset hw.rst_mask
          else r
        else
          let r := imx_blk_ctl_enable_hsk blk_ctl
          if r.1 ≠ 0 then (r.1, emit r.2 BlkEffect.dev_err_handshake_power_off) else r
      -- disable_clk:
      let blk_ctl := emit r.2 BlkEffect.clk_bulk_disable_unprepare
      let blk_ctl := emit blk_ctl BlkEffect.mutex_unlock
      some (r.1, blk_ctl)

/-- What `dev_pm_domain_attach_by_name` (not among the sources) hands back: a
device together with the id of the power domain `pd_to_genpd` finds behind
it, an error pointer, or `NULL`. -/
inductive attach_result
  | device (active_pd genpd : Nat)
  | err_ptr (err : Int)
  | null
  deriving DecidableEq

/-- The end of `imx_blk_ctl_probe`, once the parent domain is known: add the
domain beneath `parent_genpd`; mark it hooked, under the lock, only when
`pm_genpd_add_subdomain` returns 0, warn otherwise; return 0.
`add_subdomain` is what `pm_genpd_add_subdomain` (not among the sources)
returns. -/
def imx_blk_ctl_probe_add (blk_ctl : imx_blk_ctl) (domain : imx_blk_ctl_domain)
    (parent_genpd : Nat) (add_subdomain : Int) : Int × imx_blk_ctl_domain × imx_blk_ctl :=
  let blk_ctl :=
    emit blk_ctl (BlkEffect.pm_genpd_add_subdomain parent_genpd domain.id add_subdomain)
  if add_subdomain ≠ 0 then
    (0, domain, emit blk_ctl BlkEffect.dev_warn_add_subdomain)
  else
    let blk_ctl := emit blk_ctl BlkEffect.mutex_lock
    let domain := { domain with hooked := true }
    let blk_ctl := emit blk_ctl BlkEffect.mutex_unlock
    (0, domain, blk_ctl)

/-- The probe `imx_blk_ctl_probe` of the platform device of `domain`; `attach`
is what `dev_pm_domain_attach_by_name` hands back when it is called and
`add_subdomain` what `pm_genpd_add_subdomain` returns when it is called. -/
def imx_blk_ctl_probe (blk_ctl : imx_blk_ctl) (domain : imx_blk_ctl_domain)
    (attach : attach_result) (add_subdomain : Int) :
    Int × imx_blk_ctl_domain × imx_blk_ctl :=
  let domain := { domain with of_node := true }
  match domain.hw.active_pd_name with
  | some name =>
    let blk_ctl := emit blk_ctl (BlkEffect.dev_pm_domain_attach_by_name name)
    match attach with
    | attach_result.err_ptr err =>
      ((if err ≠ 0 then err else -ENODATA), { domain with of_node := false }, blk_ctl)
    | attach_result.null => (-ENODATA, { domain with of_node := false }, blk_ctl)
    | attach_result.device active_pd genpd =>
      imx_blk_ctl_probe_add blk_ctl { domain with active_pd := some active_pd } genpd
        add_subdomain
  | none =>
    match blk_ctl.bus_domain with
    | none => (-EPROBE_DEFER, { domain with of_node := false }, blk_ctl)
    | some bus_domain => imx_blk_ctl_probe_add blk_ctl domain bus_domain add_subdomain

/-- The provider data `struct genpd_onecell_data`: the array `domains` of
domain pointers, `none` for a `NULL` slot; `num_domains` is its length. -/
structure genpd_onecell_data where
  domains : List (Option imx_blk_ctl_domain)

/-- The lookup `imx_blk_ctl_genpd_xlate` for a specifier with `args_count`
cells whose first cell is `args0`: an error pointer or the domain found. -/
def imx_blk_ctl_genpd_xlate (blk_ctl : imx_blk_ctl) (genpd_data : genpd_onecell_data)
    (args_count args0 : Nat) : Except Int imx_blk_ctl_domain × imx_blk_ctl :=
  let idx := args0
  if args_count ≠ 1 then (Except.error (-EINVAL), blk_ctl)
  else if idx ≥ genpd_data.domains.length then (Except.error (-EINVAL), blk_ctl)
  else
    match genpd_data.domains.getD idx none with
    | none => (Except.error (-ENOENT), blk_ctl)
    | some domain =>
      let blk_ctl := emit blk_ctl BlkEffect.mutex_lock
      let genpd : Except Int imx_blk_ctl_domain :=
        if domain.hooked then Except.ok domain else Except.error (-EPROBE_DEFER)
      let blk_ctl := emit blk_ctl BlkEffect.mutex_unlock
      (genpd, blk_ctl)

/-- The return codes of the register updates recorded in a trace, in call
order. -/
def regmap_rets_of (t : List BlkEffect) : List Int :=
  t.filterMap
    (fun e =>
      match e with
      | BlkEffect.regmap_update_bits _ _ _ ret => some ret
      | _ => none)

/-- The effects that occur between the enabling and the disabling of the
clocks in a power transition: register updates, waits and the report of a
failed handshake. -/
def is_sequencer_step (e : BlkEffect) : Bool :=
  match e with
  | BlkEffect.regmap_update_bits _ _ _ _ => true
  | BlkEffect.udelay _ => true
  | BlkEffect.dev_err_handshake_power_on => true
  | BlkEffect.dev_err_handshake_power_off => true
  | _ => false

/-- The register offsets and masks a power transition of a domain with the
descriptor `hw` passes to a register update: those of `hw_hsk` for a domain
flagged `HANDSHAKE`; otherwise the enable offset and mask of `hw` and, when
`hw` is flagged `RESET`, its reset offset and mask. -/
def power_touches (blk_ctl : imx_blk_ctl) (hw : imx_blk_ctl_hw) (reg mask : Nat) : Prop :=
  if hw.flags &&& IMX_BLK_CTL_PD_HANDSHAKE ≠ 0 then
    (reg = blk_ctl.dev_data.hw_hsk.offset ∧ mask = blk_ctl.dev_data.hw_hsk.mask) ∨
    (blk_ctl.dev_data.hw_hsk.flags &&& IMX_BLK_CTL_PD_RESET ≠ 0 ∧
      reg = blk_ctl.dev_data.hw_hsk.rst_offset ∧ mask = blk_ctl.dev_data.hw_hsk.rst_mask)
  else
    (reg = hw.offset ∧ mask = hw.mask) ∨
    (hw.flags &&& IMX_BLK_CTL_PD_RESET ≠ 0 ∧ reg = hw.rst_offset ∧ mask = hw.rst_mask)

/-! ## `blk-ctl-imx8mm.c` -/

/-- Modelled from the spec: the macro `GENMASK` of `linux/bits.h`, which is not
among the sources: the bits `h` down to `l` of an `unsigned long`. -/
def GENMASK (h l : Nat) : Nat :=
  (((2 ^ 64 - 1) - (1 <<< l) + 1) % 2 ^ 64) &&& ((2 ^ 64 - 1) >>> (63 - h))

def MEDIA_BLK_BUS_RSTN_BLK_SYNC_SFT_EN : Nat := BIT 6
def MEDIA_BLK_MIPI_DSI_I_PRESETN_SFT_EN : Nat := BIT 5
def MEDIA_BLK_MIPI_CSI_I_PRESETN_SFT_EN : Nat := BIT 4
def MEDIA_BLK_CAMERA_PIXEL_RESET_N_SFT_EN : Nat := BIT 3
def MEDIA_BLK_CSI_BRIDGE_SFT_EN : Nat := GENMASK 2 0

def MEDIA_BLK_BUS_PD_MASK : Nat := BIT 12
def MEDIA_BLK_MIPI_CSI_PD_MASK : Nat := GENMASK 11 10
def MEDIA_BLK_MIPI_DSI_PD_MASK : Nat := GENMASK 9 8
def MEDIA_BLK_LCDIF_PD_MASK : Nat := GENMASK 7 6
def MEDIA_BLK_CSI_BRIDGE_PD_MASK : Nat := GENMASK 5 0

/-- Modelled from the spec: the domain ids `IMX8MM_BLK_CTL_PD_DISPMIX_*` of
`dt-bindings/power/imx8mm-power.h`, which is not among the sources, number
the domains of the table from 0 in table order. -/
def IMX8MM_BLK_CTL_PD_DISPMIX_CSI_BRIDGE : Nat := 0
/-- Modelled from the spec: see `IMX8MM_BLK_CTL_PD_DISPMIX_CSI_BRIDGE`. -/
def IMX8MM_BLK_CTL_PD_DISPMIX_LCDIF : Nat := 1
/-- Modelled from the spec: see `IMX8MM_BLK_CTL_PD_DISPMIX_CSI_BRIDGE`. -/
def IMX8MM_BLK_CTL_PD_DISPMIX_MIPI_DSI : Nat := 2
/-- Modelled from the spec: see `IMX8MM_BLK_CTL_PD_DISPMIX_CSI_BRIDGE`. -/
def IMX8MM_BLK_CTL_PD_DISPMIX_MIPI_CSI : Nat := 3
/-- Modelled from the spec: see `IMX8MM_BLK_CTL_PD_DISPMIX_CSI_BRIDGE`. -/
def IMX8MM_BLK_CTL_PD_DISPMIX_BUS : Nat := 4

/-- The table `imx8mm_dispmix_blk_ctl_pds`. -/
def imx8mm_dispmix_blk_ctl_pds : List imx_blk_ctl_hw :=
  [{ name := "CSI_BRIDGE", active_pd_name := none,
     id := IMX8MM_BLK_CTL_PD_DISPMIX_CSI_BRIDGE, offset := 0x4,
     mask := MEDIA_BLK_CSI_BRIDGE_PD_MASK, rst_offset := 0,
     rst_mask := MEDIA_BLK_CSI_BRIDGE_SFT_EN, flags := IMX_BLK_CTL_PD_RESET },
   { name := "LCDIF", active_pd_name := none,
     id := IMX8MM_BLK_CTL_PD_DISPMIX_LCDIF, offset := 0x4,
     mask := MEDIA_BLK_LCDIF_PD_MASK, rst_offset := 0xffffffff,
     rst_mask := 0xffffffff, flags := 0 },
   { name := "MIPI_DSI", active_pd_name := some "mipi",
     id := IMX8MM_BLK_CTL_PD_DISPMIX_MIPI_DSI, offset := 0x4,
     mask := MEDIA_BLK_MIPI_DSI_PD_MASK, rst_offset := 0,
     rst_mask := MEDIA_BLK_MIPI_DSI_I_PRESETN_SFT_EN, flags := IMX_BLK_CTL_PD_RESET },
   { name := "MIPI_CSI", active_pd_name := some "mipi",
     id := IMX8MM_BLK_CTL_PD_DISPMIX_MIPI_CSI, offset := 0x4,
     mask := MEDIA_BLK_MIPI_CSI_PD_MASK, rst_offset := 0,
     rst_mask := MEDIA_BLK_MIPI_CSI_I_PRESETN_SFT_EN ||| MEDIA_BLK_CAMERA_PIXEL_RESET_N_SFT_EN,
     flags := IMX_BLK_CTL_PD_RESET },
   { name := "DISPMIX_BUS", active_pd_name := some "dispmix",
     id := IMX8MM_BLK_CTL_PD_DISPMIX_BUS, offset := 0x4,
     mask := MEDIA_BLK_BUS_PD_MASK, rst_offset := 0,
     rst_mask := MEDIA_BLK_BUS_RSTN_BLK_SYNC_SFT_EN,
     flags := IMX_BLK_CTL_PD_HANDSHAKE ||| IMX_BLK_CTL_PD_RESET }]

/-- The bus descriptor `imx8mm_dispmix_blk_ctl_pds[4]`. -/
def imx8mm_dispmix_hw_hsk : imx_blk_ctl_hw :=
  { name := "DISPMIX_BUS", active_pd_name := some "dispmix",
    id := IMX8MM_BLK_CTL_PD_DISPMIX_BUS, offset := 0x4,
    mask := MEDIA_BLK_BUS_PD_MASK, rst_offset := 0,
    rst_mask := MEDIA_BLK_BUS_RSTN_BLK_SYNC_SFT_EN,
    flags := IMX_BLK_CTL_PD_HANDSHAKE ||| IMX_BLK_CTL_PD_RESET }

/-- The device data `imx8mm_dispmix_blk_ctl_dev_data`. -/
def imx8mm_dispmix_blk_ctl_dev_data : imx_blk_ctl_dev_data :=
  { pds := imx8mm_dispmix_blk_ctl_pds, hw_hsk := imx8mm_dispmix_hw_hsk,
    name := "imx-dispmix-blk-ctl" }

/-- Modelled from the spec: the domain ids `IMX8MM_BLK_CTL_PD_VPU_*` of
`dt-bindings/power/imx8mm-power.h`, which is not among the sources, number
the domains of the table from 0 in table order. -/
def IMX8MM_BLK_CTL_PD_VPU_G2 : Nat := 0
/-- Modelled from the spec: see `IMX8MM_BLK_CTL_PD_VPU_G2`. -/
def IMX8MM_BLK_CTL_PD_VPU_G1 : Nat := 1
/-- Modelled from the spec: see `IMX8MM_BLK_CTL_PD_VPU_G2`. -/
def IMX8MM_BLK_CTL_PD_VPU_H1 : Nat := 2
/-- Modelled from the spec: see `IMX8MM_BLK_CTL_PD_VPU_G2`. -/
def IMX8MM_BLK_CTL_PD_VPU_BUS : Nat := 3

/-- The table `imx8mm_vpumix_blk_ctl_pds`. -/
def imx8mm_vpumix_blk_ctl_pds : List imx_blk_ctl_hw :=
  [{ name := "VPU_BLK_CTL_G2", active_pd_name := some "vpu-g2",
     id := IMX8MM_BLK_CTL_PD_VPU_G2, offset := 0x4, mask := BIT 0, rst_offset := 0,
     rst_mask := BIT 0, flags := IMX_BLK_CTL_PD_RESET },
   { name := "VPU_BLK_CTL_G1", active_pd_name := some "vpu-g1",
     id := IMX8MM_BLK_CTL_PD_VPU_G1, offset := 0x4, mask := BIT 1, rst_offset := 0,
     rst_mask := BIT 1, flags := IMX_BLK_CTL_PD_RESET },
   { name := "VPU_BLK_CTL_H1", active_pd_name := some "vpu-h1",
     id := IMX8MM_BLK_CTL_PD_VPU_H1, offset := 0x4, mask := BIT 2, rst_offset := 0,
     rst_mask := BIT 2, flags := IMX_BLK_CTL_PD_RESET },
   { name := "VPU_BLK_CTL_BUS", active_pd_name := some "vpumix",
     id := IMX8MM_BLK_CTL_PD_VPU_BUS, offset := 0x4, mask := BIT 2, rst_offset := 0,
     rst_mask := BIT 2, flags := IMX_BLK_CTL_PD_HANDSHAKE ||| IMX_BLK_CTL_PD_RESET }]

/-- The bus descriptor `imx8mm_vpumix_blk_ctl_pds[3]`. -/
def imx8mm_vpumix_hw_hsk : imx_blk_ctl_hw :=
  { name := "VPU_BLK_CTL_BUS", active_pd_name := some "vpumix",
    id := IMX8MM_BLK_CTL_PD_VPU_BUS, offset := 0x4, mask := BIT 2, rst_offset := 0,
    rst_mask := BIT 2, flags := IMX_BLK_CTL_PD_HANDSHAKE ||| IMX_BLK_CTL_PD_RESET }

/-- The device data `imx8mm_vpumix_blk_ctl_dev_data`. -/
def imx8mm_vpumix_blk_ctl_dev_data : imx_blk_ctl_dev_data :=
  { pds := imx8mm_vpumix_blk_ctl_pds, hw_hsk := imx8mm_vpumix_hw_hsk,
    name := "imx-vpumix-blk-ctl" }

/-! ## Scenario data of the block control -/

/-- A dispmix block with the given register file, bus domain pointer and
answers of the environment, and an empty trace. -/
def dispmix_blk_ctl (regmap : Nat → Nat) (bus_domain : Option Nat) (clk_ret : Int)
    (regmap_rets : List Int) : imx_blk_ctl :=
  { regmap := regmap, dev_data := imx8mm_dispmix_blk_ctl_dev_data, bus_domain := bus_domain,
    clk_ret := clk_ret, regmap_rets := regmap_rets, trace := [] }

/-- The domain registered for entry `i` of the dispmix table, not hooked yet;
an index outside the table yields the bus entry. -/
def dispmix_domain (i : Nat) : imx_blk_ctl_domain :=
  { id := (imx8mm_dispmix_blk_ctl_pds.getD i imx8mm_dispmix_hw_hsk).id,
    hw := imx8mm_dispmix_blk_ctl_pds.getD i imx8mm_dispmix_hw_hsk,
    hooked := false, active_pd := none, of_node := false }

/-- A vpumix block with the given register file, bus domain pointer and
answers of the environment, and an empty trace. -/
def vpumix_blk_ctl (regmap : Nat → Nat) (bus_domain : Option Nat) (clk_ret : Int)
    (regmap_rets : List Int) : imx_blk_ctl :=
  { regmap := regmap, dev_data := imx8mm_vpumix_blk_ctl_dev_data, bus_domain := bus_domain,
    clk_ret := clk_ret, regmap_rets := regmap_rets, trace := [] }

/-- The domain registered for entry `i` of the vpumix table, not hooked yet;
an index outside the table yields the bus entry. -/
def vpumix_domain (i : Nat) : imx_blk_ctl_domain :=
  { id := (imx8mm_vpumix_blk_ctl_pds.getD i imx8mm_vpumix_hw_hsk).id,
    hw := imx8mm_vpumix_blk_ctl_pds.getD i imx8mm_vpumix_hw_hsk,
    hooked := false, active_pd := none, of_node := false }

end ImxBlkCtl

namespace Mxsfbv3

/-! ## Bit-level lemmas -/

/-- Bits of a complemented mask. -/
theorem testBit_not32 (x i : Nat) :
    (not32 x).testBit i = (decide (i < 32) && !x.testBit i) := by
  unfold not32
  rw [Nat.testBit_xor, Nat.testBit_two_pow_sub_one, Nat.testBit_mod_two_pow]
  cases decide (i < 32) <;> simp

/-- The only bit of `BIT n` is bit `n`. -/
theorem testBit_BIT (n i : Nat) : (BIT n).testBit i = decide (n = i) := by
  unfold BIT
  rw [Nat.one_shiftLeft, Nat.testBit_two_pow]

/-- The field mask `0x3` is the two low bits. -/
theorem testBit_0x3 (i : Nat) : Nat.testBit 0x3 i = decide (i < 2) :=
  Nat.testBit_two_pow_sub_one 2 i

/-- The field mask `0xf` is the four low bits. -/
theorem testBit_0xf (i : Nat) : Nat.testBit 0xf i = decide (i < 4) :=
  Nat.testBit_two_pow_sub_one 4 i

/-- The field mask `0xffff` is the sixteen low bits. -/
theorem testBit_0xffff (i : Nat) : Nat.testBit 0xffff i = decide (i < 16) :=
  Nat.testBit_two_pow_sub_one 16 i

/-- A value below `2 ^ w` has no bit at position `w` or above. -/
theorem testBit_eq_false_of_lt (c w i : Nat) (hc : c < 2 ^ w) (hi : w ≤ i) :
    c.testBit i = false :=
  Nat.testBit_lt_two_pow (Nat.lt_of_lt_of_le hc (Nat.pow_le_pow_right (by decide) hi))

/-- A field of width `w` at bit `lo` holds `c` as soon as its `w` bits are
those of `c`. -/
theorem field_eq_of_testBit (v lo w c : Nat) (hc : c < 2 ^ w)
    (h : ∀ i, i < w → v.testBit (lo + i) = c.testBit i) :
    (v >>> lo) &&& (2 ^ w - 1) = c := by
  apply Nat.eq_of_testBit_eq
  intro i
  rw [Nat.testBit_and, Nat.testBit_shiftRight, Nat.testBit_two_pow_sub_one]
  by_cases hi : i < w
  · simp [hi, h i hi]
  · simp [hi, testBit_eq_false_of_lt c w i hc (by omega)]

/-- Bits of a register value after the read-modify-write
`x &= ~FIELD(k); x |= FIELD(c)` for a field macro `(v & k) << lo`. -/
theorem testBit_insert (x k lo c i : Nat) :
    ((x &&& not32 ((k &&& k) <<< lo)) ||| ((c &&& k) <<< lo)).testBit i =
      if lo ≤ i ∧ k.testBit (i - lo) = true then c.testBit (i - lo)
      else (x.testBit i && decide (i < 32)) := by
  simp only [Nat.testBit_or, Nat.testBit_and, testBit_not32, Nat.testBit_shiftLeft]
  by_cases h1 : lo ≤ i
  · cases hk : k.testBit (i - lo) <;> simp [h1, hk]
  · simp [h1]

/-- Bits of a layer-control value after its BPP field is replaced. -/
theorem testBit_bpp_insert (x c i : Nat) :
    ((x &&& not32 (CTRLDESCL0_5_BPP 0xf)) ||| CTRLDESCL0_5_BPP c).testBit i =
      if 24 ≤ i ∧ i < 28 then c.testBit (i - 24) else (x.testBit i && decide (i < 32)) := by
  unfold CTRLDESCL0_5_BPP
  rw [testBit_insert, testBit_0xf]
  by_cases h : 24 ≤ i ∧ i < 28
  · have h2 : 24 ≤ i ∧ decide (i - 24 < 4) = true := by
      simp only [decide_eq_true_eq]; omega
    rw [if_pos h, if_pos h2]
  · have h2 : ¬ (24 ≤ i ∧ decide (i - 24 < 4) = true) := by
      simp only [decide_eq_true_eq]; omega
    rw [if_neg h, if_neg h2]

/-- Bits of a `DISP_PARA` value after its line pattern is replaced. -/
theorem testBit_line_pattern_insert (x c i : Nat) :
    ((x &&& not32 (DISP_PARA_LINE_PATTERN 0xf)) ||| DISP_PARA_LINE_PATTERN c).testBit i =
      if 26 ≤ i ∧ i < 30 then c.testBit (i - 26) else (x.testBit i && decide (i < 32)) := by
  unfold DISP_PARA_LINE_PATTERN
  rw [testBit_insert, testBit_0xf]
  by_cases h : 26 ≤ i ∧ i < 30
  · have h2 : 26 ≤ i ∧ decide (i - 26 < 4) = true := by
      simp only [decide_eq_true_eq]; omega
    rw [if_pos h, if_pos h2]
  · have h2 : ¬ (26 ≤ i ∧ decide (i - 26 < 4) = true) := by
      simp only [decide_eq_true_eq]; omega
    rw [if_neg h, if_neg h2]

/-- Bits of a `DISP_PARA` value after its display mode is replaced. -/
theorem testBit_disp_mode_insert (x c i : Nat) :
    ((x &&& not32 (DISP_PARA_DISP_MODE 3)) ||| DISP_PARA_DISP_MODE c).testBit i =
      if 24 ≤ i ∧ i < 26 then c.testBit (i - 24) else (x.testBit i && decide (i < 32)) := by
  unfold DISP_PARA_DISP_MODE
  rw [testBit_insert, testBit_0x3]
  by_cases h : 24 ≤ i ∧ i < 26
  · have h2 : 24 ≤ i ∧ decide (i - 24 < 2) = true := by
      simp only [decide_eq_true_eq]; omega
    rw [if_pos h, if_pos h2]
  · have h2 : ¬ (24 ≤ i ∧ decide (i - 24 < 2) = true) := by
      simp only [decide_eq_true_eq]; omega
    rw [if_neg h, if_neg h2]

/-- The BPP field read back from the written `u32` is the inserted code. -/
theorem bpp_field_after (x c : Nat) :
    ((((x &&& not32 (CTRLDESCL0_5_BPP 0xf)) ||| CTRLDESCL0_5_BPP c) % 2 ^ 32) >>> 24) &&& 0xf =
      c &&& 0xf := by
  apply Nat.eq_of_testBit_eq
  intro i
  rw [Nat.testBit_and, Nat.testBit_shiftRight, Nat.testBit_mod_two_pow, testBit_bpp_insert,
    Nat.testBit_and, testBit_0xf]
  by_cases h : i < 4
  · have h1 : 24 ≤ 24 + i ∧ 24 + i < 28 := by omega
    have h2 : 24 + i < 32 := by omega
    have h3 : 24 + i - 24 = i := by omega
    rw [if_pos h1, h3]
    simp [h, h2]
  · simp [h]

/-- Bits of the value `mxsfbv3_set_formats` writes to `DISP_PARA` for the line
pattern `c`, given the register content `r` before. -/
theorem testBit_set_formats_value (r c i : Nat) :
    ((((((r % 2 ^ 32) &&& not32 (DISP_PARA_LINE_PATTERN 0xf)) ||| DISP_PARA_LINE_PATTERN c) &&&
        not32 (DISP_PARA_DISP_MODE 3)) ||| DISP_PARA_DISP_MODE 0) % 2 ^ 32).testBit i =
      if 24 ≤ i ∧ i < 26 then false
      else if 26 ≤ i ∧ i < 30 then c.testBit (i - 26)
      else (r.testBit i && decide (i < 32)) := by
  rw [Nat.testBit_mod_two_pow, testBit_disp_mode_insert, testBit_line_pattern_insert,
    Nat.testBit_mod_two_pow]
  by_cases h1 : 24 ≤ i ∧ i < 26
  · have h3 : i < 32 := by omega
    simp [h1, h3]
  · rw [if_neg h1, if_neg h1]
    by_cases h2 : 26 ≤ i ∧ i < 30
    · have h3 : i < 32 := by omega
      simp [h2, h3]
    · rw [if_neg h2, if_neg h2]
      cases decide (i < 32) <;> simp

/-- Clearing bit 31 of a register value read as `u32`: bit 31 is clear, the
lower bits are as before. -/
theorem testBit_clear_bit31 (r i : Nat) :
    (((r % 2 ^ 32) &&& not32 (BIT 31)) % 2 ^ 32).testBit i =
      (decide (i < 31) && r.testBit i) := by
  rw [Nat.testBit_mod_two_pow, Nat.testBit_and, Nat.testBit_mod_two_pow, testBit_not32,
    testBit_BIT]
  by_cases h : i < 31
  · have h1 : i < 32 := by omega
    have h2 : ¬ (31 = i) := by omega
    simp [h, h1, h2]
  · by_cases h1 : i < 32
    · have h2 : 31 = i := by omega
      simp [h, h2]
    · simp [h, h1]

/-- Two 16-bit halves packed by the macros `(x & 0xffff) << 16` and
`(x & 0xffff) << 0` fit a `u32`; bit `i` is bit `i` of the low operand below
16 and bit `i - 16` of the high operand from 16 to 31. -/
theorem testBit_pack16 (hi lo i : Nat) :
    ((((hi &&& 0xffff) <<< 16) ||| ((lo &&& 0xffff) <<< 0)) % 2 ^ 32).testBit i =
      if i < 16 then lo.testBit i else (decide (i < 32) && hi.testBit (i - 16)) := by
  rw [Nat.testBit_mod_two_pow, Nat.testBit_or, Nat.testBit_shiftLeft, Nat.testBit_shiftLeft,
    Nat.testBit_and, Nat.testBit_and, testBit_0xffff, testBit_0xffff]
  by_cases h : i < 16
  · have h1 : ¬ (i ≥ 16) := by omega
    have h2 : i < 32 := by omega
    simp [h, h1, h2]
  · have h1 : i ≥ 16 := by omega
    by_cases h2 : i < 32
    · have h3 : i - 16 < 16 := by omega
      simp [h, h1, h2, h3]
    · have h3 : ¬ (i - 16 < 16) := by omega
      simp [h, h2, h3]

/-- The packed value is not changed by the conversion to `u32`. -/
theorem pack16_eq (hi lo : Nat) :
    (((hi &&& 0xffff) <<< 16) ||| ((lo &&& 0xffff) <<< 0)) % 2 ^ 32 =
      ((hi &&& 0xffff) <<< 16) ||| (lo &&& 0xffff) := by
  apply Nat.eq_of_testBit_eq
  intro i
  rw [testBit_pack16, Nat.testBit_or, Nat.testBit_shiftLeft, Nat.testBit_and, Nat.testBit_and,
    testBit_0xffff, testBit_0xffff]
  by_cases h : i < 16
  · have h1 : ¬ (i ≥ 16) := by omega
    simp [h, h1]
  · have h1 : i ≥ 16 := by omega
    by_cases h2 : i < 32
    · have h3 : i - 16 < 16 := by omega
      simp [h, h1, h2, h3]
    · have h3 : ¬ (i - 16 < 16) := by omega
      simp [h, h2, h3]

/-- The upper half of a packed register reads back a 16-bit field. -/
theorem pack16_hi (hi lo : Nat) (h : hi < 2 ^ 16) :
    (((hi &&& 0xffff) <<< 16) ||| (lo &&& 0xffff)) >>> 16 = hi := by
  rw [← pack16_eq]
  apply Nat.eq_of_testBit_eq
  intro i
  rw [Nat.testBit_shiftRight, testBit_pack16]
  have h1 : ¬ (16 + i < 16) := by omega
  have h2 : 16 + i - 16 = i := by omega
  rw [if_neg h1, h2]
  by_cases h3 : i < 16
  · have h4 : 16 + i < 32 := by omega
    simp [h4]
  · rw [testBit_eq_false_of_lt hi 16 i h (by omega)]
    simp

/-- The lower half of a packed register reads back a 16-bit field. -/
theorem pack16_lo (hi lo : Nat) (h : lo < 2 ^ 16) :
    (((hi &&& 0xffff) <<< 16) ||| (lo &&& 0xffff)) &&& 0xffff = lo := by
  rw [← pack16_eq]
  apply Nat.eq_of_testBit_eq
  intro i
  rw [Nat.testBit_and, testBit_pack16, testBit_0xffff]
  by_cases h3 : i < 16
  · simp [h3]
  · rw [testBit_eq_false_of_lt lo 16 i h (by omega)]
    simp [h3]

/-- A register holds what was written to it, as a `u32`. -/
theorem writel_regs_same (mxsfb : mxsfbv3_drm_private) (val off : Nat) :
    (writel mxsfb val off).regs off = val % 2 ^ 32 := by
  simp [writel]

/-- A write leaves the other registers alone. -/
theorem writel_regs_other (mxsfb : mxsfbv3_drm_private) (val off o : Nat) (h : o ≠ off) :
    (writel mxsfb val off).regs o = mxsfb.regs o := by
  simp [writel, h]

/-- The layer-control register after a plane update: the value written by
the first `writel`, which the optional address write does not touch. -/
theorem plane_update_ctrl (mxsfb : mxsfbv3_drm_private) (fb : drm_framebuffer)
    (hfb : mxsfb.fb = some fb) :
    ∃ s, mxsfbv3_plane_atomic_update mxsfb = some s ∧
      s.regs LCDIFV3_CTRLDESCL0_5 =
        ((readl mxsfb LCDIFV3_CTRLDESCL0_5 &&& not32 (CTRLDESCL0_5_BPP 0xf)) |||
          CTRLDESCL0_5_BPP
            (if fb.format = DRM_FORMAT_XRGB1555 ∨ fb.format = DRM_FORMAT_ARGB1555 then
              BPP_ARGB1555
            else if fb.format = DRM_FORMAT_RGB565 then BPP_RGB565
            else if fb.format = DRM_FORMAT_XRGB4444 ∨ fb.format = DRM_FORMAT_ARGB4444 then
              BPP_ARGB4444
            else if fb.format = DRM_FORMAT_XRGB8888 ∨ fb.format = DRM_FORMAT_ARGB8888 then
              BPP_ARGB8888
            else if fb.format = DRM_FORMAT_XBGR8888 ∨ fb.format = DRM_FORMAT_ABGR8888 then
              BPP_ABGR8888
            else 0)) % 2 ^ 32 := by
  have hne : LCDIFV3_CTRLDESCL0_5 ≠ LCDIFV3_CTRLDESCL_LOW0_4 := by decide
  have h0 : CTRLDESCL0_5_BPP 0 = 0 := by decide
  refine ⟨_, by simp only [mxsfbv3_plane_atomic_update, hfb]; rfl, ?_⟩
  split_ifs <;> simp_all [writel_regs_same, writel_regs_other, hne]

/-- What `mxsfbv3_set_formats` does for a bus format it knows: one write to
`DISP_PARA` of the value computed from the register content. -/
theorem set_formats_known (mxsfb : mxsfbv3_drm_private) (c : Nat)
    (h : (mxsfbv3_bus_format mxsfb, c) ∈
      [(MEDIA_BUS_FMT_RGB565_1X16, LINE_PATTERN_RGB565),
       (MEDIA_BUS_FMT_RGB888_1X24, LINE_PATTERN_RGB888_OR_YUV444)]) :
    mxsfbv3_set_formats mxsfb =
      writel mxsfb
        (((((readl mxsfb LCDIFV3_DISP_PARA) &&& not32 (DISP_PARA_LINE_PATTERN 0xf)) |||
          DISP_PARA_LINE_PATTERN c) &&& not32 (DISP_PARA_DISP_MODE 3)) |||
            DISP_PARA_DISP_MODE 0)
        LCDIFV3_DISP_PARA := by
  simp only [List.mem_cons, Prod.mk.injEq, List.not_mem_nil, or_false] at h
  rcases h with ⟨hf, hc⟩ | ⟨hf, hc⟩
  · subst hc
    simp [mxsfbv3_set_formats, hf]
  · subst hc
    have hne : MEDIA_BUS_FMT_RGB888_1X24 ≠ MEDIA_BUS_FMT_RGB565_1X16 := by decide
    simp [mxsfbv3_set_formats, hf, hne]

/-- What `mxsfbv3_set_formats` does for any other bus format: it reports the
format and returns. -/
theorem set_formats_unknown (mxsfb : mxsfbv3_drm_private)
    (h1 : mxsfbv3_bus_format mxsfb ≠ MEDIA_BUS_FMT_RGB565_1X16)
    (h2 : mxsfbv3_bus_format mxsfb ≠ MEDIA_BUS_FMT_RGB888_1X24) :
    mxsfbv3_set_formats mxsfb =
      emit mxsfb (Effect.dev_err_unknown_bus_format (mxsfbv3_bus_format mxsfb)) := by
  simp [mxsfbv3_set_formats, h1, h2]

/-- The timing registers after `mxsfbv3_crtc_mode_set_nofb`. -/
theorem mode_set_nofb_regs (mxsfb : mxsfbv3_drm_private) :
    (mxsfbv3_crtc_mode_set_nofb mxsfb).regs LCDIFV3_DISP_SIZE =
      (DISP_SIZE_DELTA_Y mxsfb.adjusted_mode.crtc_vdisplay |||
        DISP_SIZE_DELTA_X mxsfb.adjusted_mode.crtc_hdisplay) % 2 ^ 32 ∧
    (mxsfbv3_crtc_mode_set_nofb mxsfb).regs LCDIFV3_HSYN_PARA =
      (HSYNC_PARA_BP_H mxsfb.vm.hback_porch ||| HSYNC_PARA_FP_H mxsfb.vm.hfront_porch) %
        2 ^ 32 ∧
    (mxsfbv3_crtc_mode_set_nofb mxsfb).regs LCDIFV3_VSYN_PARA =
      (VSYNC_PARA_BP_V mxsfb.vm.vback_porch ||| VSYNC_PARA_FP_V mxsfb.vm.vfront_porch) %
        2 ^ 32 ∧
    (mxsfbv3_crtc_mode_set_nofb mxsfb).regs LCDIFV3_VSYN_HSYN_WIDTH =
      (VSYN_HSYN_WIDTH_PW_V mxsfb.vm.vsync_len ||| VSYN_HSYN_WIDTH_PW_H mxsfb.vm.hsync_len) %
        2 ^ 32 ∧
    (mxsfbv3_crtc_mode_set_nofb mxsfb).regs LCDIFV3_CTRLDESCL0_1 =
      (CTRLDESCL0_1_HEIGHT mxsfb.vm.vactive ||| CTRLDESCL0_1_WIDTH mxsfb.vm.hactive) %
        2 ^ 32 := by
  simp [mxsfbv3_crtc_mode_set_nofb, writel, LCDIFV3_DISP_PARA, LCDIFV3_DISP_SIZE,
    LCDIFV3_HSYN_PARA, LCDIFV3_VSYN_PARA, LCDIFV3_VSYN_HSYN_WIDTH, LCDIFV3_CTRLDESCL0_1]

/-- The effects of `mxsfbv3_crtc_atomic_enable`, in program order. -/
theorem atomic_enable_trace (mxsfb : mxsfbv3_drm_private) :
    (mxsfbv3_crtc_atomic_enable mxsfb).trace =
      mxsfb.trace ++
        ([Effect.pm_runtime_get_sync] ++
        (if mxsfb.clk_axi then [Effect.clk_prepare_enable Clk.clk_axi] else []) ++
        [Effect.drm_crtc_vblank_on] ++
        (if mxsfbv3_bus_format mxsfb = MEDIA_BUS_FMT_RGB565_1X16 ∨
            mxsfbv3_bus_format mxsfb = MEDIA_BUS_FMT_RGB888_1X24 then
          [Effect.writel ((mxsfbv3_set_formats mxsfb).regs LCDIFV3_DISP_PARA) LCDIFV3_DISP_PARA]
        else [Effect.dev_err_unknown_bus_format (mxsfbv3_bus_format mxsfb)]) ++
        [Effect.clk_set_rate Clk.clk (crtc_clock_rate mxsfb.adjusted_mode.crtc_clock),
         Effect.writel
          ((DISP_SIZE_DELTA_Y mxsfb.adjusted_mode.crtc_vdisplay |||
            DISP_SIZE_DELTA_X mxsfb.adjusted_mode.crtc_hdisplay) % 2 ^ 32) LCDIFV3_DISP_SIZE,
         Effect.writel
          ((HSYNC_PARA_BP_H mxsfb.vm.hback_porch |||
            HSYNC_PARA_FP_H mxsfb.vm.hfront_porch) % 2 ^ 32) LCDIFV3_HSYN_PARA,
         Effect.writel
          ((VSYNC_PARA_BP_V mxsfb.vm.vback_porch |||
            VSYNC_PARA_FP_V mxsfb.vm.vfront_porch) % 2 ^ 32) LCDIFV3_VSYN_PARA,
         Effect.writel
          ((VSYN_HSYN_WIDTH_PW_V mxsfb.vm.vsync_len |||
            VSYN_HSYN_WIDTH_PW_H mxsfb.vm.hsync_len) % 2 ^ 32) LCDIFV3_VSYN_HSYN_WIDTH,
         Effect.writel
          ((CTRLDESCL0_1_HEIGHT mxsfb.vm.vactive |||
            CTRLDESCL0_1_WIDTH mxsfb.vm.hactive) % 2 ^ 32) LCDIFV3_CTRLDESCL0_1] ++
        (if mxsfbv3_get_fb_paddr mxsfb ≠ 0 then
          [Effect.writel (mxsfbv3_get_fb_paddr mxsfb % 2 ^ 32) LCDIFV3_CTRLDESCL_LOW0_4]
        else []) ++
        (if mxsfb.clk_disp_axi then [Effect.clk_prepare_enable Clk.clk_disp_axi] else []) ++
        [Effect.clk_prepare_enable Clk.clk,
         Effect.writel ((mxsfbv3_crtc_atomic_enable mxsfb).regs LCDIFV3_DISP_PARA)
          LCDIFV3_DISP_PARA,
         Effect.writel ((mxsfbv3_crtc_atomic_enable mxsfb).regs LCDIFV3_CTRLDESCL0_5)
          LCDIFV3_CTRLDESCL0_5]) := by
  have e1 : LCDIFV3_DISP_PARA ≠ LCDIFV3_CTRLDESCL0_5 := by decide
  have e2 : MEDIA_BUS_FMT_RGB888_1X24 ≠ MEDIA_BUS_FMT_RGB565_1X16 := by decide
  by_cases h565 : mxsfbv3_bus_format mxsfb = MEDIA_BUS_FMT_RGB565_1X16
  · cases ha : mxsfb.clk_axi <;> cases hd : mxsfb.clk_disp_axi <;>
      by_cases hp : mxsfbv3_get_fb_paddr mxsfb = 0 <;>
      simp [mxsfbv3_crtc_atomic_enable, mxsfbv3_enable_axi_clk, mxsfbv3_crtc_mode_set_nofb,
        mxsfbv3_set_formats, mxsfbv3_enable_controller, mxsfbv3_get_fb_paddr,
        mxsfbv3_bus_format, emit, writel, readl, ha, hd] at h565 hp ⊢ <;>
      simp [h565, hp, e1]
  · by_cases h888 : mxsfbv3_bus_format mxsfb = MEDIA_BUS_FMT_RGB888_1X24
    · cases ha : mxsfb.clk_axi <;> cases hd : mxsfb.clk_disp_axi <;>
        by_cases hp : mxsfbv3_get_fb_paddr mxsfb = 0 <;>
        simp [mxsfbv3_crtc_atomic_enable, mxsfbv3_enable_axi_clk, mxsfbv3_crtc_mode_set_nofb,
          mxsfbv3_set_formats, mxsfbv3_enable_controller, mxsfbv3_get_fb_paddr,
          mxsfbv3_bus_format, emit, writel, readl, ha, hd] at h888 hp ⊢ <;>
        simp [h888, hp, e1, e2]
    · cases ha : mxsfb.clk_axi <;> cases hd : mxsfb.clk_disp_axi <;>
        by_cases hp : mxsfbv3_get_fb_paddr mxsfb = 0 <;>
        simp [mxsfbv3_crtc_atomic_enable, mxsfbv3_enable_axi_clk, mxsfbv3_crtc_mode_set_nofb,
          mxsfbv3_set_formats, mxsfbv3_enable_controller, mxsfbv3_get_fb_paddr,
          mxsfbv3_bus_format, emit, writel, readl, ha, hd] at h565 h888 hp ⊢ <;>
        simp [h565, h888, hp, e1]

/-- The two control registers after `mxsfbv3_crtc_atomic_enable`: `DISP_PARA`
is what `mxsfbv3_set_formats` left there with `DISP_ON` set, `CTRLDESCL0_5`
is its old content with `EN` set. -/
theorem atomic_enable_regs (mxsfb : mxsfbv3_drm_private) :
    (mxsfbv3_crtc_atomic_enable mxsfb).regs LCDIFV3_DISP_PARA =
      (((mxsfbv3_set_formats mxsfb).regs LCDIFV3_DISP_PARA % 2 ^ 32) |||
        DISP_PARA_DISP_ON) % 2 ^ 32 ∧
    (mxsfbv3_crtc_atomic_enable mxsfb).regs LCDIFV3_CTRLDESCL0_5 =
      ((mxsfb.regs LCDIFV3_CTRLDESCL0_5 % 2 ^ 32) ||| CTRLDESCL0_5_EN) % 2 ^ 32 := by
  have e2 : MEDIA_BUS_FMT_RGB888_1X24 ≠ MEDIA_BUS_FMT_RGB565_1X16 := by decide
  by_cases h565 : mxsfbv3_bus_format mxsfb = MEDIA_BUS_FMT_RGB565_1X16
  · cases ha : mxsfb.clk_axi <;> cases hd : mxsfb.clk_disp_axi <;>
      by_cases hp : mxsfbv3_get_fb_paddr mxsfb = 0 <;>
      simp [mxsfbv3_crtc_atomic_enable, mxsfbv3_enable_axi_clk, mxsfbv3_crtc_mode_set_nofb,
        mxsfbv3_set_formats, mxsfbv3_enable_controller, mxsfbv3_get_fb_paddr,
        mxsfbv3_bus_format, emit, writel, readl, ha, hd] at h565 hp ⊢ <;>
      simp [h565, hp, LCDIFV3_DISP_PARA, LCDIFV3_DISP_SIZE, LCDIFV3_HSYN_PARA,
          LCDIFV3_VSYN_PARA, LCDIFV3_VSYN_HSYN_WIDTH, LCDIFV3_CTRLDESCL0_1,
          LCDIFV3_CTRLDESCL_LOW0_4, LCDIFV3_CTRLDESCL0_5]
  · by_cases h888 : mxsfbv3_bus_format mxsfb = MEDIA_BUS_FMT_RGB888_1X24
    · cases ha : mxsfb.clk_axi <;> cases hd : mxsfb.clk_disp_axi <;>
        by_cases hp : mxsfbv3_get_fb_paddr mxsfb = 0 <;>
        simp [mxsfbv3_crtc_atomic_enable, mxsfbv3_enable_axi_clk, mxsfbv3_crtc_mode_set_nofb,
          mxsfbv3_set_formats, mxsfbv3_enable_controller, mxsfbv3_get_fb_paddr,
          mxsfbv3_bus_format, emit, writel, readl, ha, hd] at h888 hp ⊢ <;>
        simp [h888, hp, e2, LCDIFV3_DISP_PARA, LCDIFV3_DISP_SIZE, LCDIFV3_HSYN_PARA,
          LCDIFV3_VSYN_PARA, LCDIFV3_VSYN_HSYN_WIDTH, LCDIFV3_CTRLDESCL0_1,
          LCDIFV3_CTRLDESCL_LOW0_4, LCDIFV3_CTRLDESCL0_5]
    · cases ha : mxsfb.clk_axi <;> cases hd : mxsfb.clk_disp_axi <;>
        by_cases hp : mxsfbv3_get_fb_paddr mxsfb = 0 <;>
        simp [mxsfbv3_crtc_atomic_enable, mxsfbv3_enable_axi_clk, mxsfbv3_crtc_mode_set_nofb,
          mxsfbv3_set_formats, mxsfbv3_enable_controller, mxsfbv3_get_fb_paddr,
          mxsfbv3_bus_format, emit, writel, readl, ha, hd] at h565 h888 hp ⊢ <;>
        simp [h565, h888, hp, LCDIFV3_DISP_PARA, LCDIFV3_DISP_SIZE, LCDIFV3_HSYN_PARA,
          LCDIFV3_VSYN_PARA, LCDIFV3_VSYN_HSYN_WIDTH, LCDIFV3_CTRLDESCL0_1,
          LCDIFV3_CTRLDESCL_LOW0_4, LCDIFV3_CTRLDESCL0_5]

/-- After `mxsfbv3_crtc_atomic_enable`, bit 31 is set in `DISP_PARA` and in
`CTRLDESCL0_5`. -/
theorem atomic_enable_bits (mxsfb : mxsfbv3_drm_private) :
    ((mxsfbv3_crtc_atomic_enable mxsfb).regs LCDIFV3_DISP_PARA).testBit 31 = true ∧
    ((mxsfbv3_crtc_atomic_enable mxsfb).regs LCDIFV3_CTRLDESCL0_5).testBit 31 = true := by
  obtain ⟨h1, h2⟩ := atomic_enable_regs mxsfb
  rw [h1, h2]
  simp only [Nat.testBit_mod_two_pow, Nat.testBit_or, DISP_PARA_DISP_ON, CTRLDESCL0_5_EN,
    testBit_BIT]
  simp

/-- The effects of `mxsfbv3_crtc_atomic_disable`, in program order. -/
theorem atomic_disable_trace (mxsfb : mxsfbv3_drm_private) :
    (mxsfbv3_crtc_atomic_disable mxsfb).trace =
      mxsfb.trace ++
        ([Effect.writel ((readl mxsfb LCDIFV3_CTRLDESCL0_5 &&& not32 CTRLDESCL0_5_EN) % 2 ^ 32)
            LCDIFV3_CTRLDESCL0_5,
          Effect.usleep_range 20000 25000,
          Effect.writel ((readl mxsfb LCDIFV3_DISP_PARA &&& not32 DISP_PARA_DISP_ON) % 2 ^ 32)
            LCDIFV3_DISP_PARA,
          Effect.clk_disable_unprepare Clk.clk] ++
        (if mxsfb.clk_disp_axi then [Effect.clk_disable_unprepare Clk.clk_disp_axi] else []) ++
        [Effect.spin_lock_irq] ++
        (match mxsfb.event with
          | some event => [Effect.drm_crtc_send_vblank_event event]
          | none => []) ++
        [Effect.spin_unlock_irq, Effect.drm_crtc_vblank_off] ++
        (if mxsfb.clk_axi then [Effect.clk_disable_unprepare Clk.clk_axi] else []) ++
        [Effect.pm_runtime_put_sync]) := by
  cases hd : mxsfb.clk_disp_axi <;> cases ha : mxsfb.clk_axi <;> cases he : mxsfb.event <;>
    simp [mxsfbv3_crtc_atomic_disable, mxsfbv3_disable_controller, mxsfbv3_disable_axi_clk,
      emit, writel, readl, hd, ha, he]

/-- The pending-event slot is empty after `mxsfbv3_crtc_atomic_disable`. -/
theorem atomic_disable_event_none (mxsfb : mxsfbv3_drm_private) :
    (mxsfbv3_crtc_atomic_disable mxsfb).event = none := by
  cases hd : mxsfb.clk_disp_axi <;> cases ha : mxsfb.clk_axi <;> cases he : mxsfb.event <;>
    simp [mxsfbv3_crtc_atomic_disable, mxsfbv3_disable_controller, mxsfbv3_disable_axi_clk,
      emit, writel, readl, hd, ha, he]

/-! ## The plane update (C1, C2) -/

/-- C1, counterexample: with the unrecognized format `RG24` and the layer
control register holding the code `0x9` in its BPP field, the plane update
leaves the BPP field at `0`, not at `0x9`. -/
theorem plane_update_unrecognized_changes_bpp :
    DRM_FORMAT_RGB888 ∉ mxsfbv3_plane_formats ∧
    ((scenario_dev (regs_const 0x09000000) [] DRM_FORMAT_RGB888 none).regs
        LCDIFV3_CTRLDESCL0_5 >>> 24) &&& 0xf = 9 ∧
    (mxsfbv3_plane_atomic_update
        (scenario_dev (regs_const 0x09000000) [] DRM_FORMAT_RGB888 none)).map
      (fun s => (s.regs LCDIFV3_CTRLDESCL0_5 >>> 24) &&& 0xf) = some 0 := by
  refine ⟨by decide, by decide, by decide⟩

/-- C1, amended: for a framebuffer whose format is none of the nine plane
formats, the plane update succeeds, leaves the BPP field (bits 27:24) of
`CTRLDESCL0_5` at zero, and leaves every other bit of the register as it
was. -/
theorem plane_update_unrecognized_clears_bpp (mxsfb : mxsfbv3_drm_private)
    (fb : drm_framebuffer) (hfb : mxsfb.fb = some fb)
    (hfmt : fb.format ∉ mxsfbv3_plane_formats) :
    ∃ s, mxsfbv3_plane_atomic_update mxsfb = some s ∧
      (s.regs LCDIFV3_CTRLDESCL0_5 >>> 24) &&& 0xf = 0 ∧
      ∀ i, i < 32 → ¬ (24 ≤ i ∧ i < 28) →
        (s.regs LCDIFV3_CTRLDESCL0_5).testBit i =
          (mxsfb.regs LCDIFV3_CTRLDESCL0_5).testBit i := by
  obtain ⟨s, hs, hreg⟩ := plane_update_ctrl mxsfb fb hfb
  simp only [mxsfbv3_plane_formats, List.mem_cons, List.mem_singleton, not_or] at hfmt
  obtain ⟨h1, h2, h3, h4, h5, h6, h7, h8, h9⟩ := hfmt
  simp only [h1, h2, h3, h4, h5, h6, h7, h8, h9, or_self, if_false] at hreg
  refine ⟨s, hs, ?_, ?_⟩
  · rw [hreg, bpp_field_after]
    decide
  · intro i hi hout
    rw [hreg, Nat.testBit_mod_two_pow, testBit_bpp_insert, if_neg hout, readl,
      Nat.testBit_mod_two_pow]
    simp [hi]

/-- C1, amended, at a concrete device: format `RG24`, register `0xffffffff`. -/
theorem plane_update_unrecognized_clears_bpp_witness :
    ∃ s, mxsfbv3_plane_atomic_update
        (scenario_dev (regs_const 0xffffffff) [] DRM_FORMAT_RGB888 none) = some s ∧
      (s.regs LCDIFV3_CTRLDESCL0_5 >>> 24) &&& 0xf = 0 ∧
      ∀ i, i < 32 → ¬ (24 ≤ i ∧ i < 28) →
        (s.regs LCDIFV3_CTRLDESCL0_5).testBit i =
          ((scenario_dev (regs_const 0xffffffff) [] DRM_FORMAT_RGB888 none).regs
            LCDIFV3_CTRLDESCL0_5).testBit i :=
  plane_update_unrecognized_clears_bpp
    (scenario_dev (regs_const 0xffffffff) [] DRM_FORMAT_RGB888 none)
    { format := DRM_FORMAT_RGB888, gem := some 0x80000000 } rfl (by decide)

/-- C2: for each of the nine plane formats and every prior register
content, the plane update succeeds, leaves the BPP field (bits 27:24) of
`CTRLDESCL0_5` at the code of the format (`0x5` for XRGB1555 and ARGB1555,
`0x4` for RGB565, `0x6` for XRGB4444 and ARGB4444, `0x9` for XRGB8888 and
ARGB8888, `0xa` for XBGR8888 and ABGR8888), and leaves every other bit of
the register as it was. -/
theorem plane_update_recognized_sets_bpp (mxsfb : mxsfbv3_drm_private)
    (fb : drm_framebuffer) (code : Nat) (hfb : mxsfb.fb = some fb)
    (hfmt : (fb.format, code) ∈
      [(DRM_FORMAT_XRGB1555, 0x5), (DRM_FORMAT_ARGB1555, 0x5), (DRM_FORMAT_RGB565, 0x4),
       (DRM_FORMAT_XRGB4444, 0x6), (DRM_FORMAT_ARGB4444, 0x6), (DRM_FORMAT_XRGB8888, 0x9),
       (DRM_FORMAT_ARGB8888, 0x9), (DRM_FORMAT_XBGR8888, 0xa), (DRM_FORMAT_ABGR8888, 0xa)]) :
    ∃ s, mxsfbv3_plane_atomic_update mxsfb = some s ∧
      (s.regs LCDIFV3_CTRLDESCL0_5 >>> 24) &&& 0xf = code ∧
      ∀ i, i < 32 → ¬ (24 ≤ i ∧ i < 28) →
        (s.regs LCDIFV3_CTRLDESCL0_5).testBit i =
          (mxsfb.regs LCDIFV3_CTRLDESCL0_5).testBit i := by
  obtain ⟨s, hs, hreg⟩ := plane_update_ctrl mxsfb fb hfb
  refine ⟨s, hs, ?_, ?_⟩
  · rw [hreg, bpp_field_after]
    simp only [List.mem_cons, Prod.mk.injEq, List.not_mem_nil, or_false] at hfmt
    rcases hfmt with h | h | h | h | h | h | h | h | h <;>
      obtain ⟨hf, hc⟩ := h <;> subst hc <;> rw [hf] <;> decide
  · intro i hi hout
    rw [hreg, Nat.testBit_mod_two_pow, testBit_bpp_insert, if_neg hout, readl,
      Nat.testBit_mod_two_pow]
    simp [hi]

/-- C2 at a concrete device: format `XB24`, register `0xffffffff`. -/
theorem plane_update_recognized_sets_bpp_witness :
    ∃ s, mxsfbv3_plane_atomic_update
        (scenario_dev (regs_const 0xffffffff) [] DRM_FORMAT_XBGR8888 none) = some s ∧
      (s.regs LCDIFV3_CTRLDESCL0_5 >>> 24) &&& 0xf = 0xa ∧
      ∀ i, i < 32 → ¬ (24 ≤ i ∧ i < 28) →
        (s.regs LCDIFV3_CTRLDESCL0_5).testBit i =
          ((scenario_dev (regs_const 0xffffffff) [] DRM_FORMAT_XBGR8888 none).regs
            LCDIFV3_CTRLDESCL0_5).testBit i :=
  plane_update_recognized_sets_bpp
    (scenario_dev (regs_const 0xffffffff) [] DRM_FORMAT_XBGR8888 none)
    { format := DRM_FORMAT_XBGR8888, gem := some 0x80000000 } 0xa rfl (by decide)

/-! ## The output format and the atomic check (C3, C4) -/

/-- C3: `mxsfbv3_set_formats` works with the first bus format the sink
reports, or with RGB888_1X24 when it reports none.  For RGB565_1X16 it
performs one write to `DISP_PARA` with line pattern (bits 29:26) `0x7`, for
RGB888_1X24 one with line pattern `0x0`, in both cases with display mode
(bits 25:24) zero and every other bit as read; for any other bus format it
performs no write and leaves the register file as it was. -/
theorem set_formats_spec (mxsfb : mxsfbv3_drm_private) :
    mxsfbv3_bus_format mxsfb = mxsfb.bus_formats.head?.getD MEDIA_BUS_FMT_RGB888_1X24 ∧
    (∀ pattern, (mxsfbv3_bus_format mxsfb, pattern) ∈
        [(MEDIA_BUS_FMT_RGB565_1X16, 0x7), (MEDIA_BUS_FMT_RGB888_1X24, 0x0)] →
      (mxsfbv3_set_formats mxsfb).trace =
        mxsfb.trace ++
          [Effect.writel ((mxsfbv3_set_formats mxsfb).regs LCDIFV3_DISP_PARA)
            LCDIFV3_DISP_PARA] ∧
      ((mxsfbv3_set_formats mxsfb).regs LCDIFV3_DISP_PARA >>> 26) &&& 0xf = pattern ∧
      ((mxsfbv3_set_formats mxsfb).regs LCDIFV3_DISP_PARA >>> 24) &&& 0x3 = 0 ∧
      (∀ i, i < 32 → ¬ (24 ≤ i ∧ i < 30) →
        ((mxsfbv3_set_formats mxsfb).regs LCDIFV3_DISP_PARA).testBit i =
          (mxsfb.regs LCDIFV3_DISP_PARA).testBit i) ∧
      (∀ off, off ≠ LCDIFV3_DISP_PARA →
        (mxsfbv3_set_formats mxsfb).regs off = mxsfb.regs off)) ∧
    (mxsfbv3_bus_format mxsfb ≠ MEDIA_BUS_FMT_RGB565_1X16 →
      mxsfbv3_bus_format mxsfb ≠ MEDIA_BUS_FMT_RGB888_1X24 →
      (mxsfbv3_set_formats mxsfb).regs = mxsfb.regs ∧
      (mxsfbv3_set_formats mxsfb).trace =
        mxsfb.trace ++ [Effect.dev_err_unknown_bus_format (mxsfbv3_bus_format mxsfb)]) := by
  refine ⟨?_, ?_, ?_⟩
  · unfold mxsfbv3_bus_format
    cases mxsfb.bus_formats <;> rfl
  · intro pattern h
    have hp : pattern < 2 ^ 4 := by
      simp only [List.mem_cons, Prod.mk.injEq, List.not_mem_nil, or_false] at h
      rcases h with ⟨-, hc⟩ | ⟨-, hc⟩ <;> subst hc <;> decide
    rw [set_formats_known mxsfb pattern h]
    refine ⟨by simp [writel], ?_, ?_, ?_, ?_⟩
    · rw [writel_regs_same, readl]
      refine field_eq_of_testBit _ 26 4 pattern hp ?_
      intro i hi
      rw [testBit_set_formats_value]
      have h1 : ¬ (24 ≤ 26 + i ∧ 26 + i < 26) := by omega
      have h2 : 26 ≤ 26 + i ∧ 26 + i < 30 := by omega
      have h3 : 26 + i - 26 = i := by omega
      rw [if_neg h1, if_pos h2, h3]
    · rw [writel_regs_same, readl]
      refine field_eq_of_testBit _ 24 2 0 (by decide) ?_
      intro i hi
      rw [testBit_set_formats_value]
      have h1 : 24 ≤ 24 + i ∧ 24 + i < 26 := by omega
      rw [if_pos h1]
      simp
    · intro i hi hout
      rw [writel_regs_same, readl, testBit_set_formats_value]
      have h1 : ¬ (24 ≤ i ∧ i < 26) := by omega
      have h2 : ¬ (26 ≤ i ∧ i < 30) := by omega
      rw [if_neg h1, if_neg h2]
      simp [hi]
    · intro off hoff
      exact writel_regs_other mxsfb _ _ off hoff
  · intro h1 h2
    rw [set_formats_unknown mxsfb h1 h2]
    exact ⟨rfl, rfl⟩

/-- C3 at concrete devices: a sink reporting RGB565_1X16 first, a sink
reporting nothing, and a sink reporting the unknown code `0x1009`, each with
`DISP_PARA` holding `0xffffffff`. -/
theorem set_formats_spec_witness :
    (mxsfbv3_set_formats
        (scenario_dev (regs_const 0xffffffff) [MEDIA_BUS_FMT_RGB565_1X16, 0x100a]
          DRM_FORMAT_XRGB8888 none)).regs LCDIFV3_DISP_PARA = 0xdcffffff ∧
    (mxsfbv3_set_formats
        (scenario_dev (regs_const 0xffffffff) [] DRM_FORMAT_XRGB8888 none)).regs
      LCDIFV3_DISP_PARA = 0xc0ffffff ∧
    (mxsfbv3_set_formats
        (scenario_dev (regs_const 0xffffffff) [0x1009] DRM_FORMAT_XRGB8888 none)).trace =
      [Effect.dev_err_unknown_bus_format 0x1009] ∧
    ((mxsfbv3_set_formats
        (scenario_dev (regs_const 0xffffffff) [MEDIA_BUS_FMT_RGB565_1X16, 0x100a]
          DRM_FORMAT_XRGB8888 none)).regs LCDIFV3_DISP_PARA >>> 26) &&& 0xf = 0x7 :=
  ⟨by decide, by decide, by decide,
    ((set_formats_spec
      (scenario_dev (regs_const 0xffffffff) [MEDIA_BUS_FMT_RGB565_1X16, 0x100a]
        DRM_FORMAT_XRGB8888 none)).2.1 0x7 (by decide)).2.1⟩

/-- C5, counterexample: on a device with all three clocks, the scenario mode
and a sink reporting no bus format, the core clock is enabled after
vertical-blank reporting is turned on, after the format register, the clock
rate, the timing registers and the buffer address, not before them. -/
theorem atomic_enable_core_clock_not_first :
    (mxsfbv3_crtc_atomic_enable
        (scenario_dev (regs_const 0) [] DRM_FORMAT_XRGB8888 none)).trace =
      [Effect.pm_runtime_get_sync,
       Effect.clk_prepare_enable Clk.clk_axi,
       Effect.drm_crtc_vblank_on,
       Effect.writel 0 LCDIFV3_DISP_PARA,
       Effect.clk_set_rate Clk.clk 51200000,
       Effect.writel 0x02580400 LCDIFV3_DISP_SIZE,
       Effect.writel 0x008c00a0 LCDIFV3_HSYN_PARA,
       Effect.writel 0x0014000c LCDIFV3_VSYN_PARA,
       Effect.writel 0x00030014 LCDIFV3_VSYN_HSYN_WIDTH,
       Effect.writel 0x02580400 LCDIFV3_CTRLDESCL0_1,
       Effect.writel 0x80000000 LCDIFV3_CTRLDESCL_LOW0_4,
       Effect.clk_prepare_enable Clk.clk_disp_axi,
       Effect.clk_prepare_enable Clk.clk,
       Effect.writel 0x80000000 LCDIFV3_DISP_PARA,
       Effect.writel 0x80000000 LCDIFV3_CTRLDESCL0_5] ∧
    ¬ ((mxsfbv3_crtc_atomic_enable
          (scenario_dev (regs_const 0) [] DRM_FORMAT_XRGB8888 none)).trace.indexOf
        (Effect.clk_prepare_enable Clk.clk) <
      (mxsfbv3_crtc_atomic_enable
          (scenario_dev (regs_const 0) [] DRM_FORMAT_XRGB8888 none)).trace.indexOf
        Effect.drm_crtc_vblank_on) := by
  refine ⟨by decide, by decide⟩

/-- C5, amended: the effects of `mxsfbv3_crtc_atomic_enable` are, in this
order: (1) the runtime-PM reference and the axi clock (when present), while
the core clock and the disp_axi clock stay off; (2) vertical-blank reporting
on; (3) the write of the pixel output format to `DISP_PARA`, or the report of
an unknown bus format; (4) the clock rate set from the mode's pixel clock;
(5) the writes of the five timing registers; (6) the write of the initial
buffer address when it is not zero; (7) the disp_axi clock (when present)
and the core clock enabled, and only then the write of `DISP_PARA` with the
display-on bit set and last the write of `CTRLDESCL0_5` with the
layer-enable bit set. -/
theorem atomic_enable_order (mxsfb : mxsfbv3_drm_private) :
    (mxsfbv3_crtc_atomic_enable mxsfb).trace =
      mxsfb.trace ++
        ([Effect.pm_runtime_get_sync] ++
        (if mxsfb.clk_axi then [Effect.clk_prepare_enable Clk.clk_axi] else []) ++
        [Effect.drm_crtc_vblank_on] ++
        (if mxsfbv3_bus_format mxsfb = MEDIA_BUS_FMT_RGB565_1X16 ∨
            mxsfbv3_bus_format mxsfb = MEDIA_BUS_FMT_RGB888_1X24 then
          [Effect.writel ((mxsfbv3_set_formats mxsfb).regs LCDIFV3_DISP_PARA) LCDIFV3_DISP_PARA]
        else [Effect.dev_err_unknown_bus_format (mxsfbv3_bus_format mxsfb)]) ++
        [Effect.clk_set_rate Clk.clk (crtc_clock_rate mxsfb.adjusted_mode.crtc_clock),
         Effect.writel
          ((DISP_SIZE_DELTA_Y mxsfb.adjusted_mode.crtc_vdisplay |||
            DISP_SIZE_DELTA_X mxsfb.adjusted_mode.crtc_hdisplay) % 2 ^ 32) LCDIFV3_DISP_SIZE,
         Effect.writel
          ((HSYNC_PARA_BP_H mxsfb.vm.hback_porch |||
            HSYNC_PARA_FP_H mxsfb.vm.hfront_porch) % 2 ^ 32) LCDIFV3_HSYN_PARA,
         Effect.writel
          ((VSYNC_PARA_BP_V mxsfb.vm.vback_porch |||
            VSYNC_PARA_FP_V mxsfb.vm.vfront_porch) % 2 ^ 32) LCDIFV3_VSYN_PARA,
         Effect.writel
          ((VSYN_HSYN_WIDTH_PW_V mxsfb.vm.vsync_len |||
            VSYN_HSYN_WIDTH_PW_H mxsfb.vm.hsync_len) % 2 ^ 32) LCDIFV3_VSYN_HSYN_WIDTH,
         Effect.writel
          ((CTRLDESCL0_1_HEIGHT mxsfb.vm.vactive |||
            CTRLDESCL0_1_WIDTH mxsfb.vm.hactive) % 2 ^ 32) LCDIFV3_CTRLDESCL0_1] ++
        (if mxsfbv3_get_fb_paddr mxsfb ≠ 0 then
          [Effect.writel (mxsfbv3_get_fb_paddr mxsfb % 2 ^ 32) LCDIFV3_CTRLDESCL_LOW0_4]
        else []) ++
        (if mxsfb.clk_disp_axi then [Effect.clk_prepare_enable Clk.clk_disp_axi] else []) ++
        [Effect.clk_prepare_enable Clk.clk,
         Effect.writel ((mxsfbv3_crtc_atomic_enable mxsfb).regs LCDIFV3_DISP_PARA)
          LCDIFV3_DISP_PARA,
         Effect.writel ((mxsfbv3_crtc_atomic_enable mxsfb).regs LCDIFV3_CTRLDESCL0_5)
          LCDIFV3_CTRLDESCL0_5]) ∧
    ((mxsfbv3_crtc_atomic_enable mxsfb).regs LCDIFV3_DISP_PARA).testBit 31 = true ∧
    ((mxsfbv3_crtc_atomic_enable mxsfb).regs LCDIFV3_CTRLDESCL0_5).testBit 31 = true :=
  ⟨atomic_enable_trace mxsfb, atomic_enable_bits mxsfb⟩

/-- C6: for every mode and every prior register content, after
`mxsfbv3_crtc_atomic_enable` with a sink that reports no bus format or
reports RGB888_1X24 first, `DISP_PARA` has the display-on bit (bit 31) set
and its line-pattern field (bits 29:26) equal to the RGB888 code `0x0`, and
`CTRLDESCL0_5` has the layer-enable bit (bit 31) set. -/
theorem atomic_enable_rgb888 (mxsfb : mxsfbv3_drm_private)
    (h : mxsfb.bus_formats = [] ∨
      mxsfb.bus_formats.head? = some MEDIA_BUS_FMT_RGB888_1X24) :
    ((mxsfbv3_crtc_atomic_enable mxsfb).regs LCDIFV3_DISP_PARA).testBit 31 = true ∧
    ((mxsfbv3_crtc_atomic_enable mxsfb).regs LCDIFV3_DISP_PARA >>> 26) &&& 0xf =
      LINE_PATTERN_RGB888_OR_YUV444 ∧
    ((mxsfbv3_crtc_atomic_enable mxsfb).regs LCDIFV3_CTRLDESCL0_5).testBit 31 = true := by
  have hfmt : mxsfbv3_bus_format mxsfb = MEDIA_BUS_FMT_RGB888_1X24 := by
    unfold mxsfbv3_bus_format
    rcases h with h | h
    · rw [h]
    · cases hl : mxsfb.bus_formats with
      | nil => rfl
      | cons f rest =>
        rw [hl] at h
        simpa using h
  have hknown : (mxsfbv3_bus_format mxsfb, LINE_PATTERN_RGB888_OR_YUV444) ∈
      [(MEDIA_BUS_FMT_RGB565_1X16, LINE_PATTERN_RGB565),
       (MEDIA_BUS_FMT_RGB888_1X24, LINE_PATTERN_RGB888_OR_YUV444)] := by
    rw [hfmt]
    decide
  obtain ⟨hb1, hb2⟩ := atomic_enable_bits mxsfb
  refine ⟨hb1, ?_, hb2⟩
  rw [(atomic_enable_regs mxsfb).1, set_formats_known mxsfb _ hknown, writel_regs_same, readl]
  refine field_eq_of_testBit _ 26 4 _ (by decide) ?_
  intro i hi
  rw [Nat.testBit_mod_two_pow, Nat.testBit_or, Nat.testBit_mod_two_pow,
    testBit_set_formats_value, DISP_PARA_DISP_ON, testBit_BIT]
  have h1 : ¬ (24 ≤ 26 + i ∧ 26 + i < 26) := by omega
  have h2 : 26 ≤ 26 + i ∧ 26 + i < 30 := by omega
  have h3 : 26 + i - 26 = i := by omega
  have h4 : 26 + i < 32 := by omega
  have h5 : ¬ (31 = 26 + i) := by omega
  rw [if_neg h1, if_pos h2, h3]
  simp [h4, h5]

/-- C6 at the scenario: the 1024x600 mode, no bus format reported, every
register holding `0xffffffff` before. -/
theorem atomic_enable_rgb888_witness :
    ((mxsfbv3_crtc_atomic_enable
        (scenario_dev (regs_const 0xffffffff) [] DRM_FORMAT_XRGB8888 none)).regs
      LCDIFV3_DISP_PARA).testBit 31 = true ∧
    ((mxsfbv3_crtc_atomic_enable
        (scenario_dev (regs_const 0xffffffff) [] DRM_FORMAT_XRGB8888 none)).regs
      LCDIFV3_DISP_PARA >>> 26) &&& 0xf = LINE_PATTERN_RGB888_OR_YUV444 ∧
    ((mxsfbv3_crtc_atomic_enable
        (scenario_dev (regs_const 0xffffffff) [] DRM_FORMAT_XRGB8888 none)).regs
      LCDIFV3_CTRLDESCL0_5).testBit 31 = true :=
  atomic_enable_rgb888 (scenario_dev (regs_const 0xffffffff) [] DRM_FORMAT_XRGB8888 none)
    (Or.inl rfl)

/-- C7: for every mode, `mxsfbv3_crtc_mode_set_nofb` leaves
`DISP_SIZE = (crtc_vdisplay & 0xffff) << 16 | (crtc_hdisplay & 0xffff)`,
`HSYN_PARA = (hback_porch & 0xffff) << 16 | (hfront_porch & 0xffff)`,
`VSYN_PARA = (vback_porch & 0xffff) << 16 | (vfront_porch & 0xffff)`,
`VSYN_HSYN_WIDTH = (vsync_len & 0xffff) << 16 | (hsync_len & 0xffff)` and
`CTRLDESCL0_1 = (vactive & 0xffff) << 16 | (hactive & 0xffff)`; when the two
fields of a register fit in 16 bits, the upper half of the register reads
back the first field and the lower half the second. -/
theorem mode_set_nofb_timing (mxsfb : mxsfbv3_drm_private) :
    ((mxsfbv3_crtc_mode_set_nofb mxsfb).regs LCDIFV3_DISP_SIZE =
        ((mxsfb.adjusted_mode.crtc_vdisplay &&& 0xffff) <<< 16) |||
          (mxsfb.adjusted_mode.crtc_hdisplay &&& 0xffff) ∧
      (mxsfbv3_crtc_mode_set_nofb mxsfb).regs LCDIFV3_HSYN_PARA =
        ((mxsfb.vm.hback_porch &&& 0xffff) <<< 16) ||| (mxsfb.vm.hfront_porch &&& 0xffff) ∧
      (mxsfbv3_crtc_mode_set_nofb mxsfb).regs LCDIFV3_VSYN_PARA =
        ((mxsfb.vm.vback_porch &&& 0xffff) <<< 16) ||| (mxsfb.vm.vfront_porch &&& 0xffff) ∧
      (mxsfbv3_crtc_mode_set_nofb mxsfb).regs LCDIFV3_VSYN_HSYN_WIDTH =
        ((mxsfb.vm.vsync_len &&& 0xffff) <<< 16) ||| (mxsfb.vm.hsync_len &&& 0xffff) ∧
      (mxsfbv3_crtc_mode_set_nofb mxsfb).regs LCDIFV3_CTRLDESCL0_1 =
        ((mxsfb.vm.vactive &&& 0xffff) <<< 16) ||| (mxsfb.vm.hactive &&& 0xffff)) ∧
    (mxsfb.adjusted_mode.crtc_vdisplay < 2 ^ 16 → mxsfb.adjusted_mode.crtc_hdisplay < 2 ^ 16 →
      (mxsfbv3_crtc_mode_set_nofb mxsfb).regs LCDIFV3_DISP_SIZE >>> 16 =
        mxsfb.adjusted_mode.crtc_vdisplay ∧
      (mxsfbv3_crtc_mode_set_nofb mxsfb).regs LCDIFV3_DISP_SIZE &&& 0xffff =
        mxsfb.adjusted_mode.crtc_hdisplay) ∧
    (mxsfb.vm.hback_porch < 2 ^ 16 → mxsfb.vm.hfront_porch < 2 ^ 16 →
      (mxsfbv3_crtc_mode_set_nofb mxsfb).regs LCDIFV3_HSYN_PARA >>> 16 = mxsfb.vm.hback_porch ∧
      (mxsfbv3_crtc_mode_set_nofb mxsfb).regs LCDIFV3_HSYN_PARA &&& 0xffff =
        mxsfb.vm.hfront_porch) ∧
    (mxsfb.vm.vback_porch < 2 ^ 16 → mxsfb.vm.vfront_porch < 2 ^ 16 →
      (mxsfbv3_crtc_mode_set_nofb mxsfb).regs LCDIFV3_VSYN_PARA >>> 16 = mxsfb.vm.vback_porch ∧
      (mxsfbv3_crtc_mode_set_nofb mxsfb).regs LCDIFV3_VSYN_PARA &&& 0xffff =
        mxsfb.vm.vfront_porch) ∧
    (mxsfb.vm.vsync_len < 2 ^ 16 → mxsfb.vm.hsync_len < 2 ^ 16 →
      (mxsfbv3_crtc_mode_set_nofb mxsfb).regs LCDIFV3_VSYN_HSYN_WIDTH >>> 16 =
        mxsfb.vm.vsync_len ∧
      (mxsfbv3_crtc_mode_set_nofb mxsfb).regs LCDIFV3_VSYN_HSYN_WIDTH &&& 0xffff =
        mxsfb.vm.hsync_len) ∧
    (mxsfb.vm.vactive < 2 ^ 16 → mxsfb.vm.hactive < 2 ^ 16 →
      (mxsfbv3_crtc_mode_set_nofb mxsfb).regs LCDIFV3_CTRLDESCL0_1 >>> 16 = mxsfb.vm.vactive ∧
      (mxsfbv3_crtc_mode_set_nofb mxsfb).regs LCDIFV3_CTRLDESCL0_1 &&& 0xffff =
        mxsfb.vm.hactive) := by
  obtain ⟨h1, h2, h3, h4, h5⟩ := mode_set_nofb_regs mxsfb
  simp only [DISP_SIZE_DELTA_Y, DISP_SIZE_DELTA_X, HSYNC_PARA_BP_H, HSYNC_PARA_FP_H,
    VSYNC_PARA_BP_V, VSYNC_PARA_FP_V, VSYN_HSYN_WIDTH_PW_V, VSYN_HSYN_WIDTH_PW_H,
    CTRLDESCL0_1_HEIGHT, CTRLDESCL0_1_WIDTH, pack16_eq] at h1 h2 h3 h4 h5
  rw [h1, h2, h3, h4, h5]
  exact ⟨⟨rfl, rfl, rfl, rfl, rfl⟩,
    fun a b => ⟨pack16_hi _ _ a, pack16_lo _ _ b⟩,
    fun a b => ⟨pack16_hi _ _ a, pack16_lo _ _ b⟩,
    fun a b => ⟨pack16_hi _ _ a, pack16_lo _ _ b⟩,
    fun a b => ⟨pack16_hi _ _ a, pack16_lo _ _ b⟩,
    fun a b => ⟨pack16_hi _ _ a, pack16_lo _ _ b⟩⟩

/-- C7 at the scenario (1024x600, horizontal front porch 160, back porch 140,
sync 20, vertical front porch 12, back porch 20, sync 3):
`DISP_SIZE = 0x02580400`, `HSYN_PARA = 0x008C00A0`, `VSYN_PARA = 0x0014000C`,
`VSYN_HSYN_WIDTH = 0x00030014`, and the active size reads back from the two
halves of `DISP_SIZE`. -/
theorem mode_set_nofb_timing_witness :
    ((mxsfbv3_crtc_mode_set_nofb
        (scenario_dev (regs_const 0) [] DRM_FORMAT_XRGB8888 none)).regs LCDIFV3_DISP_SIZE =
        0x02580400 ∧
      (mxsfbv3_crtc_mode_set_nofb
        (scenario_dev (regs_const 0) [] DRM_FORMAT_XRGB8888 none)).regs LCDIFV3_HSYN_PARA =
        0x008C00A0 ∧
      (mxsfbv3_crtc_mode_set_nofb
        (scenario_dev (regs_const 0) [] DRM_FORMAT_XRGB8888 none)).regs LCDIFV3_VSYN_PARA =
        0x0014000C ∧
      (mxsfbv3_crtc_mode_set_nofb
        (scenario_dev (regs_const 0) [] DRM_FORMAT_XRGB8888 none)).regs
          LCDIFV3_VSYN_HSYN_WIDTH = 0x00030014 ∧
      (mxsfbv3_crtc_mode_set_nofb
        (scenario_dev (regs_const 0) [] DRM_FORMAT_XRGB8888 none)).regs
          LCDIFV3_CTRLDESCL0_1 = 0x02580400) ∧
    ((mxsfbv3_crtc_mode_set_nofb
        (scenario_dev (regs_const 0) [] DRM_FORMAT_XRGB8888 none)).regs LCDIFV3_DISP_SIZE >>>
          16 = 600 ∧
      (mxsfbv3_crtc_mode_set_nofb
        (scenario_dev (regs_const 0) [] DRM_FORMAT_XRGB8888 none)).regs LCDIFV3_DISP_SIZE &&&
          0xffff = 1024) :=
  ⟨(mode_set_nofb_timing (scenario_dev (regs_const 0) [] DRM_FORMAT_XRGB8888 none)).1,
   (mode_set_nofb_timing (scenario_dev (regs_const 0) [] DRM_FORMAT_XRGB8888 none)).2.1
     (by decide) (by decide)⟩

/-! ## The disable sequence (C8, C9, C10) -/

/-- C8, counterexample: on a device with all three clocks, vertical-blank
reporting is turned off before the axi clock is disabled. -/
theorem atomic_disable_vblank_off_before_axi :
    (mxsfbv3_crtc_atomic_disable
        (scenario_dev (regs_const 0xffffffff) [] DRM_FORMAT_XRGB8888 none)).trace =
      [Effect.writel 0x7fffffff LCDIFV3_CTRLDESCL0_5,
       Effect.usleep_range 20000 25000,
       Effect.writel 0x7fffffff LCDIFV3_DISP_PARA,
       Effect.clk_disable_unprepare Clk.clk,
       Effect.clk_disable_unprepare Clk.clk_disp_axi,
       Effect.spin_lock_irq,
       Effect.spin_unlock_irq,
       Effect.drm_crtc_vblank_off,
       Effect.clk_disable_unprepare Clk.clk_axi,
       Effect.pm_runtime_put_sync] ∧
    ¬ ((mxsfbv3_crtc_atomic_disable
          (scenario_dev (regs_const 0xffffffff) [] DRM_FORMAT_XRGB8888 none)).trace.indexOf
        (Effect.clk_disable_unprepare Clk.clk_axi) <
      (mxsfbv3_crtc_atomic_disable
          (scenario_dev (regs_const 0xffffffff) [] DRM_FORMAT_XRGB8888 none)).trace.indexOf
        Effect.drm_crtc_vblank_off) := by
  refine ⟨by decide, by decide⟩

/-- C8, amended: the effects of `mxsfbv3_crtc_atomic_disable` are, in this
order: (1) a write to `CTRLDESCL0_5` with the layer-enable bit cleared and
the lower bits as read, (2) a settle wait of 20000 to 25000 microseconds,
(3) a write to `DISP_PARA` with the display-on bit cleared and the lower bits
as read, (4) the core clock and then the disp_axi clock (when present)
disabled, (5) a pending completion event, if any, signaled under the event
lock, (6) vertical-blank reporting turned off, (7) the axi clock (when
present) disabled and the runtime-PM reference released. -/
theorem atomic_disable_order (mxsfb : mxsfbv3_drm_private) :
    ∃ ctrl para : Nat,
      (mxsfbv3_crtc_atomic_disable mxsfb).trace =
        mxsfb.trace ++
          ([Effect.writel ctrl LCDIFV3_CTRLDESCL0_5,
            Effect.usleep_range 20000 25000,
            Effect.writel para LCDIFV3_DISP_PARA,
            Effect.clk_disable_unprepare Clk.clk] ++
          (if mxsfb.clk_disp_axi then [Effect.clk_disable_unprepare Clk.clk_disp_axi]
            else []) ++
          [Effect.spin_lock_irq] ++
          (match mxsfb.event with
            | some event => [Effect.drm_crtc_send_vblank_event event]
            | none => []) ++
          [Effect.spin_unlock_irq, Effect.drm_crtc_vblank_off] ++
          (if mxsfb.clk_axi then [Effect.clk_disable_unprepare Clk.clk_axi] else []) ++
          [Effect.pm_runtime_put_sync]) ∧
      (∀ i, ctrl.testBit i = (decide (i < 31) && (mxsfb.regs LCDIFV3_CTRLDESCL0_5).testBit i)) ∧
      (∀ i, para.testBit i = (decide (i < 31) && (mxsfb.regs LCDIFV3_DISP_PARA).testBit i)) :=
  ⟨_, _, atomic_disable_trace mxsfb,
    fun i => testBit_clear_bit31 (mxsfb.regs LCDIFV3_CTRLDESCL0_5) i,
    fun i => testBit_clear_bit31 (mxsfb.regs LCDIFV3_DISP_PARA) i⟩

/-- C9: `mxsfbv3_crtc_atomic_disable` leaves the pending-event slot empty; a
completion event pending before the call is signaled exactly once within the
effects of the call and no other event is signaled; without a pending event
no event is signaled; no event is armed for a later vertical blank. -/
theorem atomic_disable_signals_pending (mxsfb : mxsfbv3_drm_private) :
    (mxsfbv3_crtc_atomic_disable mxsfb).event = none ∧
    ∃ t, (mxsfbv3_crtc_atomic_disable mxsfb).trace = mxsfb.trace ++ t ∧
      (∀ e, mxsfb.event = some e →
        t.count (Effect.drm_crtc_send_vblank_event e) = 1 ∧
        ∀ e2, Effect.drm_crtc_send_vblank_event e2 ∈ t → e2 = e) ∧
      (mxsfb.event = none → ∀ e2, Effect.drm_crtc_send_vblank_event e2 ∉ t) ∧
      ∀ e2, Effect.drm_crtc_arm_vblank_event e2 ∉ t := by
  refine ⟨atomic_disable_event_none mxsfb, _, atomic_disable_trace mxsfb, ?_, ?_, ?_⟩
  · intro e he
    rw [he]
    cases mxsfb.clk_disp_axi <;> cases mxsfb.clk_axi <;> simp [List.count_cons]
  · intro he e2
    rw [he]
    cases mxsfb.clk_disp_axi <;> cases mxsfb.clk_axi <;> simp
  · intro e2
    cases mxsfb.clk_disp_axi <;> cases mxsfb.clk_axi <;> cases mxsfb.event <;> simp

/-- C9 at concrete devices: with the event `7` pending it is signaled once
and the slot is empty afterwards; with nothing pending nothing is
signaled. -/
theorem atomic_disable_signals_pending_witness :
    (mxsfbv3_crtc_atomic_disable
        (scenario_dev (regs_const 0) [] DRM_FORMAT_XRGB8888 (some 7))).event = none ∧
    (mxsfbv3_crtc_atomic_disable
        (scenario_dev (regs_const 0) [] DRM_FORMAT_XRGB8888 (some 7))).trace.count
      (Effect.drm_crtc_send_vblank_event 7) = 1 ∧
    (mxsfbv3_crtc_atomic_disable
        (scenario_dev (regs_const 0) [] DRM_FORMAT_XRGB8888 none)).trace.count
      (Effect.drm_crtc_send_vblank_event 7) = 0 :=
  ⟨(atomic_disable_signals_pending
      (scenario_dev (regs_const 0) [] DRM_FORMAT_XRGB8888 (some 7))).1,
    by decide, by decide⟩

/-- C10, counterexample: on a device with all three clocks and the event `7`
pending, the core clock and the disp_axi clock are disabled before the event
is signaled. -/
theorem atomic_disable_signal_after_core_clock :
    (mxsfbv3_crtc_atomic_disable
        (scenario_dev (regs_const 0xffffffff) [] DRM_FORMAT_XRGB8888 (some 7))).trace =
      [Effect.writel 0x7fffffff LCDIFV3_CTRLDESCL0_5,
       Effect.usleep_range 20000 25000,
       Effect.writel 0x7fffffff LCDIFV3_DISP_PARA,
       Effect.clk_disable_unprepare Clk.clk,
       Effect.clk_disable_unprepare Clk.clk_disp_axi,
       Effect.spin_lock_irq,
       Effect.drm_crtc_send_vblank_event 7,
       Effect.spin_unlock_irq,
       Effect.drm_crtc_vblank_off,
       Effect.clk_disable_unprepare Clk.clk_axi,
       Effect.pm_runtime_put_sync] ∧
    ¬ ((mxsfbv3_crtc_atomic_disable
          (scenario_dev (regs_const 0xffffffff) [] DRM_FORMAT_XRGB8888 (some 7))).trace.indexOf
        (Effect.drm_crtc_send_vblank_event 7) <
      (mxsfbv3_crtc_atomic_disable
          (scenario_dev (regs_const 0xffffffff) [] DRM_FORMAT_XRGB8888 (some 7))).trace.indexOf
        (Effect.clk_disable_unprepare Clk.clk)) := by
  refine ⟨by decide, by decide⟩

/-- C10, amended: in `mxsfbv3_crtc_atomic_disable` a pending completion event
is signaled after the core clock and the disp_axi clock (when present) have
been disabled, and before vertical-blank reporting is turned off, the axi
clock (when present) is disabled and the runtime-PM reference is released:
the effects of the call split around the signal into a part before, which
holds those two clock disables and not the axi one, and a part after, which
holds the rest and no further disable of the core or disp_axi clock. -/
theorem atomic_disable_signal_position (mxsfb : mxsfbv3_drm_private) (e : Nat)
    (he : mxsfb.event = some e) :
    ∃ before_signal after_signal : List Effect,
      (mxsfbv3_crtc_atomic_disable mxsfb).trace =
        mxsfb.trace ++ (before_signal ++ [Effect.drm_crtc_send_vblank_event e] ++ after_signal) ∧
      Effect.clk_disable_unprepare Clk.clk ∈ before_signal ∧
      (mxsfb.clk_disp_axi = true →
        Effect.clk_disable_unprepare Clk.clk_disp_axi ∈ before_signal) ∧
      Effect.clk_disable_unprepare Clk.clk_axi ∉ before_signal ∧
      Effect.drm_crtc_vblank_off ∉ before_signal ∧
      Effect.drm_crtc_vblank_off ∈ after_signal ∧
      (mxsfb.clk_axi = true → Effect.clk_disable_unprepare Clk.clk_axi ∈ after_signal) ∧
      Effect.pm_runtime_put_sync ∈ after_signal ∧
      Effect.clk_disable_unprepare Clk.clk ∉ after_signal ∧
      Effect.clk_disable_unprepare Clk.clk_disp_axi ∉ after_signal := by
  refine ⟨[Effect.writel ((readl mxsfb LCDIFV3_CTRLDESCL0_5 &&& not32 CTRLDESCL0_5_EN) % 2 ^ 32)
            LCDIFV3_CTRLDESCL0_5,
          Effect.usleep_range 20000 25000,
          Effect.writel ((readl mxsfb LCDIFV3_DISP_PARA &&& not32 DISP_PARA_DISP_ON) % 2 ^ 32)
            LCDIFV3_DISP_PARA,
          Effect.clk_disable_unprepare Clk.clk] ++
        (if mxsfb.clk_disp_axi then [Effect.clk_disable_unprepare Clk.clk_disp_axi] else []) ++
        [Effect.spin_lock_irq],
      [Effect.spin_unlock_irq, Effect.drm_crtc_vblank_off] ++
        (if mxsfb.clk_axi then [Effect.clk_disable_unprepare Clk.clk_axi] else []) ++
        [Effect.pm_runtime_put_sync], ?_, ?_⟩
  · rw [atomic_disable_trace, he]
    simp
  · cases mxsfb.clk_disp_axi <;> cases mxsfb.clk_axi <;> simp

/-- C10, amended, at a concrete device: all three clocks, the event `7`
pending. -/
theorem atomic_disable_signal_position_witness :
    ∃ before_signal after_signal : List Effect,
      (mxsfbv3_crtc_atomic_disable
          (scenario_dev (regs_const 0xffffffff) [] DRM_FORMAT_XRGB8888 (some 7))).trace =
        (scenario_dev (regs_const 0xffffffff) [] DRM_FORMAT_XRGB8888 (some 7)).trace ++
          (before_signal ++ [Effect.drm_crtc_send_vblank_event 7] ++ after_signal) ∧
      Effect.clk_disable_unprepare Clk.clk ∈ before_signal ∧
      Effect.clk_disable_unprepare Clk.clk_disp_axi ∈ before_signal ∧
      Effect.clk_disable_unprepare Clk.clk_axi ∈ after_signal := by
  obtain ⟨b, a, h1, h2, h3, -, -, -, h7, -⟩ :=
    atomic_disable_signal_position
      (scenario_dev (regs_const 0xffffffff) [] DRM_FORMAT_XRGB8888 (some 7)) 7 rfl
  exact ⟨b, a, h1, h2, h3 rfl, h7 rfl⟩

/-! ## Enable followed by disable (C11) -/

/-- The register file after `mxsfbv3_crtc_atomic_disable`: bit 31 is cleared
in the values read from `DISP_PARA` and `CTRLDESCL0_5`, no other register is
written. -/
theorem atomic_disable_regs (mxsfb : mxsfbv3_drm_private) (o : Nat) :
    (mxsfbv3_crtc_atomic_disable mxsfb).regs o =
      if o = LCDIFV3_DISP_PARA then
        (readl mxsfb LCDIFV3_DISP_PARA &&& not32 DISP_PARA_DISP_ON) % 2 ^ 32
      else if o = LCDIFV3_CTRLDESCL0_5 then
        (readl mxsfb LCDIFV3_CTRLDESCL0_5 &&& not32 CTRLDESCL0_5_EN) % 2 ^ 32
      else mxsfb.regs o := by
  cases hd : mxsfb.clk_disp_axi <;> cases ha : mxsfb.clk_axi <;> cases he : mxsfb.event <;>
    simp [mxsfbv3_crtc_atomic_disable, mxsfbv3_disable_controller, mxsfbv3_disable_axi_clk,
      emit, writel, readl, hd, ha, he]

/-- The registers other than `DISP_PARA` and `CTRLDESCL0_5` after
`mxsfbv3_crtc_atomic_enable`: the five timing registers hold the values
computed from the mode, `CTRLDESCL_LOW0_4` holds the framebuffer address when
that is not zero, every other register is as before. -/
theorem atomic_enable_regs_other (mxsfb : mxsfbv3_drm_private) (o : Nat)
    (h1 : o ≠ LCDIFV3_DISP_PARA) (h2 : o ≠ LCDIFV3_CTRLDESCL0_5) :
    (mxsfbv3_crtc_atomic_enable mxsfb).regs o =
      if o = LCDIFV3_CTRLDESCL_LOW0_4 ∧ mxsfbv3_get_fb_paddr mxsfb ≠ 0 then
        mxsfbv3_get_fb_paddr mxsfb % 2 ^ 32
      else if o = LCDIFV3_CTRLDESCL0_1 then
        (CTRLDESCL0_1_HEIGHT mxsfb.vm.vactive ||| CTRLDESCL0_1_WIDTH mxsfb.vm.hactive) % 2 ^ 32
      else if o = LCDIFV3_VSYN_HSYN_WIDTH then
        (VSYN_HSYN_WIDTH_PW_V mxsfb.vm.vsync_len ||| VSYN_HSYN_WIDTH_PW_H mxsfb.vm.hsync_len) %
          2 ^ 32
      else if o = LCDIFV3_VSYN_PARA then
        (VSYNC_PARA_BP_V mxsfb.vm.vback_porch ||| VSYNC_PARA_FP_V mxsfb.vm.vfront_porch) % 2 ^ 32
      else if o = LCDIFV3_HSYN_PARA then
        (HSYNC_PARA_BP_H mxsfb.vm.hback_porch ||| HSYNC_PARA_FP_H mxsfb.vm.hfront_porch) % 2 ^ 32
      else if o = LCDIFV3_DISP_SIZE then
        (DISP_SIZE_DELTA_Y mxsfb.adjusted_mode.crtc_vdisplay |||
          DISP_SIZE_DELTA_X mxsfb.adjusted_mode.crtc_hdisplay) % 2 ^ 32
      else mxsfb.regs o := by
  have e2 : MEDIA_BUS_FMT_RGB888_1X24 ≠ MEDIA_BUS_FMT_RGB565_1X16 := by decide
  by_cases h565 : mxsfbv3_bus_format mxsfb = MEDIA_BUS_FMT_RGB565_1X16
  · cases ha : mxsfb.clk_axi <;> cases hd : mxsfb.clk_disp_axi <;>
      by_cases hp : mxsfbv3_get_fb_paddr mxsfb = 0 <;>
      simp [mxsfbv3_crtc_atomic_enable, mxsfbv3_enable_axi_clk, mxsfbv3_crtc_mode_set_nofb,
        mxsfbv3_set_formats, mxsfbv3_enable_controller, mxsfbv3_get_fb_paddr,
        mxsfbv3_bus_format, emit, writel, readl, ha, hd] at h565 hp ⊢ <;>
      simp [h565, hp, h1, h2]
  · by_cases h888 : mxsfbv3_bus_format mxsfb = MEDIA_BUS_FMT_RGB888_1X24
    · cases ha : mxsfb.clk_axi <;> cases hd : mxsfb.clk_disp_axi <;>
        by_cases hp : mxsfbv3_get_fb_paddr mxsfb = 0 <;>
        simp [mxsfbv3_crtc_atomic_enable, mxsfbv3_enable_axi_clk, mxsfbv3_crtc_mode_set_nofb,
          mxsfbv3_set_formats, mxsfbv3_enable_controller, mxsfbv3_get_fb_paddr,
          mxsfbv3_bus_format, emit, writel, readl, ha, hd] at h888 hp ⊢ <;>
        simp [h888, hp, e2, h1, h2]
    · cases ha : mxsfb.clk_axi <;> cases hd : mxsfb.clk_disp_axi <;>
        by_cases hp : mxsfbv3_get_fb_paddr mxsfb = 0 <;>
        simp [mxsfbv3_crtc_atomic_enable, mxsfbv3_enable_axi_clk, mxsfbv3_crtc_mode_set_nofb,
          mxsfbv3_set_formats, mxsfbv3_enable_controller, mxsfbv3_get_fb_paddr,
          mxsfbv3_bus_format, emit, writel, readl, ha, hd] at h565 h888 hp ⊢ <;>
        simp [h565, h888, hp, h1, h2]

/-- Setting bit 31 in a value read as `u32` and clearing it again after a
write and a read keeps the 31 lower bits. -/
theorem testBit_set_clear_bit31 (r i : Nat) :
    ((((((r % 2 ^ 32) ||| BIT 31) % 2 ^ 32) % 2 ^ 32) &&& not32 (BIT 31)) % 2 ^ 32).testBit i =
      (decide (i < 31) && r.testBit i) := by
  rw [testBit_clear_bit31, Nat.testBit_mod_two_pow, Nat.testBit_or, Nat.testBit_mod_two_pow,
    testBit_BIT]
  by_cases h : i < 31
  · have h1 : i < 32 := by omega
    have h2 : ¬ (31 = i) := by omega
    simp [h, h1, h2]
  · simp [h]

/-- C11, counterexample: with the valid 1024x600 mode of the scenario and every
register zero before, `DISP_SIZE` holds `0x02580400` after
`mxsfbv3_crtc_atomic_enable` followed by `mxsfbv3_crtc_atomic_disable`, not
its value before the enable. -/
theorem enable_disable_changes_disp_size :
    (scenario_dev (regs_const 0) [] DRM_FORMAT_XRGB8888 none).regs LCDIFV3_DISP_SIZE = 0 ∧
    (mxsfbv3_crtc_atomic_disable
        (mxsfbv3_crtc_atomic_enable
          (scenario_dev (regs_const 0) [] DRM_FORMAT_XRGB8888 none))).regs
      LCDIFV3_DISP_SIZE = 0x02580400 ∧
    (mxsfbv3_crtc_atomic_disable
        (mxsfbv3_crtc_atomic_enable
          (scenario_dev (regs_const 0) [] DRM_FORMAT_XRGB8888 none))).regs
      LCDIFV3_DISP_SIZE ≠
      (scenario_dev (regs_const 0) [] DRM_FORMAT_XRGB8888 none).regs LCDIFV3_DISP_SIZE := by
  refine ⟨by decide, by decide, by decide⟩

/-- C11, amended: for every mode and every initial register content,
`mxsfbv3_crtc_atomic_enable` followed immediately by
`mxsfbv3_crtc_atomic_disable` leaves `CTRLDESCL0_5` as it was before the
enable except that the layer-enable bit (bit 31) is clear, leaves
`DISP_PARA` as `mxsfbv3_set_formats` programs it with the display-on bit
(bit 31) clear, leaves the five timing registers holding the values computed
from the mode, leaves `CTRLDESCL_LOW0_4` holding the framebuffer address when
that is not zero and untouched otherwise, and leaves every other register,
`INT_ENABLE_D0` among them, as it was. -/
theorem enable_disable_regs (mxsfb : mxsfbv3_drm_private) :
    (∀ i, ((mxsfbv3_crtc_atomic_disable (mxsfbv3_crtc_atomic_enable mxsfb)).regs
        LCDIFV3_CTRLDESCL0_5).testBit i =
      (decide (i < 31) && (mxsfb.regs LCDIFV3_CTRLDESCL0_5).testBit i)) ∧
    (∀ i, ((mxsfbv3_crtc_atomic_disable (mxsfbv3_crtc_atomic_enable mxsfb)).regs
        LCDIFV3_DISP_PARA).testBit i =
      (decide (i < 31) && ((mxsfbv3_set_formats mxsfb).regs LCDIFV3_DISP_PARA).testBit i)) ∧
    (mxsfbv3_crtc_atomic_disable (mxsfbv3_crtc_atomic_enable mxsfb)).regs LCDIFV3_DISP_SIZE =
      ((mxsfb.adjusted_mode.crtc_vdisplay &&& 0xffff) <<< 16) |||
        (mxsfb.adjusted_mode.crtc_hdisplay &&& 0xffff) ∧
    (mxsfbv3_crtc_atomic_disable (mxsfbv3_crtc_atomic_enable mxsfb)).regs LCDIFV3_HSYN_PARA =
      ((mxsfb.vm.hback_porch &&& 0xffff) <<< 16) ||| (mxsfb.vm.hfront_porch &&& 0xffff) ∧
    (mxsfbv3_crtc_atomic_disable (mxsfbv3_crtc_atomic_enable mxsfb)).regs LCDIFV3_VSYN_PARA =
      ((mxsfb.vm.vback_porch &&& 0xffff) <<< 16) ||| (mxsfb.vm.vfront_porch &&& 0xffff) ∧
    (mxsfbv3_crtc_atomic_disable (mxsfbv3_crtc_atomic_enable mxsfb)).regs
        LCDIFV3_VSYN_HSYN_WIDTH =
      ((mxsfb.vm.vsync_len &&& 0xffff) <<< 16) ||| (mxsfb.vm.hsync_len &&& 0xffff) ∧
    (mxsfbv3_crtc_atomic_disable (mxsfbv3_crtc_atomic_enable mxsfb)).regs LCDIFV3_CTRLDESCL0_1 =
      ((mxsfb.vm.vactive &&& 0xffff) <<< 16) ||| (mxsfb.vm.hactive &&& 0xffff) ∧
    (mxsfbv3_crtc_atomic_disable (mxsfbv3_crtc_atomic_enable mxsfb)).regs
        LCDIFV3_CTRLDESCL_LOW0_4 =
      (if mxsfbv3_get_fb_paddr mxsfb ≠ 0 then mxsfbv3_get_fb_paddr mxsfb % 2 ^ 32
        else mxsfb.regs LCDIFV3_CTRLDESCL_LOW0_4) ∧
    (mxsfbv3_crtc_atomic_disable (mxsfbv3_crtc_atomic_enable mxsfb)).regs LCDIFV3_INT_ENABLE_D0 =
      mxsfb.regs LCDIFV3_INT_ENABLE_D0 ∧
    (∀ o, o ∉ [LCDIFV3_DISP_PARA, LCDIFV3_DISP_SIZE, LCDIFV3_HSYN_PARA, LCDIFV3_VSYN_PARA,
        LCDIFV3_VSYN_HSYN_WIDTH, LCDIFV3_CTRLDESCL0_1, LCDIFV3_CTRLDESCL_LOW0_4,
        LCDIFV3_CTRLDESCL0_5] →
      (mxsfbv3_crtc_atomic_disable (mxsfbv3_crtc_atomic_enable mxsfb)).regs o = mxsfb.regs o) := by
  have hother : ∀ o, o ≠ LCDIFV3_DISP_PARA → o ≠ LCDIFV3_CTRLDESCL0_5 →
      (mxsfbv3_crtc_atomic_disable (mxsfbv3_crtc_atomic_enable mxsfb)).regs o =
        (mxsfbv3_crtc_atomic_enable mxsfb).regs o := by
    intro o h1 h2
    rw [atomic_disable_regs, if_neg h1, if_neg h2]
  refine ⟨?_, ?_, ?_, ?_, ?_, ?_, ?_, ?_, ?_, ?_⟩
  · intro i
    rw [atomic_disable_regs, if_neg (by decide), if_pos rfl, readl, (atomic_enable_regs mxsfb).2]
    exact testBit_set_clear_bit31 _ i
  · intro i
    rw [atomic_disable_regs, if_pos rfl, readl, (atomic_enable_regs mxsfb).1]
    exact testBit_set_clear_bit31 _ i
  · rw [hother _ (by decide) (by decide), atomic_enable_regs_other _ _ (by decide) (by decide)]
    simp [LCDIFV3_DISP_SIZE, LCDIFV3_CTRLDESCL_LOW0_4, LCDIFV3_CTRLDESCL0_1,
      LCDIFV3_VSYN_HSYN_WIDTH, LCDIFV3_VSYN_PARA, LCDIFV3_HSYN_PARA]
    exact pack16_eq _ _
  · rw [hother _ (by decide) (by decide), atomic_enable_regs_other _ _ (by decide) (by decide)]
    simp [LCDIFV3_DISP_SIZE, LCDIFV3_CTRLDESCL_LOW0_4, LCDIFV3_CTRLDESCL0_1,
      LCDIFV3_VSYN_HSYN_WIDTH, LCDIFV3_VSYN_PARA, LCDIFV3_HSYN_PARA]
    exact pack16_eq _ _
  · rw [hother _ (by decide) (by decide), atomic_enable_regs_other _ _ (by decide) (by decide)]
    simp [LCDIFV3_DISP_SIZE, LCDIFV3_CTRLDESCL_LOW0_4, LCDIFV3_CTRLDESCL0_1,
      LCDIFV3_VSYN_HSYN_WIDTH, LCDIFV3_VSYN_PARA, LCDIFV3_HSYN_PARA]
    exact pack16_eq _ _
  · rw [hother _ (by decide) (by decide), atomic_enable_regs_other _ _ (by decide) (by decide)]
    simp [LCDIFV3_DISP_SIZE, LCDIFV3_CTRLDESCL_LOW0_4, LCDIFV3_CTRLDESCL0_1,
      LCDIFV3_VSYN_HSYN_WIDTH, LCDIFV3_VSYN_PARA, LCDIFV3_HSYN_PARA]
    exact pack16_eq _ _
  · rw [hother _ (by decide) (by decide), atomic_enable_regs_other _ _ (by decide) (by decide)]
    simp [LCDIFV3_DISP_SIZE, LCDIFV3_CTRLDESCL_LOW0_4, LCDIFV3_CTRLDESCL0_1,
      LCDIFV3_VSYN_HSYN_WIDTH, LCDIFV3_VSYN_PARA, LCDIFV3_HSYN_PARA]
    exact pack16_eq _ _
  · rw [hother _ (by decide) (by decide), atomic_enable_regs_other _ _ (by decide) (by decide)]
    by_cases hp : mxsfbv3_get_fb_paddr mxsfb = 0
    · simp [hp, LCDIFV3_DISP_SIZE, LCDIFV3_CTRLDESCL_LOW0_4, LCDIFV3_CTRLDESCL0_1,
        LCDIFV3_VSYN_HSYN_WIDTH, LCDIFV3_VSYN_PARA, LCDIFV3_HSYN_PARA]
    · simp [hp]
  · rw [hother _ (by decide) (by decide), atomic_enable_regs_other _ _ (by decide) (by decide)]
    simp [LCDIFV3_DISP_SIZE, LCDIFV3_CTRLDESCL_LOW0_4, LCDIFV3_CTRLDESCL0_1,
      LCDIFV3_VSYN_HSYN_WIDTH, LCDIFV3_VSYN_PARA, LCDIFV3_HSYN_PARA, LCDIFV3_INT_ENABLE_D0]
  · intro o ho
    simp only [List.mem_cons, List.not_mem_nil, or_false, not_or] at ho
    obtain ⟨h1, h2, h3, h4, h5, h6, h7, h8⟩ := ho
    rw [hother o h1 h8, atomic_enable_regs_other mxsfb o h1 h8]
    simp [h2, h3, h4, h5, h6, h7]

/-! ## The flush hook (C12, C13) -/

/-- The test `x & BIT(n)` is not zero exactly when bit `n` of `x` is set. -/
theorem and_BIT_ne_zero (x n : Nat) : x &&& BIT n ≠ 0 ↔ x.testBit n = true := by
  constructor
  · intro h
    by_contra hb
    apply h
    apply Nat.eq_of_testBit_eq
    intro i
    rw [Nat.testBit_and, testBit_BIT, Nat.zero_testBit]
    by_cases hi : n = i
    · subst hi
      simp [hb]
    · simp [hi]
  · intro hb h
    have h2 : (x &&& BIT n).testBit n = true := by
      rw [Nat.testBit_and, testBit_BIT]
      simp [hb]
    rw [h, Nat.zero_testBit] at h2
    exact Bool.false_ne_true h2

/-- Masking a `u32` with a complemented mask yields a `u32`. -/
theorem and_not32_mod (x m : Nat) : (x &&& not32 m) % 2 ^ 32 = x &&& not32 m := by
  apply Nat.eq_of_testBit_eq
  intro i
  rw [Nat.testBit_mod_two_pow, Nat.testBit_and, testBit_not32]
  cases decide (i < 32) <;> simp

/-- Setting one of the 32 bits of a `u32` yields a `u32`. -/
theorem or_BIT_mod (x n : Nat) (hn : n < 32) :
    ((x % 2 ^ 32) ||| BIT n) % 2 ^ 32 = (x % 2 ^ 32) ||| BIT n := by
  apply Nat.eq_of_testBit_eq
  intro i
  rw [Nat.testBit_mod_two_pow, Nat.testBit_or, Nat.testBit_mod_two_pow, testBit_BIT]
  by_cases h : i < 32
  · simp [h]
  · have h2 : ¬ (n = i) := by omega
    simp [h, h2]

/-- The effects of `mxsfbv3_crtc_atomic_flush` and the event slot after it. -/
theorem atomic_flush_trace (mxsfb : mxsfbv3_drm_private) (vblank_get : Int) :
    (mxsfbv3_crtc_atomic_flush mxsfb vblank_get).event = none ∧
    (mxsfbv3_crtc_atomic_flush mxsfb vblank_get).trace =
      mxsfb.trace ++
        (match mxsfb.event with
          | none => []
          | some event =>
            [Effect.spin_lock_irq, Effect.drm_crtc_vblank_get vblank_get,
             (if vblank_get = 0 then Effect.drm_crtc_arm_vblank_event event
              else Effect.drm_crtc_send_vblank_event event),
             Effect.spin_unlock_irq,
             Effect.writel
              ((readl mxsfb LCDIFV3_CTRLDESCL0_5 ||| CTRLDESCL0_5_SHADOW_LOAD_EN) % 2 ^ 32)
              LCDIFV3_CTRLDESCL0_5]) := by
  cases he : mxsfb.event with
  | none => simp [mxsfbv3_crtc_atomic_flush, he]
  | some e =>
    by_cases hv : vblank_get = 0 <;>
      simp [mxsfbv3_crtc_atomic_flush, he, hv, emit, writel, readl]

/-- The register file after `mxsfbv3_crtc_atomic_flush`. -/
theorem atomic_flush_regs (mxsfb : mxsfbv3_drm_private) (vblank_get : Int) (o : Nat) :
    (mxsfbv3_crtc_atomic_flush mxsfb vblank_get).regs o =
      if o = LCDIFV3_CTRLDESCL0_5 ∧ mxsfb.event ≠ none then
        (readl mxsfb LCDIFV3_CTRLDESCL0_5 ||| CTRLDESCL0_5_SHADOW_LOAD_EN) % 2 ^ 32
      else mxsfb.regs o := by
  cases he : mxsfb.event with
  | none => simp [mxsfbv3_crtc_atomic_flush, he]
  | some e =>
    by_cases hv : vblank_get = 0 <;>
      simp [mxsfbv3_crtc_atomic_flush, he, hv, emit, writel, readl]

/-- C12, the code at the failing input: without a pending event
`mxsfbv3_crtc_atomic_flush` returns before the shadow-load write, so it has
no effect and bit 30 of `CTRLDESCL0_5` stays clear; on the same device with
the event `7` pending, bit 30 is set and the other bits are unchanged. -/
theorem atomic_flush_without_event_skips_shadow_load :
    (mxsfbv3_crtc_atomic_flush
        (scenario_dev (regs_const 0x89000000) [] DRM_FORMAT_XRGB8888 none) 0).trace = [] ∧
    ((mxsfbv3_crtc_atomic_flush
        (scenario_dev (regs_const 0x89000000) [] DRM_FORMAT_XRGB8888 none) 0).regs
      LCDIFV3_CTRLDESCL0_5).testBit 30 = false ∧
    (mxsfbv3_crtc_atomic_flush
        (scenario_dev (regs_const 0x89000000) [] DRM_FORMAT_XRGB8888 (some 7)) 0).regs
      LCDIFV3_CTRLDESCL0_5 = 0xc9000000 := by
  refine ⟨by decide, by decide, by decide⟩

/-- C13: `mxsfbv3_crtc_atomic_flush` empties the event slot.  A pending event
is handed off exactly once within the effects of the call: when
`drm_crtc_vblank_get` returns 0 it is armed for the next vertical blank and
nothing is signaled, otherwise it is signaled and nothing is armed; without
a pending event nothing is armed or signaled. -/
theorem atomic_flush_hands_off_event (mxsfb : mxsfbv3_drm_private) (vblank_get : Int) :
    (mxsfbv3_crtc_atomic_flush mxsfb vblank_get).event = none ∧
    ∃ t, (mxsfbv3_crtc_atomic_flush mxsfb vblank_get).trace = mxsfb.trace ++ t ∧
      (∀ e, mxsfb.event = some e → vblank_get = 0 →
        t.count (Effect.drm_crtc_arm_vblank_event e) = 1 ∧
        (∀ e2, Effect.drm_crtc_arm_vblank_event e2 ∈ t → e2 = e) ∧
        ∀ e2, Effect.drm_crtc_send_vblank_event e2 ∉ t) ∧
      (∀ e, mxsfb.event = some e → vblank_get ≠ 0 →
        t.count (Effect.drm_crtc_send_vblank_event e) = 1 ∧
        (∀ e2, Effect.drm_crtc_send_vblank_event e2 ∈ t → e2 = e) ∧
        ∀ e2, Effect.drm_crtc_arm_vblank_event e2 ∉ t) ∧
      (mxsfb.event = none →
        ∀ e2, Effect.drm_crtc_arm_vblank_event e2 ∉ t ∧
          Effect.drm_crtc_send_vblank_event e2 ∉ t) := by
  obtain ⟨h1, h2⟩ := atomic_flush_trace mxsfb vblank_get
  refine ⟨h1, _, h2, ?_, ?_, ?_⟩
  · intro e he hv
    rw [he]
    simp [hv, List.count_cons]
  · intro e he hv
    rw [he]
    simp [hv, List.count_cons]
  · intro he e2
    rw [he]
    simp

/-- C13 at concrete devices: with the event `7` pending it is armed when the
vertical-blank reference is obtained and signaled when the helper returns
`-22`; the slot is empty afterwards. -/
theorem atomic_flush_hands_off_event_witness :
    (mxsfbv3_crtc_atomic_flush
        (scenario_dev (regs_const 0) [] DRM_FORMAT_XRGB8888 (some 7)) 0).event = none ∧
    (mxsfbv3_crtc_atomic_flush
        (scenario_dev (regs_const 0) [] DRM_FORMAT_XRGB8888 (some 7)) 0).trace =
      [Effect.spin_lock_irq, Effect.drm_crtc_vblank_get 0,
       Effect.drm_crtc_arm_vblank_event 7, Effect.spin_unlock_irq,
       Effect.writel 0x40000000 LCDIFV3_CTRLDESCL0_5] ∧
    (mxsfbv3_crtc_atomic_flush
        (scenario_dev (regs_const 0) [] DRM_FORMAT_XRGB8888 (some 7)) (-22)).trace =
      [Effect.spin_lock_irq, Effect.drm_crtc_vblank_get (-22),
       Effect.drm_crtc_send_vblank_event 7, Effect.spin_unlock_irq,
       Effect.writel 0x40000000 LCDIFV3_CTRLDESCL0_5] :=
  ⟨(atomic_flush_hands_off_event
      (scenario_dev (regs_const 0) [] DRM_FORMAT_XRGB8888 (some 7)) 0).1,
    by decide, by decide⟩

/-! ## The interrupt handler and the vertical-blank hooks (C14, C15, C16) -/

/-- The effects of `mxsfbv3_irq_handler`, in program order, and its result. -/
theorem irq_handler_trace (mxsfb : mxsfbv3_drm_private) :
    (mxsfbv3_irq_handler mxsfb).1 = IRQ_HANDLED ∧
    (mxsfbv3_irq_handler mxsfb).2.trace =
      mxsfb.trace ++
        ((if (readl mxsfb LCDIFV3_INT_STATUS_D0).testBit 2 = true then
            [Effect.drm_crtc_handle_vblank]
          else []) ++
        [Effect.writel INT_STATUS_D0_VS_BLANK LCDIFV3_INT_STATUS_D0]) := by
  have hw : INT_STATUS_D0_VS_BLANK % 2 ^ 32 = INT_STATUS_D0_VS_BLANK := by decide
  have hb := and_BIT_ne_zero (readl mxsfb LCDIFV3_INT_STATUS_D0) 2
  refine ⟨rfl, ?_⟩
  unfold mxsfbv3_irq_handler
  by_cases h : (readl mxsfb LCDIFV3_INT_STATUS_D0).testBit 2 = true
  · have h2 : readl mxsfb LCDIFV3_INT_STATUS_D0 &&& INT_STATUS_D0_VS_BLANK ≠ 0 := hb.2 h
    simp only [h2, h, if_true, ne_eq, not_false_eq_true, writel, emit, hw]
    simp
  · have h2 : ¬ (readl mxsfb LCDIFV3_INT_STATUS_D0 &&& INT_STATUS_D0_VS_BLANK ≠ 0) :=
      fun h3 => h (hb.1 h3)
    simp only [h2, h, if_false, writel, hw]
    simp

/-- The hardware status after a trace that holds the single write of
`INT_STATUS_D0_VS_BLANK` to the status register, around effects that are
no register writes to it: only the frame-boundary flag is cleared. -/
theorem testBit_and_not32_vs_blank (status i : Nat) :
    (status &&& not32 INT_STATUS_D0_VS_BLANK).testBit i =
      (status.testBit i && decide (i < 32) && decide (i ≠ 2)) := by
  rw [Nat.testBit_and, testBit_not32, INT_STATUS_D0_VS_BLANK, testBit_BIT]
  by_cases h : i = 2
  · subst h
    simp
  · have h2 : ¬ (2 = i) := fun h3 => h h3.symm
    simp [h, h2]

/-- C14: for every value read from `INT_STATUS_D0`, `mxsfbv3_irq_handler`
dispatches the vertical-blank notification exactly once when bit 2 is set in
that value and not at all otherwise, and its write to `INT_STATUS_D0` is the
last effect, after the dispatch. -/
theorem irq_handler_dispatch (mxsfb : mxsfbv3_drm_private) :
    ∃ t w, (mxsfbv3_irq_handler mxsfb).2.trace =
        mxsfb.trace ++ (t ++ [Effect.writel w LCDIFV3_INT_STATUS_D0]) ∧
      t.count Effect.drm_crtc_handle_vblank =
        (if (readl mxsfb LCDIFV3_INT_STATUS_D0).testBit 2 = true then 1 else 0) ∧
      (∀ v o, Effect.writel v o ∉ t) := by
  refine ⟨_, _, (irq_handler_trace mxsfb).2, ?_, ?_⟩
  · by_cases h : (readl mxsfb LCDIFV3_INT_STATUS_D0).testBit 2 = true <;> simp [h]
  · intro v o
    by_cases h : (readl mxsfb LCDIFV3_INT_STATUS_D0).testBit 2 = true <;> simp [h]

/-- C14 at concrete devices: with the status `0x4` the notification is
dispatched once before the write, with the status `0x3` it is not
dispatched. -/
theorem irq_handler_dispatch_witness :
    (mxsfbv3_irq_handler
        (scenario_dev (regs_const 0x4) [] DRM_FORMAT_XRGB8888 none)).2.trace =
      [Effect.drm_crtc_handle_vblank, Effect.writel 0x4 LCDIFV3_INT_STATUS_D0] ∧
    (mxsfbv3_irq_handler
        (scenario_dev (regs_const 0x3) [] DRM_FORMAT_XRGB8888 none)).2.trace =
      [Effect.writel 0x4 LCDIFV3_INT_STATUS_D0] ∧
    ∃ t w, (mxsfbv3_irq_handler
        (scenario_dev (regs_const 0x4) [] DRM_FORMAT_XRGB8888 none)).2.trace =
      (scenario_dev (regs_const 0x4) [] DRM_FORMAT_XRGB8888 none).trace ++
        (t ++ [Effect.writel w LCDIFV3_INT_STATUS_D0]) := by
  obtain ⟨t, w, h, -⟩ :=
    irq_handler_dispatch (scenario_dev (regs_const 0x4) [] DRM_FORMAT_XRGB8888 none)
  exact ⟨by decide, by decide, t, w, h⟩

/-- C15, counterexample: with the status `0x7` read (bits 0, 1 and 2 set) the
handler writes `0x4`, not `0x7`; under write-1-to-clear the flags of bits 0
and 1 stay pending. -/
theorem irq_handler_writes_only_vs_blank :
    readl (scenario_dev (regs_const 0x7) [] DRM_FORMAT_XRGB8888 none)
      LCDIFV3_INT_STATUS_D0 = 0x7 ∧
    (mxsfbv3_irq_handler
        (scenario_dev (regs_const 0x7) [] DRM_FORMAT_XRGB8888 none)).2.trace =
      [Effect.drm_crtc_handle_vblank, Effect.writel 0x4 LCDIFV3_INT_STATUS_D0] ∧
    Effect.writel 0x7 LCDIFV3_INT_STATUS_D0 ∉
      (mxsfbv3_irq_handler
        (scenario_dev (regs_const 0x7) [] DRM_FORMAT_XRGB8888 none)).2.trace ∧
    int_status_after 0x7
      (mxsfbv3_irq_handler
        (scenario_dev (regs_const 0x7) [] DRM_FORMAT_XRGB8888 none)).2.trace = 0x3 := by
  refine ⟨by decide, by decide, by decide, by decide⟩

/-- C15, amended: whatever value `mxsfbv3_irq_handler` reads from
`INT_STATUS_D0`, its only register write is the unconditional write of `BIT(2)`
to `INT_STATUS_D0`; under write-1-to-clear the frame-boundary flag is cleared
and every other flag of the status register stays as it is. -/
theorem irq_handler_clears_vs_blank (mxsfb : mxsfbv3_drm_private) :
    ∃ t, (mxsfbv3_irq_handler mxsfb).2.trace = mxsfb.trace ++ t ∧
      t.filter (fun e => match e with | Effect.writel _ _ => true | _ => false) =
        [Effect.writel (BIT 2) LCDIFV3_INT_STATUS_D0] ∧
      ∀ status i, (int_status_after status t).testBit i =
        (status.testBit i && decide (i < 32) && decide (i ≠ 2)) := by
  refine ⟨_, (irq_handler_trace mxsfb).2, ?_, ?_⟩
  · by_cases h : (readl mxsfb LCDIFV3_INT_STATUS_D0).testBit 2 = true <;>
      simp [h, INT_STATUS_D0_VS_BLANK]
  · intro status i
    rw [← testBit_and_not32_vs_blank]
    by_cases h : (readl mxsfb LCDIFV3_INT_STATUS_D0).testBit 2 = true <;>
      simp [h, int_status_after]

/-- What `mxsfbv3_crtc_enable_vblank` does: the flag write, then the mask
write with bit 2 set. -/
theorem enable_vblank_eq (mxsfb : mxsfbv3_drm_private) :
    mxsfbv3_crtc_enable_vblank mxsfb =
      (0, writel (writel mxsfb (BIT 2) LCDIFV3_INT_STATUS_D0)
        (readl mxsfb LCDIFV3_INT_ENABLE_D0 ||| BIT 2) LCDIFV3_INT_ENABLE_D0) := rfl

/-- What `mxsfbv3_crtc_disable_vblank` does: the mask write with bit 2 clear,
then the flag write. -/
theorem disable_vblank_eq (mxsfb : mxsfbv3_drm_private) :
    mxsfbv3_crtc_disable_vblank mxsfb =
      writel (writel mxsfb (readl mxsfb LCDIFV3_INT_ENABLE_D0 &&& not32 (BIT 2))
        LCDIFV3_INT_ENABLE_D0) (BIT 2) LCDIFV3_INT_STATUS_D0 := rfl

/-- C16: with `e` the value read from `INT_ENABLE_D0`,
`mxsfbv3_crtc_enable_vblank` leaves `INT_ENABLE_D0 = e | BIT(2)` and
`mxsfbv3_crtc_disable_vblank` leaves `INT_ENABLE_D0 = e & ~BIT(2)`; each of
them performs exactly two register writes, one of which is the write of
`BIT(2)` to `INT_STATUS_D0`.  After enable followed by disable, bit 2 of the
mask is clear, the other 31 bits of the mask are those of `e`, and under
write-1-to-clear the frame-boundary flag of the status register is clear
whatever the status was. -/
theorem vblank_enable_disable (mxsfb : mxsfbv3_drm_private) :
    ((mxsfbv3_crtc_enable_vblank mxsfb).2.regs LCDIFV3_INT_ENABLE_D0 =
        readl mxsfb LCDIFV3_INT_ENABLE_D0 ||| BIT 2 ∧
      (mxsfbv3_crtc_enable_vblank mxsfb).2.trace =
        mxsfb.trace ++
          [Effect.writel (BIT 2) LCDIFV3_INT_STATUS_D0,
           Effect.writel (readl mxsfb LCDIFV3_INT_ENABLE_D0 ||| BIT 2) LCDIFV3_INT_ENABLE_D0]) ∧
    ((mxsfbv3_crtc_disable_vblank mxsfb).regs LCDIFV3_INT_ENABLE_D0 =
        readl mxsfb LCDIFV3_INT_ENABLE_D0 &&& not32 (BIT 2) ∧
      (mxsfbv3_crtc_disable_vblank mxsfb).trace =
        mxsfb.trace ++
          [Effect.writel (readl mxsfb LCDIFV3_INT_ENABLE_D0 &&& not32 (BIT 2))
            LCDIFV3_INT_ENABLE_D0,
           Effect.writel (BIT 2) LCDIFV3_INT_STATUS_D0]) ∧
    (((mxsfbv3_crtc_disable_vblank (mxsfbv3_crtc_enable_vblank mxsfb).2).regs
        LCDIFV3_INT_ENABLE_D0).testBit 2 = false ∧
      (∀ i, i < 32 → i ≠ 2 →
        ((mxsfbv3_crtc_disable_vblank (mxsfbv3_crtc_enable_vblank mxsfb).2).regs
          LCDIFV3_INT_ENABLE_D0).testBit i = (mxsfb.regs LCDIFV3_INT_ENABLE_D0).testBit i) ∧
      ∃ t, (mxsfbv3_crtc_disable_vblank (mxsfbv3_crtc_enable_vblank mxsfb).2).trace =
          mxsfb.trace ++ t ∧
        ∀ status, (int_status_after status t).testBit 2 = false) := by
  have hne : LCDIFV3_INT_ENABLE_D0 ≠ LCDIFV3_INT_STATUS_D0 := by decide
  have hb : BIT 2 % 2 ^ 32 = BIT 2 := by decide
  have hor := or_BIT_mod (mxsfb.regs LCDIFV3_INT_ENABLE_D0) 2 (by decide)
  have hand := and_not32_mod (mxsfb.regs LCDIFV3_INT_ENABLE_D0 % 2 ^ 32) (BIT 2)
  refine ⟨⟨?_, ?_⟩, ⟨?_, ?_⟩, ?_, ?_, ?_⟩
  · rw [enable_vblank_eq, writel_regs_same, readl, hor]
  · rw [enable_vblank_eq]
    simp only [writel, readl, hor, hb, List.append_assoc, List.cons_append, List.nil_append]
  · rw [disable_vblank_eq, writel_regs_other _ _ _ _ hne, writel_regs_same, readl, hand]
  · rw [disable_vblank_eq]
    simp only [writel, readl, hand, hb, List.append_assoc, List.cons_append, List.nil_append]
  · rw [disable_vblank_eq, writel_regs_other _ _ _ _ hne, writel_regs_same,
      Nat.testBit_mod_two_pow, Nat.testBit_and, testBit_not32, testBit_BIT]
    simp
  · intro i hi hi2
    have h2 : ¬ (2 = i) := fun h => hi2 h.symm
    rw [disable_vblank_eq, writel_regs_other _ _ _ _ hne, writel_regs_same,
      Nat.testBit_mod_two_pow, Nat.testBit_and, testBit_not32, testBit_BIT, readl,
      enable_vblank_eq, writel_regs_same, Nat.testBit_mod_two_pow, Nat.testBit_mod_two_pow,
      Nat.testBit_or, readl, Nat.testBit_mod_two_pow, testBit_BIT]
    simp [hi, h2]
  · refine ⟨[Effect.writel (BIT 2) LCDIFV3_INT_STATUS_D0,
        Effect.writel (readl mxsfb LCDIFV3_INT_ENABLE_D0 ||| BIT 2) LCDIFV3_INT_ENABLE_D0,
        Effect.writel
          (readl (mxsfbv3_crtc_enable_vblank mxsfb).2 LCDIFV3_INT_ENABLE_D0 &&& not32 (BIT 2))
          LCDIFV3_INT_ENABLE_D0,
        Effect.writel (BIT 2) LCDIFV3_INT_STATUS_D0], ?_, ?_⟩
    · have hand2 := and_not32_mod
        ((mxsfbv3_crtc_enable_vblank mxsfb).2.regs LCDIFV3_INT_ENABLE_D0 % 2 ^ 32) (BIT 2)
      rw [disable_vblank_eq]
      simp only [writel, readl, hand2, hb, List.append_assoc, List.cons_append,
        List.nil_append]
      rw [enable_vblank_eq]
      simp only [writel, readl, hor, hb, List.append_assoc, List.cons_append, List.nil_append]
    · intro status
      have h := testBit_and_not32_vs_blank
        (status &&& not32 INT_STATUS_D0_VS_BLANK) 2
      simp only [int_status_after, List.foldl_cons, List.foldl_nil, hne, if_true, if_false]
      simpa [INT_STATUS_D0_VS_BLANK] using h

/-- C16 at a concrete device: the mask holds `0xffffffff` before. -/
theorem vblank_enable_disable_witness :
    (mxsfbv3_crtc_enable_vblank
        (scenario_dev (regs_const 0xffffffff) [] DRM_FORMAT_XRGB8888 none)).2.regs
      LCDIFV3_INT_ENABLE_D0 = 0xffffffff ∧
    (mxsfbv3_crtc_disable_vblank
        (scenario_dev (regs_const 0xffffffff) [] DRM_FORMAT_XRGB8888 none)).regs
      LCDIFV3_INT_ENABLE_D0 = 0xfffffffb ∧
    ((mxsfbv3_crtc_disable_vblank
        (mxsfbv3_crtc_enable_vblank
          (scenario_dev (regs_const 0xffffffff) [] DRM_FORMAT_XRGB8888 none)).2).regs
      LCDIFV3_INT_ENABLE_D0).testBit 2 = false :=
  ⟨by decide, by decide,
    (vblank_enable_disable
      (scenario_dev (regs_const 0xffffffff) [] DRM_FORMAT_XRGB8888 none)).2.2.1⟩

end Mxsfbv3

namespace ImxBlkCtl

open Mxsfbv3 (BIT not32 EINVAL)

/-! ## The register interface of the block control -/

/-- The code a register update returns is the next one of `regmap_rets`. -/
theorem regmap_update_bits_ret (b : imx_blk_ctl) (reg mask val : Nat) :
    (regmap_update_bits b reg mask val).1 = b.regmap_rets.headD 0 := by
  unfold regmap_update_bits
  generalize b.regmap_rets.headD 0 = r
  by_cases h : r = 0 <;> simp [h]

/-- A register update records itself with its return code, uses up one code of
`regmap_rets` and leaves the rest of the block alone. -/
theorem regmap_update_bits_state (b : imx_blk_ctl) (reg mask val : Nat) :
    (regmap_update_bits b reg mask val).2.trace =
      b.trace ++ [BlkEffect.regmap_update_bits reg mask val (b.regmap_rets.headD 0)] ∧
    (regmap_update_bits b reg mask val).2.regmap_rets = b.regmap_rets.tail ∧
    (regmap_update_bits b reg mask val).2.dev_data = b.dev_data ∧
    (regmap_update_bits b reg mask val).2.clk_ret = b.clk_ret ∧
    (regmap_update_bits b reg mask val).2.bus_domain = b.bus_domain := by
  unfold regmap_update_bits
  generalize b.regmap_rets.headD 0 = r
  by_cases h : r = 0 <;> simp [h]

/-- The register file after a register update. -/
theorem regmap_update_bits_regmap (b : imx_blk_ctl) (reg mask val o : Nat) :
    (regmap_update_bits b reg mask val).2.regmap o =
      if o = reg ∧ b.regmap_rets.headD 0 = 0 then
        ((b.regmap reg % 2 ^ 32) &&& not32 mask) ||| ((val &&& mask) % 2 ^ 32)
      else b.regmap o := by
  unfold regmap_update_bits
  generalize b.regmap_rets.headD 0 = r
  by_cases h : r = 0 <;> simp [h]

/-! ## Power-on and power-off of a domain (C17, C18, C19) -/

/-- The handshake when it returns 0: the set of the reset bits of `hw_hsk`
when that is flagged `RESET`, the set of its enable bits, the wait. -/
theorem enable_hsk_ok (b : imx_blk_ctl) (h : (imx_blk_ctl_enable_hsk b).1 = 0) :
    (imx_blk_ctl_enable_hsk b).2.trace =
      b.trace ++
        ((if b.dev_data.hw_hsk.flags &&& IMX_BLK_CTL_PD_RESET ≠ 0 then
          [BlkEffect.regmap_update_bits b.dev_data.hw_hsk.rst_offset
            b.dev_data.hw_hsk.rst_mask b.dev_data.hw_hsk.rst_mask 0]
        else []) ++
        [BlkEffect.regmap_update_bits b.dev_data.hw_hsk.offset
          b.dev_data.hw_hsk.mask b.dev_data.hw_hsk.mask 0,
         BlkEffect.udelay 5]) := by
  unfold imx_blk_ctl_enable_hsk at h ⊢
  by_cases hrst : b.dev_data.hw_hsk.flags &&& IMX_BLK_CTL_PD_RESET ≠ 0
  · simp only [if_pos hrst] at h ⊢
    by_cases h1 : (regmap_update_bits b b.dev_data.hw_hsk.rst_offset
        b.dev_data.hw_hsk.rst_mask b.dev_data.hw_hsk.rst_mask).1 = 0
    · have h1n : ¬ ((regmap_update_bits b b.dev_data.hw_hsk.rst_offset
          b.dev_data.hw_hsk.rst_mask b.dev_data.hw_hsk.rst_mask).1 ≠ 0) := fun hn => hn h1
      simp only [if_neg h1n] at h ⊢
      have e1 := regmap_update_bits_ret b b.dev_data.hw_hsk.rst_offset
        b.dev_data.hw_hsk.rst_mask b.dev_data.hw_hsk.rst_mask
      rw [h1] at e1
      have e2 := regmap_update_bits_ret
        (regmap_update_bits b b.dev_data.hw_hsk.rst_offset
          b.dev_data.hw_hsk.rst_mask b.dev_data.hw_hsk.rst_mask).2
        b.dev_data.hw_hsk.offset b.dev_data.hw_hsk.mask b.dev_data.hw_hsk.mask
      rw [h] at e2
      simp only [emit, (regmap_update_bits_state _ _ _ _).1, ← e1, ← e2]
      simp
    · simp only [if_pos h1] at h
      exact absurd h h1
  · simp only [if_neg hrst] at h ⊢
    have h0 : ¬ ((0 : Int) ≠ 0) := fun hn => hn rfl
    simp only [if_neg h0] at h ⊢
    have e2 := regmap_update_bits_ret b
      b.dev_data.hw_hsk.offset b.dev_data.hw_hsk.mask b.dev_data.hw_hsk.mask
    rw [h] at e2
    simp only [emit, (regmap_update_bits_state _ _ _ _).1, ← e2]
    simp

/-- The power-on hook for a domain flagged `HANDSHAKE`: under the lock and with
the clocks on, only the handshake runs. -/
theorem power_on_handshake_eq (blk_ctl : imx_blk_ctl) (pd : imx_blk_ctl_domain)
    (hw : imx_blk_ctl_hw) (hhw : blk_ctl.dev_data.pds[pd.id]? = some hw)
    (hflag : hw.flags &&& IMX_BLK_CTL_PD_HANDSHAKE ≠ 0) :
    imx_blk_ctl_power_on blk_ctl pd =
      if blk_ctl.clk_ret ≠ 0 then
        some (blk_ctl.clk_ret,
          emit (emit (emit blk_ctl BlkEffect.mutex_lock)
            (BlkEffect.clk_bulk_prepare_enable blk_ctl.clk_ret)) BlkEffect.mutex_unlock)
      else
        some ((imx_blk_ctl_enable_hsk (emit (emit blk_ctl BlkEffect.mutex_lock)
            (BlkEffect.clk_bulk_prepare_enable blk_ctl.clk_ret))).1,
          emit (emit
            (if (imx_blk_ctl_enable_hsk (emit (emit blk_ctl BlkEffect.mutex_lock)
                (BlkEffect.clk_bulk_prepare_enable blk_ctl.clk_ret))).1 ≠ 0 then
              emit (imx_blk_ctl_enable_hsk (emit (emit blk_ctl BlkEffect.mutex_lock)
                (BlkEffect.clk_bulk_prepare_enable blk_ctl.clk_ret))).2
                BlkEffect.dev_err_handshake_power_on
            else (imx_blk_ctl_enable_hsk (emit (emit blk_ctl BlkEffect.mutex_lock)
                (BlkEffect.clk_bulk_prepare_enable blk_ctl.clk_ret))).2)
            BlkEffect.clk_bulk_disable_unprepare) BlkEffect.mutex_unlock) := by
  unfold imx_blk_ctl_power_on
  rw [hhw]
  simp only [if_pos hflag]
  have hc : (emit blk_ctl BlkEffect.mutex_lock).clk_ret = blk_ctl.clk_ret := rfl
  rw [hc]
  by_cases hclk : blk_ctl.clk_ret ≠ 0
  · simp only [if_pos hclk]
  · simp only [if_neg hclk]
    by_cases hr : (imx_blk_ctl_enable_hsk (emit (emit blk_ctl BlkEffect.mutex_lock)
        (BlkEffect.clk_bulk_prepare_enable blk_ctl.clk_ret))).1 ≠ 0
    · simp only [if_pos hr]
    · simp only [if_neg hr]

/-- C17: for every domain whose descriptor `pds[pd->id]` carries the
`HANDSHAKE` flag, an `imx_blk_ctl_power_on` that returns 0 performs, between
taking the lock with the clocks on and releasing them, exactly the handshake
on `hw_hsk`: the set of its reset bits when it is flagged `RESET`, the set of
its enable bits, a wait of 5 microseconds; no other register update, in
particular no clear of reset bits, takes place. -/
theorem power_on_handshake (blk_ctl : imx_blk_ctl) (pd : imx_blk_ctl_domain)
    (hw : imx_blk_ctl_hw) (s : imx_blk_ctl)
    (hhw : blk_ctl.dev_data.pds[pd.id]? = some hw)
    (hflag : hw.flags &&& IMX_BLK_CTL_PD_HANDSHAKE ≠ 0)
    (hok : imx_blk_ctl_power_on blk_ctl pd = some (0, s)) :
    s.trace =
      blk_ctl.trace ++
        ([BlkEffect.mutex_lock, BlkEffect.clk_bulk_prepare_enable 0] ++
        (if blk_ctl.dev_data.hw_hsk.flags &&& IMX_BLK_CTL_PD_RESET ≠ 0 then
          [BlkEffect.regmap_update_bits blk_ctl.dev_data.hw_hsk.rst_offset
            blk_ctl.dev_data.hw_hsk.rst_mask blk_ctl.dev_data.hw_hsk.rst_mask 0]
        else []) ++
        [BlkEffect.regmap_update_bits blk_ctl.dev_data.hw_hsk.offset
          blk_ctl.dev_data.hw_hsk.mask blk_ctl.dev_data.hw_hsk.mask 0,
         BlkEffect.udelay 5,
         BlkEffect.clk_bulk_disable_unprepare,
         BlkEffect.mutex_unlock]) := by
  rw [power_on_handshake_eq blk_ctl pd hw hhw hflag] at hok
  by_cases hclk : blk_ctl.clk_ret ≠ 0
  · rw [if_pos hclk] at hok
    simp only [Option.some.injEq, Prod.mk.injEq] at hok
    exact absurd hok.1 hclk
  · rw [if_neg hclk] at hok
    have hclk0 : blk_ctl.clk_ret = 0 := by
      by_contra h
      exact hclk h
    simp only [Option.some.injEq, Prod.mk.injEq] at hok
    obtain ⟨hret, hs⟩ := hok
    have hn : ¬ ((imx_blk_ctl_enable_hsk (emit (emit blk_ctl BlkEffect.mutex_lock)
        (BlkEffect.clk_bulk_prepare_enable blk_ctl.clk_ret))).1 ≠ 0) := fun h => h hret
    rw [if_neg hn] at hs
    rw [← hs]
    have ht := enable_hsk_ok _ hret
    simp only [emit] at ht ⊢
    rw [ht, hclk0]
    simp

/-- C17 at the dispmix block: powering on the bus domain (entry 4, flagged
`HANDSHAKE` and `RESET`) returns 0 after the set of the bus reset bit at
offset 0, the set of the bus enable bit at offset 4 and the wait. -/
theorem power_on_handshake_witness :
    ∃ s, imx_blk_ctl_power_on (dispmix_blk_ctl (Mxsfbv3.regs_const 0) none 0 [])
        (dispmix_domain 4) = some (0, s) ∧
      s.trace =
        [BlkEffect.mutex_lock, BlkEffect.clk_bulk_prepare_enable 0,
         BlkEffect.regmap_update_bits 0 0x40 0x40 0,
         BlkEffect.regmap_update_bits 4 0x1000 0x1000 0,
         BlkEffect.udelay 5,
         BlkEffect.clk_bulk_disable_unprepare, BlkEffect.mutex_unlock] := by
  have h : ∃ s, imx_blk_ctl_power_on (dispmix_blk_ctl (Mxsfbv3.regs_const 0) none 0 [])
      (dispmix_domain 4) = some (0, s) := ⟨_, rfl⟩
  obtain ⟨s, hs⟩ := h
  exact ⟨s, hs,
    (power_on_handshake (dispmix_blk_ctl (Mxsfbv3.regs_const 0) none 0 []) (dispmix_domain 4)
      imx8mm_dispmix_hw_hsk s rfl (by decide) hs).trans (by decide)⟩

/-- A register update when every coming update succeeds: it returns 0, records
itself, and every later update still succeeds. -/
theorem regmap_update_bits_ok (b : imx_blk_ctl) (reg mask val : Nat)
    (h : ∀ r ∈ b.regmap_rets, r = 0) :
    (regmap_update_bits b reg mask val).1 = 0 ∧
    (regmap_update_bits b reg mask val).2.trace =
      b.trace ++ [BlkEffect.regmap_update_bits reg mask val 0] ∧
    ∀ r ∈ (regmap_update_bits b reg mask val).2.regmap_rets, r = 0 := by
  have h0 : b.regmap_rets.headD 0 = 0 := by
    cases hl : b.regmap_rets with
    | nil => rfl
    | cons r rest =>
      rw [hl] at h
      exact h r (List.mem_cons_self r rest)
  obtain ⟨ht, hr, -⟩ := regmap_update_bits_state b reg mask val
  refine ⟨by rw [regmap_update_bits_ret, h0], by rw [ht, h0], ?_⟩
  intro r hr2
  rw [hr] at hr2
  exact h r (List.mem_of_mem_tail hr2)

/-- C18: for every domain whose descriptor `pds[pd->id]` is not flagged
`HANDSHAKE`, when the clocks come on and every register update succeeds,
`imx_blk_ctl_power_on` returns 0 and performs exactly these register updates
and waits, in this order: when the descriptor is flagged `RESET`, the clear of
the reset-mask bits at the reset offset, a wait of 5 microseconds and the set
of the reset-mask bits at the reset offset; then, flagged or not, the set of
the enable-mask bits at the enable offset.  With neither flag the enable-bit
set is the only register update. -/
theorem power_on_reset_sequence (blk_ctl : imx_blk_ctl) (pd : imx_blk_ctl_domain)
    (hw : imx_blk_ctl_hw) (hhw : blk_ctl.dev_data.pds[pd.id]? = some hw)
    (hflag : hw.flags &&& IMX_BLK_CTL_PD_HANDSHAKE = 0)
    (hclk : blk_ctl.clk_ret = 0) (hrets : ∀ r ∈ blk_ctl.regmap_rets, r = 0) :
    ∃ s, imx_blk_ctl_power_on blk_ctl pd = some (0, s) ∧
      s.trace =
        blk_ctl.trace ++
          ([BlkEffect.mutex_lock, BlkEffect.clk_bulk_prepare_enable 0] ++
          (if hw.flags &&& IMX_BLK_CTL_PD_RESET ≠ 0 then
            [BlkEffect.regmap_update_bits hw.rst_offset hw.rst_mask 0 0,
             BlkEffect.udelay 5,
             BlkEffect.regmap_update_bits hw.rst_offset hw.rst_mask hw.rst_mask 0]
          else []) ++
          [BlkEffect.regmap_update_bits hw.offset hw.mask hw.mask 0,
           BlkEffect.clk_bulk_disable_unprepare,
           BlkEffect.mutex_unlock]) := by
  have hflag2 : ¬ (hw.flags &&& IMX_BLK_CTL_PD_HANDSHAKE ≠ 0) := fun h => h hflag
  have hc : (emit blk_ctl BlkEffect.mutex_lock).clk_ret = blk_ctl.clk_ret := rfl
  have h00 : ¬ ((0 : Int) ≠ 0) := fun h => h rfl
  unfold imx_blk_ctl_power_on
  rw [hhw]
  simp only [hc, hclk, if_neg h00, if_neg hflag2]
  by_cases hrst : hw.flags &&& IMX_BLK_CTL_PD_RESET ≠ 0
  · simp only [if_pos hrst, regmap_clear_bits]
    obtain ⟨a1, a2, a3⟩ := regmap_update_bits_ok
      (emit (emit blk_ctl BlkEffect.mutex_lock) (BlkEffect.clk_bulk_prepare_enable 0))
      hw.rst_offset hw.rst_mask 0 hrets
    have a1n : ¬ ((regmap_update_bits
      (emit (emit blk_ctl BlkEffect.mutex_lock) (BlkEffect.clk_bulk_prepare_enable 0))
      hw.rst_offset hw.rst_mask 0).1 ≠ 0) := fun h => h a1
    simp only [if_neg a1n]
    obtain ⟨b1, b2, b3⟩ := regmap_update_bits_ok
      (emit (regmap_update_bits
        (emit (emit blk_ctl BlkEffect.mutex_lock) (BlkEffect.clk_bulk_prepare_enable 0))
        hw.rst_offset hw.rst_mask 0).2 (BlkEffect.udelay 5))
      hw.rst_offset hw.rst_mask hw.rst_mask a3
    have b1n : ¬ ((regmap_update_bits
      (emit (regmap_update_bits
        (emit (emit blk_ctl BlkEffect.mutex_lock) (BlkEffect.clk_bulk_prepare_enable 0))
        hw.rst_offset hw.rst_mask 0).2 (BlkEffect.udelay 5))
      hw.rst_offset hw.rst_mask hw.rst_mask).1 ≠ 0) := fun h => h b1
    simp only [if_neg b1n]
    obtain ⟨c1, c2, -⟩ := regmap_update_bits_ok _ hw.offset hw.mask hw.mask b3
    refine ⟨_, by rw [c1], ?_⟩
    simp only [emit] at a2 b2 c2 ⊢
    rw [c2, b2, a2]
    simp
  · simp only [if_neg hrst, if_neg h00]
    obtain ⟨c1, c2, -⟩ := regmap_update_bits_ok
      (emit (emit blk_ctl BlkEffect.mutex_lock) (BlkEffect.clk_bulk_prepare_enable 0))
      hw.offset hw.mask hw.mask hrets
    refine ⟨_, by rw [c1], ?_⟩
    simp only [emit] at c2 ⊢
    rw [c2]
    simp

/-- C18 at the dispmix block: powering on the CSI bridge domain (entry 0,
flagged `RESET`) clears the reset bits `0x7` at offset 0, waits, sets them,
then sets the enable bits `0x3f` at offset 4. -/
theorem power_on_reset_sequence_witness :
    ∃ s, imx_blk_ctl_power_on (dispmix_blk_ctl (Mxsfbv3.regs_const 0) none 0 [])
        (dispmix_domain 0) = some (0, s) ∧
      s.trace =
        [BlkEffect.mutex_lock, BlkEffect.clk_bulk_prepare_enable 0,
         BlkEffect.regmap_update_bits 0 0x7 0 0,
         BlkEffect.udelay 5,
         BlkEffect.regmap_update_bits 0 0x7 0x7 0,
         BlkEffect.regmap_update_bits 4 0x3f 0x3f 0,
         BlkEffect.clk_bulk_disable_unprepare, BlkEffect.mutex_unlock] := by
  obtain ⟨s, hs, ht⟩ :=
    power_on_reset_sequence (dispmix_blk_ctl (Mxsfbv3.regs_const 0) none 0 [])
      (dispmix_domain 0) (imx8mm_dispmix_blk_ctl_pds.getD 0 imx8mm_dispmix_hw_hsk) rfl
      (by decide) rfl (by decide)
  exact ⟨s, hs, ht.trans (by decide)⟩

/-- The handshake returns 0 when every register update succeeds. -/
theorem enable_hsk_ret_ok (b : imx_blk_ctl) (h : ∀ r ∈ b.regmap_rets, r = 0) :
    (imx_blk_ctl_enable_hsk b).1 = 0 := by
  have h00 : ¬ ((0 : Int) ≠ 0) := fun h => h rfl
  unfold imx_blk_ctl_enable_hsk
  by_cases hrst : b.dev_data.hw_hsk.flags &&& IMX_BLK_CTL_PD_RESET ≠ 0
  · simp only [if_pos hrst]
    obtain ⟨a1, -, a3⟩ := regmap_update_bits_ok b b.dev_data.hw_hsk.rst_offset
      b.dev_data.hw_hsk.rst_mask b.dev_data.hw_hsk.rst_mask h
    have a1n : ¬ ((regmap_update_bits b b.dev_data.hw_hsk.rst_offset
      b.dev_data.hw_hsk.rst_mask b.dev_data.hw_hsk.rst_mask).1 ≠ 0) := fun hn => hn a1
    simp only [if_neg a1n]
    exact (regmap_update_bits_ok _ _ _ _ a3).1
  · simp only [if_neg hrst, if_neg h00]
    exact (regmap_update_bits_ok _ _ _ _ h).1

/-- The power-off hook for a domain flagged `HANDSHAKE`: under the lock and
with the clocks on, only the handshake runs. -/
theorem power_off_handshake_eq (blk_ctl : imx_blk_ctl) (pd : imx_blk_ctl_domain)
    (hw : imx_blk_ctl_hw) (hhw : blk_ctl.dev_data.pds[pd.id]? = some hw)
    (hflag : hw.flags &&& IMX_BLK_CTL_PD_HANDSHAKE ≠ 0) :
    imx_blk_ctl_power_off blk_ctl pd =
      if blk_ctl.clk_ret ≠ 0 then
        some (blk_ctl.clk_ret,
          emit (emit (emit blk_ctl BlkEffect.mutex_lock)
            (BlkEffect.clk_bulk_prepare_enable blk_ctl.clk_ret)) BlkEffect.mutex_unlock)
      else
        some ((imx_blk_ctl_enable_hsk (emit (emit blk_ctl BlkEffect.mutex_lock)
            (BlkEffect.clk_bulk_prepare_enable blk_ctl.clk_ret))).1,
          emit (emit
            (if (imx_blk_ctl_enable_hsk (emit (emit blk_ctl BlkEffect.mutex_lock)
                (BlkEffect.clk_bulk_prepare_enable blk_ctl.clk_ret))).1 ≠ 0 then
              emit (imx_blk_ctl_enable_hsk (emit (emit blk_ctl BlkEffect.mutex_lock)
                (BlkEffect.clk_bulk_prepare_enable blk_ctl.clk_ret))).2
                BlkEffect.dev_err_handshake_power_off
            else (imx_blk_ctl_enable_hsk (emit (emit blk_ctl BlkEffect.mutex_lock)
                (BlkEffect.clk_bulk_prepare_enable blk_ctl.clk_ret))).2)
            BlkEffect.clk_bulk_disable_unprepare) BlkEffect.mutex_unlock) := by
  unfold imx_blk_ctl_power_off
  rw [hhw]
  have hflag2 : ¬ ¬ (hw.flags &&& IMX_BLK_CTL_PD_HANDSHAKE ≠ 0) := fun h => h hflag
  simp only [if_neg hflag2]
  have hc : (emit blk_ctl BlkEffect.mutex_lock).clk_ret = blk_ctl.clk_ret := rfl
  rw [hc]
  by_cases hclk : blk_ctl.clk_ret ≠ 0
  · simp only [if_pos hclk]
  · simp only [if_neg hclk]
    by_cases hr : (imx_blk_ctl_enable_hsk (emit (emit blk_ctl BlkEffect.mutex_lock)
        (BlkEffect.clk_bulk_prepare_enable blk_ctl.clk_ret))).1 ≠ 0
    · simp only [if_pos hr]
    · simp only [if_neg hr]

/-- C19: when the clocks come on and every register update succeeds,
`imx_blk_ctl_power_off` returns 0 and, for a domain whose descriptor is not
flagged `HANDSHAKE`, clears the enable-mask bits and then, when the descriptor
is flagged `RESET`, clears the reset-mask bits, and performs no other
register update; for a domain flagged `HANDSHAKE` it does exactly what
`imx_blk_ctl_power_on` does: the handshake on `hw_hsk` with its wait of 5
microseconds. -/
theorem power_off_sequence (blk_ctl : imx_blk_ctl) (pd : imx_blk_ctl_domain)
    (hw : imx_blk_ctl_hw) (hhw : blk_ctl.dev_data.pds[pd.id]? = some hw)
    (hclk : blk_ctl.clk_ret = 0) (hrets : ∀ r ∈ blk_ctl.regmap_rets, r = 0) :
    (hw.flags &&& IMX_BLK_CTL_PD_HANDSHAKE = 0 →
      ∃ s, imx_blk_ctl_power_off blk_ctl pd = some (0, s) ∧
        s.trace =
          blk_ctl.trace ++
            ([BlkEffect.mutex_lock, BlkEffect.clk_bulk_prepare_enable 0,
              BlkEffect.regmap_update_bits hw.offset hw.mask 0 0] ++
            (if hw.flags &&& IMX_BLK_CTL_PD_RESET ≠ 0 then
              [BlkEffect.regmap_update_bits hw.rst_offset hw.rst_mask 0 0]
            else []) ++
            [BlkEffect.clk_bulk_disable_unprepare, BlkEffect.mutex_unlock])) ∧
    (hw.flags &&& IMX_BLK_CTL_PD_HANDSHAKE ≠ 0 →
      imx_blk_ctl_power_off blk_ctl pd = imx_blk_ctl_power_on blk_ctl pd ∧
      ∃ s, imx_blk_ctl_power_off blk_ctl pd = some (0, s) ∧
        s.trace =
          blk_ctl.trace ++
            ([BlkEffect.mutex_lock, BlkEffect.clk_bulk_prepare_enable 0] ++
            (if blk_ctl.dev_data.hw_hsk.flags &&& IMX_BLK_CTL_PD_RESET ≠ 0 then
              [BlkEffect.regmap_update_bits blk_ctl.dev_data.hw_hsk.rst_offset
                blk_ctl.dev_data.hw_hsk.rst_mask blk_ctl.dev_data.hw_hsk.rst_mask 0]
            else []) ++
            [BlkEffect.regmap_update_bits blk_ctl.dev_data.hw_hsk.offset
              blk_ctl.dev_data.hw_hsk.mask blk_ctl.dev_data.hw_hsk.mask 0,
             BlkEffect.udelay 5,
             BlkEffect.clk_bulk_disable_unprepare,
             BlkEffect.mutex_unlock])) := by
  have hc : (emit blk_ctl BlkEffect.mutex_lock).clk_ret = blk_ctl.clk_ret := rfl
  have h00 : ¬ ((0 : Int) ≠ 0) := fun h => h rfl
  constructor
  · intro hflag
    have hflag2 : ¬ (hw.flags &&& IMX_BLK_CTL_PD_HANDSHAKE ≠ 0) := fun h => h hflag
    unfold imx_blk_ctl_power_off
    rw [hhw]
    simp only [hc, hclk, if_neg h00, if_pos hflag2, regmap_clear_bits]
    obtain ⟨a1, a2, a3⟩ := regmap_update_bits_ok
      (emit (emit blk_ctl BlkEffect.mutex_lock) (BlkEffect.clk_bulk_prepare_enable 0))
      hw.offset hw.mask 0 hrets
    have a1n : ¬ ((regmap_update_bits
      (emit (emit blk_ctl BlkEffect.mutex_lock) (BlkEffect.clk_bulk_prepare_enable 0))
      hw.offset hw.mask 0).1 ≠ 0) := fun h => h a1
    simp only [if_neg a1n]
    by_cases hrst : hw.flags &&& IMX_BLK_CTL_PD_RESET ≠ 0
    · simp only [if_pos hrst]
      obtain ⟨b1, b2, -⟩ := regmap_update_bits_ok _ hw.rst_offset hw.rst_mask 0 a3
      refine ⟨_, by rw [b1], ?_⟩
      simp only [emit] at a2 b2 ⊢
      rw [b2, a2]
      simp
    · simp only [if_neg hrst]
      refine ⟨_, by rw [a1], ?_⟩
      simp only [emit] at a2 ⊢
      rw [a2]
      simp
  · intro hflag
    have hclk2 : ¬ (blk_ctl.clk_ret ≠ 0) := fun h => h hclk
    have hret := enable_hsk_ret_ok
      (emit (emit blk_ctl BlkEffect.mutex_lock)
        (BlkEffect.clk_bulk_prepare_enable blk_ctl.clk_ret)) hrets
    have hretn : ¬ ((imx_blk_ctl_enable_hsk (emit (emit blk_ctl BlkEffect.mutex_lock)
        (BlkEffect.clk_bulk_prepare_enable blk_ctl.clk_ret))).1 ≠ 0) := fun h => h hret
    rw [power_off_handshake_eq blk_ctl pd hw hhw hflag,
      power_on_handshake_eq blk_ctl pd hw hhw hflag]
    simp only [if_neg hclk2, if_neg hretn]
    refine ⟨trivial, _, by rw [hret], ?_⟩
    have ht := enable_hsk_ok _ hret
    simp only [emit] at ht ⊢
    rw [ht, hclk]
    simp

/-- C19 at the dispmix block: powering off the CSI bridge domain (entry 0,
flagged `RESET`) clears the enable bits `0x3f` at offset 4 and then the reset
bits `0x7` at offset 0. -/
theorem power_off_sequence_witness :
    ∃ s, imx_blk_ctl_power_off (dispmix_blk_ctl (Mxsfbv3.regs_const 0xffff) none 0 [])
        (dispmix_domain 0) = some (0, s) ∧
      s.trace =
        [BlkEffect.mutex_lock, BlkEffect.clk_bulk_prepare_enable 0,
         BlkEffect.regmap_update_bits 4 0x3f 0 0,
         BlkEffect.regmap_update_bits 0 0x7 0 0,
         BlkEffect.clk_bulk_disable_unprepare, BlkEffect.mutex_unlock] := by
  obtain ⟨s, hs, ht⟩ :=
    (power_off_sequence (dispmix_blk_ctl (Mxsfbv3.regs_const 0xffff) none 0 [])
      (dispmix_domain 0) (imx8mm_dispmix_blk_ctl_pds.getD 0 imx8mm_dispmix_hw_hsk) rfl
      rfl (by decide)).1 (by decide)
  exact ⟨s, hs, ht.trans (by decide)⟩

/-! ## The probe of a domain (C20) -/

/-- C20: for a domain without a named parent, `imx_blk_ctl_probe` returns
`-EPROBE_DEFER`, leaves the `hooked` flag as it was and attempts no attach
while `blk_ctl->bus_domain` is not set; once it is set and
`pm_genpd_add_subdomain` beneath it returns 0, the probe returns 0 with
`hooked` true.  For any domain, a probe that turns `hooked` from false to
true has added the domain beneath a parent with success. -/
theorem probe_defers_until_bus_domain (blk_ctl : imx_blk_ctl) (domain : imx_blk_ctl_domain)
    (attach : attach_result) (add_subdomain : Int) :
    (domain.hw.active_pd_name = none → blk_ctl.bus_domain = none →
      (imx_blk_ctl_probe blk_ctl domain attach add_subdomain).1 = -EPROBE_DEFER ∧
      (imx_blk_ctl_probe blk_ctl domain attach add_subdomain).2.1.hooked = domain.hooked ∧
      (imx_blk_ctl_probe blk_ctl domain attach add_subdomain).2.2.trace = blk_ctl.trace) ∧
    (domain.hw.active_pd_name = none → ∀ bus, blk_ctl.bus_domain = some bus →
      add_subdomain = 0 →
      (imx_blk_ctl_probe blk_ctl domain attach add_subdomain).1 = 0 ∧
      (imx_blk_ctl_probe blk_ctl domain attach add_subdomain).2.1.hooked = true ∧
      (imx_blk_ctl_probe blk_ctl domain attach add_subdomain).2.2.trace =
        blk_ctl.trace ++
          [BlkEffect.pm_genpd_add_subdomain bus domain.id 0, BlkEffect.mutex_lock,
           BlkEffect.mutex_unlock]) ∧
    (domain.hooked = false →
      (imx_blk_ctl_probe blk_ctl domain attach add_subdomain).2.1.hooked = true →
      ∃ parent, BlkEffect.pm_genpd_add_subdomain parent domain.id 0 ∈
        (imx_blk_ctl_probe blk_ctl domain attach add_subdomain).2.2.trace) := by
  refine ⟨?_, ?_, ?_⟩
  · intro hname hbus
    simp [imx_blk_ctl_probe, hname, hbus]
  · intro hname bus hbus hadd
    simp [imx_blk_ctl_probe, imx_blk_ctl_probe_add, emit, hname, hbus, hadd]
  · intro hh
    cases hname : domain.hw.active_pd_name with
    | none =>
      cases hbus : blk_ctl.bus_domain with
      | none => simp [imx_blk_ctl_probe, hname, hbus, hh]
      | some bus =>
        by_cases hadd : add_subdomain = 0
        · intro _
          exact ⟨bus, by
            simp [imx_blk_ctl_probe, imx_blk_ctl_probe_add, emit, hname, hbus, hadd]⟩
        · simp [imx_blk_ctl_probe, imx_blk_ctl_probe_add, emit, hname, hbus, hadd, hh]
    | some name =>
      cases attach with
      | err_ptr err => simp [imx_blk_ctl_probe, hname, hh]
      | null => simp [imx_blk_ctl_probe, hname, hh]
      | device active_pd genpd =>
        by_cases hadd : add_subdomain = 0
        · intro _
          exact ⟨genpd, by simp [imx_blk_ctl_probe, imx_blk_ctl_probe_add, emit, hname, hadd]⟩
        · simp [imx_blk_ctl_probe, imx_blk_ctl_probe_add, emit, hname, hadd, hh]

/-- C20 at the dispmix block: the probe of the LCDIF domain, which names no
parent, returns `-EPROBE_DEFER` (`-517`) and stays unhooked before the bus
domain is registered, and returns 0 hooked once the bus domain (id 4) is
registered and the attach succeeds. -/
theorem probe_defers_until_bus_domain_witness :
    (imx_blk_ctl_probe (dispmix_blk_ctl (Mxsfbv3.regs_const 0) none 0 []) (dispmix_domain 1)
        attach_result.null 0).1 = -517 ∧
    (imx_blk_ctl_probe (dispmix_blk_ctl (Mxsfbv3.regs_const 0) none 0 []) (dispmix_domain 1)
        attach_result.null 0).2.1.hooked = false ∧
    (imx_blk_ctl_probe (dispmix_blk_ctl (Mxsfbv3.regs_const 0) (some 4) 0 []) (dispmix_domain 1)
        attach_result.null 0).1 = 0 ∧
    (imx_blk_ctl_probe (dispmix_blk_ctl (Mxsfbv3.regs_const 0) (some 4) 0 []) (dispmix_domain 1)
        attach_result.null 0).2.1.hooked = true :=
  ⟨((probe_defers_until_bus_domain (dispmix_blk_ctl (Mxsfbv3.regs_const 0) none 0 [])
        (dispmix_domain 1) attach_result.null 0).1 rfl rfl).1,
    ((probe_defers_until_bus_domain (dispmix_blk_ctl (Mxsfbv3.regs_const 0) none 0 [])
        (dispmix_domain 1) attach_result.null 0).1 rfl rfl).2.1,
    ((probe_defers_until_bus_domain (dispmix_blk_ctl (Mxsfbv3.regs_const 0) (some 4) 0 [])
        (dispmix_domain 1) attach_result.null 0).2.1 rfl 4 rfl rfl).1,
    ((probe_defers_until_bus_domain (dispmix_blk_ctl (Mxsfbv3.regs_const 0) (some 4) 0 [])
        (dispmix_domain 1) attach_result.null 0).2.1 rfl 4 rfl rfl).2.1⟩

/-! ## The lookup of a domain (C21) -/

/-- C21: `imx_blk_ctl_genpd_xlate` returns `-EINVAL` when the argument count
is not 1 or the index is not below the number of domains, and `-ENOENT` when
the slot at the index is empty.  For a slot holding a domain it returns that
domain if and only if the domain is hooked, and `-EPROBE_DEFER` when it is
not hooked; in neither case does it return `-ENOENT`. -/
theorem genpd_xlate_spec (blk_ctl : imx_blk_ctl) (genpd_data : genpd_onecell_data)
    (args_count args0 : Nat) :
    ((args_count ≠ 1 ∨ args0 ≥ genpd_data.domains.length) →
      (imx_blk_ctl_genpd_xlate blk_ctl genpd_data args_count args0).1 =
        Except.error (-EINVAL)) ∧
    (args_count = 1 → genpd_data.domains[args0]? = some none →
      (imx_blk_ctl_genpd_xlate blk_ctl genpd_data args_count args0).1 =
        Except.error (-ENOENT)) ∧
    (∀ domain, args_count = 1 → genpd_data.domains[args0]? = some (some domain) →
      ((imx_blk_ctl_genpd_xlate blk_ctl genpd_data args_count args0).1 = Except.ok domain ↔
        domain.hooked = true) ∧
      (domain.hooked = false →
        (imx_blk_ctl_genpd_xlate blk_ctl genpd_data args_count args0).1 =
          Except.error (-EPROBE_DEFER)) ∧
      (imx_blk_ctl_genpd_xlate blk_ctl genpd_data args_count args0).1 ≠
        Except.error (-ENOENT)) := by
  refine ⟨?_, ?_, ?_⟩
  · intro h
    unfold imx_blk_ctl_genpd_xlate
    by_cases hc : args_count ≠ 1
    · simp only [if_pos hc]
    · simp only [if_neg hc]
      have hi : args0 ≥ genpd_data.domains.length := h.resolve_left hc
      simp only [if_pos hi]
  · intro hc hslot
    have hlt : ¬ (args0 ≥ genpd_data.domains.length) := by
      intro hge
      rw [List.getElem?_eq_none hge] at hslot
      exact Option.noConfusion hslot
    have hc1 : ¬ (args_count ≠ 1) := not_not.mpr hc
    unfold imx_blk_ctl_genpd_xlate
    simp only [if_neg hc1, if_neg hlt, List.getD_eq_getElem?_getD, hslot, Option.getD_some]
  · intro domain hc hslot
    have hlt : ¬ (args0 ≥ genpd_data.domains.length) := by
      intro hge
      rw [List.getElem?_eq_none hge] at hslot
      exact Option.noConfusion hslot
    have hc1 : ¬ (args_count ≠ 1) := not_not.mpr hc
    unfold imx_blk_ctl_genpd_xlate
    simp only [if_neg hc1, if_neg hlt, List.getD_eq_getElem?_getD, hslot, Option.getD_some]
    cases hh : domain.hooked
    · refine ⟨?_, ?_, ?_⟩
      · simp
      · intro _
        simp
      · simp [ENOENT, EPROBE_DEFER]
    · refine ⟨?_, ?_, ?_⟩
      · simp
      · intro h
        exact Bool.noConfusion h
      · simp

/-- C21 at work: a table with a registered, not hooked domain in slot 0 and
an empty slot 1. -/
theorem genpd_xlate_spec_witness :
    (imx_blk_ctl_genpd_xlate (dispmix_blk_ctl (fun _ => 0) none 0 [])
        { domains := [some (dispmix_domain 0), none] } 1 0).1 =
      Except.error (-EPROBE_DEFER) ∧
    (imx_blk_ctl_genpd_xlate (dispmix_blk_ctl (fun _ => 0) none 0 [])
        { domains := [some (dispmix_domain 0), none] } 1 1).1 = Except.error (-ENOENT) ∧
    (imx_blk_ctl_genpd_xlate (dispmix_blk_ctl (fun _ => 0) none 0 [])
        { domains := [some (dispmix_domain 0), none] } 1 2).1 = Except.error (-EINVAL) :=
  ⟨((genpd_xlate_spec (dispmix_blk_ctl (fun _ => 0) none 0 [])
      { domains := [some (dispmix_domain 0), none] } 1 0).2.2 (dispmix_domain 0) rfl rfl).2.1 rfl,
    (genpd_xlate_spec (dispmix_blk_ctl (fun _ => 0) none 0 [])
      { domains := [some (dispmix_domain 0), none] } 1 1).2.1 rfl rfl,
    (genpd_xlate_spec (dispmix_blk_ctl (fun _ => 0) none 0 [])
      { domains := [some (dispmix_domain 0), none] } 1 2).1 (Or.inr (by decide))⟩

/-! ## Every path of a power transition (C22, C23) -/

/-- An induction principle for `imx_blk_ctl_enable_hsk`: a property of a
return code and a state that holds of 0 and the state at entry, that every
update of the handshake bits carries from a state reached with 0 to the
outcome of the update, and that the wait preserves, holds of the outcome. -/
theorem enable_hsk_induct (P : Int → imx_blk_ctl → Prop) (b : imx_blk_ctl)
    (h0 : P 0 b)
    (hupd : ∀ s reg mask val, P 0 s →
      ((reg = b.dev_data.hw_hsk.offset ∧ mask = b.dev_data.hw_hsk.mask) ∨
        (b.dev_data.hw_hsk.flags &&& IMX_BLK_CTL_PD_RESET ≠ 0 ∧
          reg = b.dev_data.hw_hsk.rst_offset ∧ mask = b.dev_data.hw_hsk.rst_mask)) →
      P (regmap_update_bits s reg mask val).1 (regmap_update_bits s reg mask val).2)
    (hemit : ∀ r s e, P r s →
      (e = BlkEffect.udelay 5 ∨ e = BlkEffect.dev_err_handshake_power_on ∨
        e = BlkEffect.dev_err_handshake_power_off) → P r (emit s e)) :
    P (imx_blk_ctl_enable_hsk b).1 (imx_blk_ctl_enable_hsk b).2 := by
  unfold imx_blk_ctl_enable_hsk
  by_cases hrst : b.dev_data.hw_hsk.flags &&& IMX_BLK_CTL_PD_RESET ≠ 0
  · simp only [if_pos hrst]
    have h1 := hupd b b.dev_data.hw_hsk.rst_offset b.dev_data.hw_hsk.rst_mask
      b.dev_data.hw_hsk.rst_mask h0 (Or.inr ⟨hrst, rfl, rfl⟩)
    by_cases hr : (regmap_update_bits b b.dev_data.hw_hsk.rst_offset
        b.dev_data.hw_hsk.rst_mask b.dev_data.hw_hsk.rst_mask).1 ≠ 0
    · simp only [if_pos hr]
      exact h1
    · simp only [if_neg hr]
      have hz := not_not.mp hr
      rw [hz] at h1
      exact hemit _ _ _ (hupd _ _ _ _ h1 (Or.inl ⟨rfl, rfl⟩)) (Or.inl rfl)
  · simp only [if_neg hrst]
    have hr : ¬ ((0 : Int) ≠ 0) := fun h => h rfl
    simp only [if_neg hr]
    exact hemit _ _ _ (hupd _ _ _ _ h0 (Or.inl ⟨rfl, rfl⟩)) (Or.inl rfl)

/-- An induction principle for `imx_blk_ctl_power_on` with the clocks coming
on: a property of a return code and a state that holds of 0 and the state
after the clocks are on, that every update of the bits the domain may touch
carries from a state reached with 0 to the outcome of the update, and that
waits and failure reports preserve, holds of the returned code and of the
state right before the clocks are disabled and the lock released. -/
theorem power_on_induct (P : Int → imx_blk_ctl → Prop) (blk_ctl : imx_blk_ctl)
    (pd : imx_blk_ctl_domain) (hw : imx_blk_ctl_hw)
    (hhw : blk_ctl.dev_data.pds[pd.id]? = some hw) (hclk : blk_ctl.clk_ret = 0)
    (h0 : P 0 (emit (emit blk_ctl BlkEffect.mutex_lock) (BlkEffect.clk_bulk_prepare_enable 0)))
    (hupd : ∀ s reg mask val, P 0 s → power_touches blk_ctl hw reg mask →
      P (regmap_update_bits s reg mask val).1 (regmap_update_bits s reg mask val).2)
    (hemit : ∀ r s e, P r s →
      (e = BlkEffect.udelay 5 ∨ e = BlkEffect.dev_err_handshake_power_on ∨
        e = BlkEffect.dev_err_handshake_power_off) → P r (emit s e)) :
    ∃ ret s, imx_blk_ctl_power_on blk_ctl pd =
        some (ret, emit (emit s BlkEffect.clk_bulk_disable_unprepare) BlkEffect.mutex_unlock) ∧
      P ret s := by
  unfold imx_blk_ctl_power_on
  rw [hhw]
  have hc : (emit blk_ctl BlkEffect.mutex_lock).clk_ret = 0 := hclk
  have hn : ¬ ((0 : Int) ≠ 0) := fun h => h rfl
  simp only [hc, if_neg hn]
  refine ⟨_, _, rfl, ?_⟩
  generalize hb : emit (emit blk_ctl BlkEffect.mutex_lock)
    (BlkEffect.clk_bulk_prepare_enable 0) = b at h0
  have hdd : b.dev_data = blk_ctl.dev_data := by rw [← hb]; rfl
  by_cases hflag : hw.flags &&& IMX_BLK_CTL_PD_HANDSHAKE ≠ 0
  · simp only [if_pos hflag]
    have hh : P (imx_blk_ctl_enable_hsk b).1 (imx_blk_ctl_enable_hsk b).2 := by
      refine enable_hsk_induct P b h0 ?_ hemit
      intro s reg mask val hs hor
      refine hupd s reg mask val hs ?_
      unfold power_touches
      rw [if_pos hflag, ← hdd]
      exact hor
    by_cases hr : (imx_blk_ctl_enable_hsk b).1 ≠ 0
    · simp only [if_pos hr]
      exact hemit _ _ _ hh (Or.inr (Or.inl rfl))
    · simp only [if_neg hr]
      exact hh
  · simp only [if_neg hflag]
    have hen : ∀ s, P 0 s →
        P (regmap_update_bits s hw.offset hw.mask hw.mask).1
          (regmap_update_bits s hw.offset hw.mask hw.mask).2 := by
      intro s hs
      refine hupd s _ _ _ hs ?_
      unfold power_touches
      rw [if_neg hflag]
      exact Or.inl ⟨rfl, rfl⟩
    by_cases hrst : hw.flags &&& IMX_BLK_CTL_PD_RESET ≠ 0
    · simp only [if_pos hrst]
      have hrs : ∀ s val, P 0 s →
          P (regmap_update_bits s hw.rst_offset hw.rst_mask val).1
            (regmap_update_bits s hw.rst_offset hw.rst_mask val).2 := by
        intro s val hs
        refine hupd s _ _ _ hs ?_
        unfold power_touches
        rw [if_neg hflag]
        exact Or.inr ⟨hrst, rfl, rfl⟩
      have h1 := hrs b 0 h0
      by_cases hr1 : (regmap_clear_bits b hw.rst_offset hw.rst_mask).1 ≠ 0
      · simp only [if_pos hr1]
        exact h1
      · simp only [if_neg hr1]
        have hz : (regmap_update_bits b hw.rst_offset hw.rst_mask 0).1 = 0 := not_not.mp hr1
        rw [hz] at h1
        have h2 := hrs _ hw.rst_mask (hemit _ _ (BlkEffect.udelay 5) h1 (Or.inl rfl))
        by_cases hr2 : (regmap_update_bits
            (emit (regmap_clear_bits b hw.rst_offset hw.rst_mask).2 (BlkEffect.udelay 5))
            hw.rst_offset hw.rst_mask hw.rst_mask).1 ≠ 0
        · simp only [if_pos hr2]
          exact h2
        · simp only [if_neg hr2]
          have hz2 := not_not.mp hr2
          unfold regmap_clear_bits at hz2
          rw [hz2] at h2
          exact hen _ h2
    · simp only [if_neg hrst, if_neg hn]
      exact hen _ h0

/-- An induction principle for `imx_blk_ctl_power_off` with the clocks coming
on, as `power_on_induct`. -/
theorem power_off_induct (P : Int → imx_blk_ctl → Prop) (blk_ctl : imx_blk_ctl)
    (pd : imx_blk_ctl_domain) (hw : imx_blk_ctl_hw)
    (hhw : blk_ctl.dev_data.pds[pd.id]? = some hw) (hclk : blk_ctl.clk_ret = 0)
    (h0 : P 0 (emit (emit blk_ctl BlkEffect.mutex_lock) (BlkEffect.clk_bulk_prepare_enable 0)))
    (hupd : ∀ s reg mask val, P 0 s → power_touches blk_ctl hw reg mask →
      P (regmap_update_bits s reg mask val).1 (regmap_update_bits s reg mask val).2)
    (hemit : ∀ r s e, P r s →
      (e = BlkEffect.udelay 5 ∨ e = BlkEffect.dev_err_handshake_power_on ∨
        e = BlkEffect.dev_err_handshake_power_off) → P r (emit s e)) :
    ∃ ret s, imx_blk_ctl_power_off blk_ctl pd =
        some (ret, emit (emit s BlkEffect.clk_bulk_disable_unprepare) BlkEffect.mutex_unlock) ∧
      P ret s := by
  unfold imx_blk_ctl_power_off
  rw [hhw]
  have hc : (emit blk_ctl BlkEffect.mutex_lock).clk_ret = 0 := hclk
  have hn : ¬ ((0 : Int) ≠ 0) := fun h => h rfl
  simp only [hc, if_neg hn]
  refine ⟨_, _, rfl, ?_⟩
  generalize hb : emit (emit blk_ctl BlkEffect.mutex_lock)
    (BlkEffect.clk_bulk_prepare_enable 0) = b at h0
  have hdd : b.dev_data = blk_ctl.dev_data := by rw [← hb]; rfl
  by_cases hflag : hw.flags &&& IMX_BLK_CTL_PD_HANDSHAKE ≠ 0
  · have hnn : ¬ ¬ (hw.flags &&& IMX_BLK_CTL_PD_HANDSHAKE ≠ 0) := not_not.mpr hflag
    simp only [if_neg hnn]
    have hh : P (imx_blk_ctl_enable_hsk b).1 (imx_blk_ctl_enable_hsk b).2 := by
      refine enable_hsk_induct P b h0 ?_ hemit
      intro s reg mask val hs hor
      refine hupd s reg mask val hs ?_
      unfold power_touches
      rw [if_pos hflag, ← hdd]
      exact hor
    by_cases hr : (imx_blk_ctl_enable_hsk b).1 ≠ 0
    · simp only [if_pos hr]
      exact hemit _ _ _ hh (Or.inr (Or.inr rfl))
    · simp only [if_neg hr]
      exact hh
  · simp only [if_pos hflag]
    have h1 : P (regmap_clear_bits b hw.offset hw.mask).1
        (regmap_clear_bits b hw.offset hw.mask).2 := by
      refine hupd b _ _ _ h0 ?_
      unfold power_touches
      rw [if_neg hflag]
      exact Or.inl ⟨rfl, rfl⟩
    by_cases hr1 : (regmap_clear_bits b hw.offset hw.mask).1 ≠ 0
    · simp only [if_pos hr1]
      exact h1
    · simp only [if_neg hr1]
      by_cases hrst : hw.flags &&& IMX_BLK_CTL_PD_RESET ≠ 0
      · simp only [if_pos hrst]
        rw [not_not.mp hr1] at h1
        refine hupd _ _ _ _ h1 ?_
        unfold power_touches
        rw [if_neg hflag]
        exact Or.inr ⟨hrst, rfl, rfl⟩
      · simp only [if_neg hrst]
        exact h1

/-- With the clocks failing to come on, `imx_blk_ctl_power_on` releases the
lock and returns the code of the clocks. -/
theorem power_on_clk_fail (blk_ctl : imx_blk_ctl) (pd : imx_blk_ctl_domain)
    (hw : imx_blk_ctl_hw) (hhw : blk_ctl.dev_data.pds[pd.id]? = some hw)
    (hclk : blk_ctl.clk_ret ≠ 0) :
    imx_blk_ctl_power_on blk_ctl pd =
      some (blk_ctl.clk_ret,
        emit (emit (emit blk_ctl BlkEffect.mutex_lock)
          (BlkEffect.clk_bulk_prepare_enable blk_ctl.clk_ret)) BlkEffect.mutex_unlock) := by
  unfold imx_blk_ctl_power_on
  rw [hhw]
  have hc : (emit blk_ctl BlkEffect.mutex_lock).clk_ret = blk_ctl.clk_ret := rfl
  simp only [hc, if_pos hclk]

/-- With the clocks failing to come on, `imx_blk_ctl_power_off` releases the
lock and returns the code of the clocks. -/
theorem power_off_clk_fail (blk_ctl : imx_blk_ctl) (pd : imx_blk_ctl_domain)
    (hw : imx_blk_ctl_hw) (hhw : blk_ctl.dev_data.pds[pd.id]? = some hw)
    (hclk : blk_ctl.clk_ret ≠ 0) :
    imx_blk_ctl_power_off blk_ctl pd =
      some (blk_ctl.clk_ret,
        emit (emit (emit blk_ctl BlkEffect.mutex_lock)
          (BlkEffect.clk_bulk_prepare_enable blk_ctl.clk_ret)) BlkEffect.mutex_unlock) := by
  unfold imx_blk_ctl_power_off
  rw [hhw]
  have hc : (emit blk_ctl BlkEffect.mutex_lock).clk_ret = blk_ctl.clk_ret := rfl
  simp only [hc, if_pos hclk]

/-- The trace property every path with the clocks on keeps: the effects
after the enabling of the clocks are sequencer steps, and the codes of the
register updates among them are zeros followed by the current code. -/
theorem sequencer_trace_step (pre : List BlkEffect) (s : imx_blk_ctl) (reg mask val : Nat)
    (h : ∃ mid, s.trace = pre ++ mid ∧ (∀ e ∈ mid, is_sequencer_step e = true) ∧
      ((regmap_rets_of mid = [] ∧ (0 : Int) = 0) ∨
        ∃ zs, regmap_rets_of mid = zs ++ [0] ∧ ∀ z ∈ zs, z = 0)) :
    ∃ mid, (regmap_update_bits s reg mask val).2.trace = pre ++ mid ∧
      (∀ e ∈ mid, is_sequencer_step e = true) ∧
      ((regmap_rets_of mid = [] ∧ (regmap_update_bits s reg mask val).1 = 0) ∨
        ∃ zs, regmap_rets_of mid = zs ++ [(regmap_update_bits s reg mask val).1] ∧
          ∀ z ∈ zs, z = 0) := by
  obtain ⟨mid, ht, hsteps, hrets⟩ := h
  refine ⟨mid ++ [BlkEffect.regmap_update_bits reg mask val (s.regmap_rets.headD 0)],
    ?_, ?_, Or.inr ⟨regmap_rets_of mid, ?_, ?_⟩⟩
  · rw [(regmap_update_bits_state s reg mask val).1, ht, List.append_assoc]
  · intro e he
    rcases List.mem_append.mp he with h1 | h1
    · exact hsteps e h1
    · rw [List.mem_singleton.mp h1]
      rfl
  · rw [regmap_update_bits_ret]
    simp [regmap_rets_of, List.filterMap_append]
  · intro z hz
    rcases hrets with ⟨h1, _⟩ | ⟨zs, h1, h2⟩
    · rw [h1] at hz
      exact absurd hz (List.not_mem_nil z)
    · rw [h1] at hz
      rcases List.mem_append.mp hz with h3 | h3
      · exact h2 z h3
      · exact List.mem_singleton.mp h3

/-- A wait or a failure report keeps the trace property of
`sequencer_trace_step`. -/
theorem sequencer_trace_emit (pre : List BlkEffect) (r : Int) (s : imx_blk_ctl)
    (e : BlkEffect)
    (he : e = BlkEffect.udelay 5 ∨ e = BlkEffect.dev_err_handshake_power_on ∨
      e = BlkEffect.dev_err_handshake_power_off)
    (h : ∃ mid, s.trace = pre ++ mid ∧ (∀ e ∈ mid, is_sequencer_step e = true) ∧
      ((regmap_rets_of mid = [] ∧ r = 0) ∨
        ∃ zs, regmap_rets_of mid = zs ++ [r] ∧ ∀ z ∈ zs, z = 0)) :
    ∃ mid, (emit s e).trace = pre ++ mid ∧ (∀ e ∈ mid, is_sequencer_step e = true) ∧
      ((regmap_rets_of mid = [] ∧ r = 0) ∨
        ∃ zs, regmap_rets_of mid = zs ++ [r] ∧ ∀ z ∈ zs, z = 0) := by
  obtain ⟨mid, ht, hsteps, hrets⟩ := h
  have hr : regmap_rets_of (mid ++ [e]) = regmap_rets_of mid := by
    rcases he with h1 | h1 | h1 <;> rw [h1] <;> simp [regmap_rets_of, List.filterMap_append]
  have hstep : is_sequencer_step e = true := by
    rcases he with h1 | h1 | h1 <;> rw [h1] <;> rfl
  refine ⟨mid ++ [e], ?_, ?_, ?_⟩
  · show s.trace ++ [e] = pre ++ (mid ++ [e])
    rw [ht, List.append_assoc]
  · intro x hx
    rcases List.mem_append.mp hx with h1 | h1
    · exact hsteps x h1
    · rw [List.mem_singleton.mp h1]
      exact hstep
  · rw [hr]
    exact hrets

/-- A trace of sequencer steps holds neither a lock operation nor a clock
operation. -/
theorem sequencer_steps_count (mid : List BlkEffect)
    (h : ∀ e ∈ mid, is_sequencer_step e = true) :
    mid.count BlkEffect.mutex_lock = 0 ∧ mid.count BlkEffect.mutex_unlock = 0 ∧
      mid.count BlkEffect.clk_bulk_disable_unprepare = 0 ∧
      ∀ r, mid.count (BlkEffect.clk_bulk_prepare_enable r) = 0 := by
  refine ⟨?_, ?_, ?_, ?_⟩
  · exact List.count_eq_zero.mpr (fun hm => by simpa [is_sequencer_step] using h _ hm)
  · exact List.count_eq_zero.mpr (fun hm => by simpa [is_sequencer_step] using h _ hm)
  · exact List.count_eq_zero.mpr (fun hm => by simpa [is_sequencer_step] using h _ hm)
  · intro r
    exact List.count_eq_zero.mpr (fun hm => by simpa [is_sequencer_step] using h _ hm)

/-- C22: every path through `imx_blk_ctl_power_on` and
`imx_blk_ctl_power_off` returns, and its effects `t` begin with the one
acquisition of the lock and end with its one release.  When the enabling of
the clocks fails the effects are the lock, the failed enabling and the
unlock: no register update, no disabling of the clocks, the register file as
it was, and the code of the clocks returned.  When it succeeds the effects
are the lock, the enabling, sequencer steps `mid` (register updates, waits,
the report of a failed handshake), the one disabling of the clocks and the
unlock; the return codes of the register updates in `mid` are zeros followed
by the returned code, so that a failing update is the last update performed
and its code is the one returned. -/
theorem power_paths_balanced (blk_ctl : imx_blk_ctl) (pd : imx_blk_ctl_domain)
    (hw : imx_blk_ctl_hw) (hhw : blk_ctl.dev_data.pds[pd.id]? = some hw)
    (f : imx_blk_ctl → imx_blk_ctl_domain → Option (Int × imx_blk_ctl))
    (hf : f = imx_blk_ctl_power_on ∨ f = imx_blk_ctl_power_off) :
    ∃ ret s t, f blk_ctl pd = some (ret, s) ∧ s.trace = blk_ctl.trace ++ t ∧
      t.count BlkEffect.mutex_lock = 1 ∧ t.count BlkEffect.mutex_unlock = 1 ∧
      t.head? = some BlkEffect.mutex_lock ∧ t.getLast? = some BlkEffect.mutex_unlock ∧
      (blk_ctl.clk_ret ≠ 0 →
        ret = blk_ctl.clk_ret ∧ s.regmap = blk_ctl.regmap ∧
        t = [BlkEffect.mutex_lock, BlkEffect.clk_bulk_prepare_enable blk_ctl.clk_ret,
          BlkEffect.mutex_unlock]) ∧
      (blk_ctl.clk_ret = 0 →
        ∃ mid,
          t = [BlkEffect.mutex_lock, BlkEffect.clk_bulk_prepare_enable 0] ++ mid ++
            [BlkEffect.clk_bulk_disable_unprepare, BlkEffect.mutex_unlock] ∧
          (∀ e ∈ mid, is_sequencer_step e = true) ∧
          t.count (BlkEffect.clk_bulk_prepare_enable 0) = 1 ∧
          t.count BlkEffect.clk_bulk_disable_unprepare = 1 ∧
          ((regmap_rets_of mid = [] ∧ ret = 0) ∨
            ∃ zs, regmap_rets_of mid = zs ++ [ret] ∧ ∀ z ∈ zs, z = 0)) := by
  by_cases hclk : blk_ctl.clk_ret = 0
  · have h :
        ∃ ret s, f blk_ctl pd =
          some (ret, emit (emit s BlkEffect.clk_bulk_disable_unprepare) BlkEffect.mutex_unlock) ∧
        ∃ mid, s.trace = (blk_ctl.trace ++
            [BlkEffect.mutex_lock, BlkEffect.clk_bulk_prepare_enable 0]) ++ mid ∧
          (∀ e ∈ mid, is_sequencer_step e = true) ∧
          ((regmap_rets_of mid = [] ∧ ret = 0) ∨
            ∃ zs, regmap_rets_of mid = zs ++ [ret] ∧ ∀ z ∈ zs, z = 0) := by
      have h0 : ∃ mid, (emit (emit blk_ctl BlkEffect.mutex_lock)
            (BlkEffect.clk_bulk_prepare_enable 0)).trace = (blk_ctl.trace ++
              [BlkEffect.mutex_lock, BlkEffect.clk_bulk_prepare_enable 0]) ++ mid ∧
          (∀ e ∈ mid, is_sequencer_step e = true) ∧
          ((regmap_rets_of mid = [] ∧ (0 : Int) = 0) ∨
            ∃ zs, regmap_rets_of mid = zs ++ [(0 : Int)] ∧ ∀ z ∈ zs, z = 0) :=
        ⟨[], by simp [emit], fun e he => absurd he (List.not_mem_nil e), Or.inl ⟨rfl, rfl⟩⟩
      rcases hf with hf | hf
      · rw [hf]
        exact power_on_induct _ blk_ctl pd hw hhw hclk h0
          (fun s reg mask val hs _ => sequencer_trace_step _ s reg mask val hs)
          (fun r s e hs he => sequencer_trace_emit _ r s e he hs)
      · rw [hf]
        exact power_off_induct _ blk_ctl pd hw hhw hclk h0
          (fun s reg mask val hs _ => sequencer_trace_step _ s reg mask val hs)
          (fun r s e hs he => sequencer_trace_emit _ r s e he hs)
    obtain ⟨ret, s, hfs, mid, ht, hsteps, hrets⟩ := h
    obtain ⟨hc1, hc2, hc3, hc4⟩ := sequencer_steps_count mid hsteps
    refine ⟨ret, _, [BlkEffect.mutex_lock, BlkEffect.clk_bulk_prepare_enable 0] ++ mid ++
      [BlkEffect.clk_bulk_disable_unprepare, BlkEffect.mutex_unlock], hfs, ?_, ?_, ?_, ?_, ?_,
      fun h => absurd hclk h, fun _ => ⟨mid, rfl, hsteps, ?_, ?_, hrets⟩⟩
    · simp [emit, ht]
    · simp [List.count_cons, hc1]
    · simp [List.count_cons, hc2]
    · simp
    · have hl : [BlkEffect.mutex_lock, BlkEffect.clk_bulk_prepare_enable 0] ++ mid ++
          [BlkEffect.clk_bulk_disable_unprepare, BlkEffect.mutex_unlock] =
          ([BlkEffect.mutex_lock, BlkEffect.clk_bulk_prepare_enable 0] ++ mid ++
            [BlkEffect.clk_bulk_disable_unprepare]) ++ [BlkEffect.mutex_unlock] := by
        simp
      rw [hl, List.getLast?_concat]
    · simp [List.count_cons, hc4 0]
    · simp [List.count_cons, hc3]
  · have hfs : f blk_ctl pd = some (blk_ctl.clk_ret,
        emit (emit (emit blk_ctl BlkEffect.mutex_lock)
          (BlkEffect.clk_bulk_prepare_enable blk_ctl.clk_ret)) BlkEffect.mutex_unlock) := by
      rcases hf with hf | hf
      · rw [hf]
        exact power_on_clk_fail blk_ctl pd hw hhw hclk
      · rw [hf]
        exact power_off_clk_fail blk_ctl pd hw hhw hclk
    refine ⟨_, _, [BlkEffect.mutex_lock, BlkEffect.clk_bulk_prepare_enable blk_ctl.clk_ret,
      BlkEffect.mutex_unlock], hfs, ?_, ?_, ?_, rfl, rfl, fun _ => ⟨rfl, rfl, rfl⟩,
      fun h => absurd h hclk⟩
    · simp [emit]
    · simp [List.count_cons]
    · simp [List.count_cons]

/-- C22 at work: a reset-flagged dispmix domain whose second register update
fails with -5. -/
theorem power_paths_balanced_witness :
    (dispmix_blk_ctl (fun _ => 0) none 0 [0, -5]).dev_data.pds[(dispmix_domain 0).id]? =
        some (dispmix_domain 0).hw ∧
    ∃ ret s t,
      imx_blk_ctl_power_on (dispmix_blk_ctl (fun _ => 0) none 0 [0, -5]) (dispmix_domain 0) =
        some (ret, s) ∧
      s.trace = (dispmix_blk_ctl (fun _ => 0) none 0 [0, -5]).trace ++ t ∧
      t.count BlkEffect.mutex_lock = 1 ∧ t.count BlkEffect.mutex_unlock = 1 ∧
      t.head? = some BlkEffect.mutex_lock ∧ t.getLast? = some BlkEffect.mutex_unlock ∧
      ((dispmix_blk_ctl (fun _ => 0) none 0 [0, -5]).clk_ret ≠ 0 →
        ret = (dispmix_blk_ctl (fun _ => 0) none 0 [0, -5]).clk_ret ∧
        s.regmap = (dispmix_blk_ctl (fun _ => 0) none 0 [0, -5]).regmap ∧
        t = [BlkEffect.mutex_lock,
          BlkEffect.clk_bulk_prepare_enable
            (dispmix_blk_ctl (fun _ => 0) none 0 [0, -5]).clk_ret,
          BlkEffect.mutex_unlock]) ∧
      ((dispmix_blk_ctl (fun _ => 0) none 0 [0, -5]).clk_ret = 0 →
        ∃ mid,
          t = [BlkEffect.mutex_lock, BlkEffect.clk_bulk_prepare_enable 0] ++ mid ++
            [BlkEffect.clk_bulk_disable_unprepare, BlkEffect.mutex_unlock] ∧
          (∀ e ∈ mid, is_sequencer_step e = true) ∧
          t.count (BlkEffect.clk_bulk_prepare_enable 0) = 1 ∧
          t.count BlkEffect.clk_bulk_disable_unprepare = 1 ∧
          ((regmap_rets_of mid = [] ∧ ret = 0) ∨
            ∃ zs, regmap_rets_of mid = zs ++ [ret] ∧ ∀ z ∈ zs, z = 0)) :=
  ⟨by decide,
    power_paths_balanced (dispmix_blk_ctl (fun _ => 0) none 0 [0, -5]) (dispmix_domain 0)
      (dispmix_domain 0).hw (by decide) imx_blk_ctl_power_on (Or.inl rfl)⟩

/-! ## Sibling domains of one table (C23) -/

/-- A register update leaves the bits of a mask `m` of register `o` alone
when it is for another register or for bits disjoint from `m`. -/
theorem regmap_update_bits_frame (b : imx_blk_ctl) (reg mask val o m : Nat)
    (hm : m < 2 ^ 32) (h : o ≠ reg ∨ mask &&& m = 0) :
    (regmap_update_bits b reg mask val).2.regmap o &&& m = b.regmap o &&& m := by
  rw [regmap_update_bits_regmap]
  by_cases hc : o = reg ∧ b.regmap_rets.headD 0 = 0
  · rw [if_pos hc]
    have hd : mask &&& m = 0 := h.resolve_left (fun hne => hne hc.1)
    rw [hc.1]
    apply Nat.eq_of_testBit_eq
    intro i
    have hdi : (mask &&& m).testBit i = false := by rw [hd, Nat.zero_testBit]
    rw [Nat.testBit_and] at hdi
    rw [Nat.testBit_and, Nat.testBit_or, Nat.testBit_and, Nat.testBit_mod_two_pow,
      Nat.testBit_mod_two_pow, Nat.testBit_and, Mxsfbv3.testBit_not32, Nat.testBit_and]
    by_cases hi : i < 32
    · cases hmi : m.testBit i
      · simp
      · rw [hmi] at hdi
        have hmk : mask.testBit i = false := by simpa using hdi
        simp [hi, hmk]
    · have hmi : m.testBit i = false :=
        Nat.testBit_lt_two_pow
          (lt_of_lt_of_le hm (Nat.pow_le_pow_right (by decide) (not_lt.mp hi)))
      simp [hmi]
  · rw [if_neg hc]

/-- In the dispmix table two distinct entries have disjoint enable masks, the
masks fit 32 bits, and the reset register of an entry flagged `RESET` is not
the enable register of another. -/
theorem dispmix_masks_disjoint :
    ∀ i < 5, ∀ j < 5, i ≠ j →
      (imx8mm_dispmix_blk_ctl_pds.getD i imx8mm_dispmix_hw_hsk).mask &&&
          (imx8mm_dispmix_blk_ctl_pds.getD j imx8mm_dispmix_hw_hsk).mask = 0 ∧
        (imx8mm_dispmix_blk_ctl_pds.getD j imx8mm_dispmix_hw_hsk).mask < 2 ^ 32 ∧
        ((imx8mm_dispmix_blk_ctl_pds.getD i imx8mm_dispmix_hw_hsk).flags &&&
            IMX_BLK_CTL_PD_RESET ≠ 0 →
          (imx8mm_dispmix_blk_ctl_pds.getD j imx8mm_dispmix_hw_hsk).offset ≠
            (imx8mm_dispmix_blk_ctl_pds.getD i imx8mm_dispmix_hw_hsk).rst_offset) := by
  decide

/-- In the vpumix table two distinct entries other than `VPU_BLK_CTL_H1` and
`VPU_BLK_CTL_BUS` have disjoint enable masks, the masks fit 32 bits, and the
reset register of an entry flagged `RESET` is not the enable register of
another. -/
theorem vpumix_masks_disjoint :
    ∀ i < 4, ∀ j < 4, i ≠ j →
      (i = IMX8MM_BLK_CTL_PD_VPU_H1 ∧ j = IMX8MM_BLK_CTL_PD_VPU_BUS) ∨
      (i = IMX8MM_BLK_CTL_PD_VPU_BUS ∧ j = IMX8MM_BLK_CTL_PD_VPU_H1) ∨
      (imx8mm_vpumix_blk_ctl_pds.getD i imx8mm_vpumix_hw_hsk).mask &&&
          (imx8mm_vpumix_blk_ctl_pds.getD j imx8mm_vpumix_hw_hsk).mask = 0 ∧
        (imx8mm_vpumix_blk_ctl_pds.getD j imx8mm_vpumix_hw_hsk).mask < 2 ^ 32 ∧
        ((imx8mm_vpumix_blk_ctl_pds.getD i imx8mm_vpumix_hw_hsk).flags &&&
            IMX_BLK_CTL_PD_RESET ≠ 0 →
          (imx8mm_vpumix_blk_ctl_pds.getD j imx8mm_vpumix_hw_hsk).offset ≠
            (imx8mm_vpumix_blk_ctl_pds.getD i imx8mm_vpumix_hw_hsk).rst_offset) := by
  intro i hi j hj
  interval_cases i <;> interval_cases j <;> decide

/-- An entry found in a table is the one `getD` yields, at an index inside
the table. -/
theorem getD_of_getElem_some (l : List imx_blk_ctl_hw) (i : Nat) (a d : imx_blk_ctl_hw)
    (h : l[i]? = some a) : i < l.length ∧ l.getD i d = a := by
  refine ⟨?_, ?_⟩
  · by_contra hge
    rw [List.getElem?_eq_none (not_lt.mp hge)] at h
    exact Option.noConfusion h
  · rw [List.getD_eq_getElem?_getD, h, Option.getD_some]

/-- A power transition of a domain not flagged `HANDSHAKE` leaves the bits of
a mask `m` of register `o` alone when `m` is disjoint from its enable mask
and, for a domain flagged `RESET`, `o` is not its reset register. -/
theorem power_frame (blk_ctl : imx_blk_ctl) (pd : imx_blk_ctl_domain) (A : imx_blk_ctl_hw)
    (o m : Nat) (hA : blk_ctl.dev_data.pds[pd.id]? = some A)
    (hflag : A.flags &&& IMX_BLK_CTL_PD_HANDSHAKE = 0)
    (hm : m < 2 ^ 32) (hd : A.mask &&& m = 0)
    (hr : A.flags &&& IMX_BLK_CTL_PD_RESET ≠ 0 → o ≠ A.rst_offset)
    (f : imx_blk_ctl → imx_blk_ctl_domain → Option (Int × imx_blk_ctl))
    (hf : f = imx_blk_ctl_power_on ∨ f = imx_blk_ctl_power_off) :
    ∃ ret s, f blk_ctl pd = some (ret, s) ∧ s.regmap o &&& m = blk_ctl.regmap o &&& m := by
  by_cases hclk : blk_ctl.clk_ret = 0
  · have hupd : ∀ (s : imx_blk_ctl) (reg mask val : Nat),
        s.regmap o &&& m = blk_ctl.regmap o &&& m → power_touches blk_ctl A reg mask →
        (regmap_update_bits s reg mask val).2.regmap o &&& m = blk_ctl.regmap o &&& m := by
      intro s reg mask val hs ht
      unfold power_touches at ht
      rw [if_neg (not_not.mpr hflag)] at ht
      rw [← hs]
      refine regmap_update_bits_frame s reg mask val o m hm ?_
      rcases ht with ⟨_, h2⟩ | ⟨h1, h2, _⟩
      · rw [h2]
        exact Or.inr hd
      · rw [h2]
        exact Or.inl (hr h1)
    have h : ∃ ret s, f blk_ctl pd =
          some (ret, emit (emit s BlkEffect.clk_bulk_disable_unprepare) BlkEffect.mutex_unlock) ∧
        s.regmap o &&& m = blk_ctl.regmap o &&& m := by
      rcases hf with hf | hf
      · rw [hf]
        exact power_on_induct (fun _ s => s.regmap o &&& m = blk_ctl.regmap o &&& m)
          blk_ctl pd A hA hclk rfl hupd (fun _ _ _ hs _ => hs)
      · rw [hf]
        exact power_off_induct (fun _ s => s.regmap o &&& m = blk_ctl.regmap o &&& m)
          blk_ctl pd A hA hclk rfl hupd (fun _ _ _ hs _ => hs)
    obtain ⟨ret, s, hfs, hs⟩ := h
    exact ⟨ret, _, hfs, hs⟩
  · rcases hf with hf | hf
    · rw [hf]
      exact ⟨_, _, power_on_clk_fail blk_ctl pd A hA hclk, rfl⟩
    · rw [hf]
      exact ⟨_, _, power_off_clk_fail blk_ctl pd A hA hclk, rfl⟩

/-- C23, the case that fails: in the vpumix table `VPU_BLK_CTL_H1`, which is
not flagged `HANDSHAKE`, and the bus entry `VPU_BLK_CTL_BUS` are distinct
entries with the same enable offset and the same enable mask `BIT(2)`; with
every register holding `0xffffffff`, `imx_blk_ctl_power_off` of
`VPU_BLK_CTL_H1` returns 0 and leaves the enable bit of the bus entry
clear. -/
theorem vpumix_power_off_h1_clears_bus_enable :
    IMX8MM_BLK_CTL_PD_VPU_H1 ≠ IMX8MM_BLK_CTL_PD_VPU_BUS ∧
    imx8mm_vpumix_blk_ctl_pds[IMX8MM_BLK_CTL_PD_VPU_BUS]? = some imx8mm_vpumix_hw_hsk ∧
    (vpumix_domain IMX8MM_BLK_CTL_PD_VPU_H1).id = IMX8MM_BLK_CTL_PD_VPU_H1 ∧
    imx8mm_vpumix_blk_ctl_pds[IMX8MM_BLK_CTL_PD_VPU_H1]? =
      some (vpumix_domain IMX8MM_BLK_CTL_PD_VPU_H1).hw ∧
    (vpumix_domain IMX8MM_BLK_CTL_PD_VPU_H1).hw.flags &&& IMX_BLK_CTL_PD_HANDSHAKE = 0 ∧
    (vpumix_domain IMX8MM_BLK_CTL_PD_VPU_H1).hw.offset = imx8mm_vpumix_hw_hsk.offset ∧
    (vpumix_domain IMX8MM_BLK_CTL_PD_VPU_H1).hw.mask &&& imx8mm_vpumix_hw_hsk.mask = BIT 2 ∧
    (vpumix_blk_ctl (fun _ => 0xffffffff) none 0 []).regmap imx8mm_vpumix_hw_hsk.offset &&&
      imx8mm_vpumix_hw_hsk.mask = BIT 2 ∧
    (imx_blk_ctl_power_off (vpumix_blk_ctl (fun _ => 0xffffffff) none 0 [])
        (vpumix_domain IMX8MM_BLK_CTL_PD_VPU_H1)).map
      (fun r => (r.1, r.2.regmap imx8mm_vpumix_hw_hsk.offset &&& imx8mm_vpumix_hw_hsk.mask)) =
      some (0, 0) := by
  decide

/-- C23, amended: for two distinct entries `A = pds[pd->id]` and `B = pds[j]`
of the dispmix table, or of the vpumix table unless they are
`VPU_BLK_CTL_H1` and `VPU_BLK_CTL_BUS`, the enable masks are disjoint; and
when `A` is not flagged `HANDSHAKE`, `imx_blk_ctl_power_on` and
`imx_blk_ctl_power_off` of the domain of `A` return, on every path, with the
bits of the enable mask of `B` in the enable register of `B` as they
were. -/
theorem sibling_enable_bits_kept (blk_ctl : imx_blk_ctl) (pd : imx_blk_ctl_domain) (j : Nat)
    (A B : imx_blk_ctl_hw)
    (htab : blk_ctl.dev_data.pds = imx8mm_dispmix_blk_ctl_pds ∨
      (blk_ctl.dev_data.pds = imx8mm_vpumix_blk_ctl_pds ∧
        ¬ (pd.id = IMX8MM_BLK_CTL_PD_VPU_H1 ∧ j = IMX8MM_BLK_CTL_PD_VPU_BUS) ∧
        ¬ (pd.id = IMX8MM_BLK_CTL_PD_VPU_BUS ∧ j = IMX8MM_BLK_CTL_PD_VPU_H1)))
    (hA : blk_ctl.dev_data.pds[pd.id]? = some A) (hB : blk_ctl.dev_data.pds[j]? = some B)
    (hne : pd.id ≠ j)
    (f : imx_blk_ctl → imx_blk_ctl_domain → Option (Int × imx_blk_ctl))
    (hf : f = imx_blk_ctl_power_on ∨ f = imx_blk_ctl_power_off) :
    A.mask &&& B.mask = 0 ∧
    (A.flags &&& IMX_BLK_CTL_PD_HANDSHAKE = 0 →
      ∃ ret s, f blk_ctl pd = some (ret, s) ∧
        s.regmap B.offset &&& B.mask = blk_ctl.regmap B.offset &&& B.mask) := by
  have hfacts : A.mask &&& B.mask = 0 ∧ B.mask < 2 ^ 32 ∧
      (A.flags &&& IMX_BLK_CTL_PD_RESET ≠ 0 → B.offset ≠ A.rst_offset) := by
    rcases htab with hd | ⟨hv, hx1, hx2⟩
    · have hA1 := hA
      have hB1 := hB
      rw [hd] at hA1 hB1
      obtain ⟨hi, hAe⟩ := getD_of_getElem_some _ _ _ imx8mm_dispmix_hw_hsk hA1
      obtain ⟨hj, hBe⟩ := getD_of_getElem_some _ _ _ imx8mm_dispmix_hw_hsk hB1
      have h := dispmix_masks_disjoint pd.id hi j hj hne
      rw [hAe, hBe] at h
      exact h
    · have hA1 := hA
      have hB1 := hB
      rw [hv] at hA1 hB1
      obtain ⟨hi, hAe⟩ := getD_of_getElem_some _ _ _ imx8mm_vpumix_hw_hsk hA1
      obtain ⟨hj, hBe⟩ := getD_of_getElem_some _ _ _ imx8mm_vpumix_hw_hsk hB1
      have h := vpumix_masks_disjoint pd.id hi j hj hne
      rw [hAe, hBe] at h
      rcases h with h | h | h
      · exact absurd h hx1
      · exact absurd h hx2
      · exact h
  exact ⟨hfacts.1, fun hflag =>
    power_frame blk_ctl pd A B.offset B.mask hA hflag hfacts.2.1 hfacts.1 hfacts.2.2 f hf⟩

/-- C23 at work: powering off the CSI bridge of a dispmix block whose
registers hold `0xffffffff` leaves the enable bit of the bus entry set. -/
theorem sibling_enable_bits_kept_witness :
    (dispmix_domain 0).hw.flags &&& IMX_BLK_CTL_PD_HANDSHAKE = 0 ∧
    (dispmix_domain 0).hw.mask &&& imx8mm_dispmix_hw_hsk.mask = 0 ∧
    ((dispmix_domain 0).hw.flags &&& IMX_BLK_CTL_PD_HANDSHAKE = 0 →
      ∃ ret s,
        imx_blk_ctl_power_off (dispmix_blk_ctl (fun _ => 0xffffffff) none 0 [])
          (dispmix_domain 0) = some (ret, s) ∧
        s.regmap imx8mm_dispmix_hw_hsk.offset &&& imx8mm_dispmix_hw_hsk.mask =
          (dispmix_blk_ctl (fun _ => 0xffffffff) none 0 []).regmap
            imx8mm_dispmix_hw_hsk.offset &&& imx8mm_dispmix_hw_hsk.mask) :=
  ⟨by decide,
    sibling_enable_bits_kept (dispmix_blk_ctl (fun _ => 0xffffffff) none 0 [])
      (dispmix_domain 0) 4 (dispmix_domain 0).hw imx8mm_dispmix_hw_hsk (Or.inl rfl)
      (by decide) (by decide) (by decide) imx_blk_ctl_power_off (Or.inr rfl)⟩

end ImxBlkCtl
